import Mathlib

/-!
Verification of the DLC oracle signature core (mit-dci/dlc-oracle-nodejs).

The JavaScript source (`src/lib/index.ts`) is shallowly embedded below:
byte buffers become `List Nat` (each entry a byte value), JavaScript/bn.js
big integers become `Nat`/`Int`, hex strings become lists of hex-digit
values, and operations that throw become `Option`-valued functions
returning `none` on the throwing paths.  The secp256k1 arithmetic performed
by the `elliptic` library is embedded by its affine formulas, and SHA-256
(node's `crypto`) is embedded in full.
-/

set_option maxRecDepth 1000000
set_option maxHeartbeats 16000000

namespace Dlc

/-! ## Definitions -/

/-- secp256k1 field prime `p = 2^256 - 2^32 - 977`. -/
def P : Nat := 115792089237316195423570985008687907853269984665640564039457584007908834671663

/-- secp256k1 group order `n`. -/
def N : Nat := 115792089237316195423570985008687907852837564279074904382605163141518161494337

/-- x-coordinate of the secp256k1 generator. -/
def Gx : Nat := 55066263022277343669578718895168534326250603453777594175500187360389116729240

/-- y-coordinate of the secp256k1 generator. -/
def Gy : Nat := 32670510020758816978083085130507043184471273380659243275938904335757337482424

/-- Fuel-driven modular exponentiation by repeated squaring (used to embed
bn.js reduced-power computations executably). -/
def powModAux (m : Nat) : Nat → Nat → Nat → Nat
  | _, _, 0 => 1 % m
  | b, e, f+1 =>
    if e = 0 then 1 % m
    else
      let r := powModAux m (b * b % m) (e / 2) f
      if e % 2 = 1 then b % m * r % m else r

/-- Fuel-driven base-16 digit extraction, least significant digit first. -/
def hexDigitsAux : Nat → Nat → List Nat
  | 0, _ => []
  | f+1, v => if v = 0 then [] else v % 16 :: hexDigitsAux f (v / 16)

/-- JavaScript/bn.js `v.toString(16)`: minimal big-endian hex digits of `v`,
with `0` rendered as the single digit `0`.  Digits are modelled by their
numeric values. -/
def hexJS (v : Nat) : List Nat :=
  if v = 0 then [0] else (hexDigitsAux (v + 1) v).reverse

/-- Node `Buffer.from(hexString, 'hex')`: consecutive pairs of hex digits
become bytes; a trailing unpaired digit is silently dropped (node truncates
at the first incomplete pair). -/
def pairBytes : List Nat → List Nat
  | a :: b :: t => (16 * a + b) :: pairBytes t
  | _ => []

/-- Fixed-width base-`b` digits of a number, least significant first. -/
def lePad (b : Nat) : Nat → Nat → List Nat
  | 0, _ => []
  | m+1, v => v % b :: lePad b m (v / b)

/-- Fixed-width (`m` bytes) big-endian byte encoding of `v`. -/
def beBytes (m v : Nat) : List Nat := (lePad 256 m v).reverse

/-- Fixed-width (`m` digits) big-endian hex-digit encoding of `v`. -/
def beHex (m v : Nat) : List Nat := (lePad 16 m v).reverse

/-- Big-endian byte buffer interpreted as a number (bn.js `new BN(buf)`). -/
def bytesToNat (l : List Nat) : Nat := l.foldl (fun acc b => acc * 256 + b) 0

/-! ### SHA-256 (node `crypto` `createHash('sha256')`) -/

/-- 2^32, the word modulus of SHA-256. -/
def M32 : Nat := 4294967296

/-- Right rotation of a 32-bit word. -/
def rotr (n x : Nat) : Nat := (x >>> n) ||| ((x <<< (32 - n)) % M32)

/-- Addition modulo 2^32. -/
def add32 (a b : Nat) : Nat := (a + b) % M32

/-- SHA-256 choice function. -/
def chV (x y z : Nat) : Nat := (x &&& y) ^^^ ((x ^^^ 4294967295) &&& z)

/-- SHA-256 majority function. -/
def majV (x y z : Nat) : Nat := (y &&& z) ^^^ (x &&& z) ^^^ (x &&& y)

def bsig0 (x : Nat) : Nat := rotr 2 x ^^^ rotr 13 x ^^^ rotr 22 x

def bsig1 (x : Nat) : Nat := rotr 6 x ^^^ rotr 11 x ^^^ rotr 25 x

def ssig0 (x : Nat) : Nat := rotr 7 x ^^^ rotr 18 x ^^^ (x >>> 3)

def ssig1 (x : Nat) : Nat := rotr 17 x ^^^ rotr 19 x ^^^ (x >>> 10)

/-- SHA-256 round constants. -/
def shaK : List Nat :=
  [0x428a2f98, 0x71374491, 0xb5c0fbcf, 0xe9b5dba5] ++
  [0x3956c25b, 0x59f111f1, 0x923f82a4, 0xab1c5ed5] ++
  [0xd807aa98, 0x12835b01, 0x243185be, 0x550c7dc3] ++
  [0x72be5d74, 0x80deb1fe, 0x9bdc06a7, 0xc19bf174] ++
  [0xe49b69c1, 0xefbe4786, 0x0fc19dc6, 0x240ca1cc] ++
  [0x2de92c6f, 0x4a7484aa, 0x5cb0a9dc, 0x76f988da] ++
  [0x983e5152, 0xa831c66d, 0xb00327c8, 0xbf597fc7] ++
  [0xc6e00bf3, 0xd5a79147, 0x06ca6351, 0x14292967] ++
  [0x27b70a85, 0x2e1b2138, 0x4d2c6dfc, 0x53380d13] ++
  [0x650a7354, 0x766a0abb, 0x81c2c92e, 0x92722c85] ++
  [0xa2bfe8a1, 0xa81a664b, 0xc24b8b70, 0xc76c51a3] ++
  [0xd192e819, 0xd6990624, 0xf40e3585, 0x106aa070] ++
  [0x19a4c116, 0x1e376c08, 0x2748774c, 0x34b0bcb5] ++
  [0x391c0cb3, 0x4ed8aa4a, 0x5b9cca4f, 0x682e6ff3] ++
  [0x748f82ee, 0x78a5636f, 0x84c87814, 0x8cc70208] ++
  [0x90befffa, 0xa4506ceb, 0xbef9a3f7, 0xc67178f2]

/-- SHA-256 initial state. -/
def shaH0 : List Nat :=
  [0x6a09e667, 0xbb67ae85, 0x3c6ef372, 0xa54ff53a] ++
  [0x510e527f, 0x9b05688c, 0x1f83d9ab, 0x5be0cd19]

/-- SHA-256 padding: `0x80`, zero bytes to 56 mod 64, 8-byte big-endian bit length. -/
def sha256Pad (msg : List Nat) : List Nat :=
  msg ++ 128 :: (List.replicate ((64 + 55 - msg.length % 64) % 64) 0 ++ beBytes 8 (8 * msg.length))

/-- Big-endian 4-byte groups to 32-bit words. -/
def toWords : List Nat → List Nat
  | a :: b :: c :: d :: t => (((a * 256 + b) * 256 + c) * 256 + d) :: toWords t
  | _ => []

/-- Message-schedule extension by one word per fuel step. -/
def extendW : Nat → List Nat → List Nat
  | 0, w => w
  | f+1, w =>
    let t := w.length
    extendW f (w ++ [add32 (add32 (ssig1 (w.getD (t - 2) 0)) (w.getD (t - 7) 0))
                      (add32 (ssig0 (w.getD (t - 15) 0)) (w.getD (t - 16) 0))])

/-- One SHA-256 round on the 8-word working state. -/
def shaRound (st : List Nat) (w k : Nat) : List Nat :=
  match st with
  | [a, b, c, d, e, f, g, h] =>
    let t1 := add32 h (add32 (bsig1 e) (add32 (chV e f g) (add32 k w)))
    let t2 := add32 (bsig0 a) (majV a b c)
    [add32 t1 t2, a, b, c, add32 d t1, e, f, g]
  | other => other

/-- Compression of a single 64-byte block. -/
def shaCompress (st : List Nat) (block : List Nat) : List Nat :=
  let ws := extendW 48 (toWords block)
  let fin := (List.zip ws shaK).foldl (fun s q => shaRound s q.1 q.2) st
  List.zipWith add32 st fin

/-- Fold the compression over all 64-byte blocks (fuel-driven). -/
def shaBlocksAux : Nat → List Nat → List Nat → List Nat
  | 0, st, _ => st
  | f+1, st, msg =>
    if msg = [] then st else shaBlocksAux f (shaCompress st (msg.take 64)) (msg.drop 64)

/-- SHA-256 of a byte list. -/
def sha256 (msg : List Nat) : List Nat :=
  let padded := sha256Pad msg
  let st := shaBlocksAux (padded.length + 1) shaH0 padded
  st.foldr (fun w acc => beBytes 4 w ++ acc) []

/-! ### secp256k1 affine arithmetic (the `elliptic` library's short-curve
formulas, with `a = 0`, `b = 7`).  Points are `Option (Nat × Nat)`: `none` is
the point at infinity, coordinates are reduced residues mod `P`. -/

/-- Modular inverse mod `P` by Fermat's little theorem (as bn.js red
arithmetic produces for the inversions in the curve formulas). -/
def pinv (x : Nat) : Nat := powModAux P x (P - 2) 256

/-- Point doubling (`elliptic` short-curve `dbl` with `a = 0`). -/
def pdouble : Option (Nat × Nat) → Option (Nat × Nat)
  | some (x, y) =>
    if 2 * y % P = 0 then none
    else
      let l := 3 * (x * x % P) % P * pinv (2 * y % P) % P
      let x3 := (l * l % P + (P - x) + (P - x)) % P
      let y3 := (l * ((x + (P - x3)) % P) % P + (P - y)) % P
      some (x3, y3)
  | none => none

/-- Point addition (`elliptic` short-curve `add`). -/
def padd : Option (Nat × Nat) → Option (Nat × Nat) → Option (Nat × Nat)
  | none, q => q
  | p, none => p
  | some (x1, y1), some (x2, y2) =>
    if x1 = x2 then
      if y1 ≠ y2 then none else pdouble (some (x1, y1))
    else
      let l := (y1 + (P - y2)) % P * pinv ((x1 + (P - x2)) % P) % P
      let x3 := (l * l % P + (P - x1) + (P - x2)) % P
      let y3 := (l * ((x1 + (P - x3)) % P) % P + (P - y1)) % P
      some (x3, y3)

/-- Scalar multiplication by binary double-and-add (fuel-driven; computes the
same group element as `elliptic`'s NAF-based `mul`). -/
def pmulAux : Nat → Nat → Option (Nat × Nat) → Option (Nat × Nat)
  | 0, _, _ => none
  | f+1, k, pt =>
    if k = 0 then none
    else
      let r := pmulAux f (k / 2) (pdouble pt)
      if k % 2 = 1 then padd r pt else r

/-- Scalar multiplication; fuel 257 covers every scalar below `2 ^ 257`. -/
def pmulE (k : Nat) (pt : Option (Nat × Nat)) : Option (Nat × Nat) := pmulAux 257 k pt

/-- The secp256k1 generator. -/
def G : Option (Nat × Nat) := some (Gx, Gy)

/-- Compressed point encoding (`elliptic` `encodeCompressed`): parity prefix
byte then the 32-byte big-endian x-coordinate. -/
def encodeCompressed (pt : Nat × Nat) : List Nat :=
  (if pt.2 % 2 = 1 then 3 else 2) :: beBytes 32 pt.1

/-- Modular square root for `P ≡ 3 (mod 4)` (bn.js `redSqrt`). -/
def sqrtP (w : Nat) : Nat := powModAux P w ((P + 1) / 4) 256

/-- `elliptic` `decodePoint` restricted to the 33-byte compressed format used
throughout this library; the x-coordinate is reduced mod `P` (bn.js `toRed`),
the y-coordinate recovered by `redSqrt` and rejected if its square does not
match (the library's "invalid point" throw, modelled as `none`), then the
parity prefix selects `y` or its negation. -/
def decodePoint (b : List Nat) : Option (Nat × Nat) :=
  match b with
  | pre :: rest =>
    if (pre = 2 ∨ pre = 3) ∧ rest.length = 32 then
      let x := bytesToNat rest % P
      let w := (x * (x * x % P) % P + 7) % P
      let y0 := sqrtP w
      if y0 * y0 % P ≠ w then none
      else if (y0 % 2 = 1 ∧ pre = 3) ∨ (y0 % 2 = 0 ∧ pre = 2) then some (x, y0)
      else some (x, if y0 = 0 then 0 else P - y0)
    else none
  | [] => none

/-- Coordinates of a point are reduced residues. -/
def ltP : Option (Nat × Nat) → Prop
  | none => True
  | some pt => pt.1 < P ∧ pt.2 < P

/-! ### The embedded source functions of `DlcOracle` (src/lib/index.ts) -/

/-- `padHexString`: prepend a `'0'` hex digit when the digit count is odd. -/
def padHexString (s : List Nat) : List Nat :=
  if s.length % 2 ≠ 0 then 0 :: s else s

/-- `euclideanMod` over bn.js big numbers: bn.js `mod` is the truncated
remainder (sign of the dividend), and the sign of the dividend is tested
before reduction. -/
def euclideanMod (num1 num2 : Int) : Int :=
  let r := Int.tmod num1 num2
  if num1 < 0 then (if num2 < 0 then r - num2 else r + num2) else r

/-- `generateNumericMessage`: hex-encode, left-pad with `'0'` to 64 hex chars,
decode as hex bytes.  For 65 hex digits the `Array(0).join` pads nothing and
node's hex decoding silently drops the trailing unpaired digit; for 66 or
more digits `new Array(negative)` throws a `RangeError` (modelled `none`). -/
def generateNumericMessage (value : Nat) : Option (List Nat) :=
  let s := hexJS value
  if s.length ≤ 64 then some (pairBytes (List.replicate (64 - s.length) 0 ++ s))
  else if s.length = 65 then some (pairBytes s)
  else none

/-- `publicKeyFromPrivateKey`: `elliptic` `keyFromPrivate` reduces the scalar
mod `N`; `getPublic` multiplies the generator and encodes compressed, throwing
(`none`) on the point at infinity. -/
def publicKeyFromPrivateKey (privateKey : List Nat) : Option (List Nat) :=
  match pmulE (bytesToNat privateKey % N) G with
  | none => none
  | some pt => some (encodeCompressed pt)

/-- The byte string hashed by `computeSignature` (source lines 122-128):
message then the hex bytes of the minimal even-length hex encoding of the
x-coordinate of `k·G` (`none` when `k·G` is the point at infinity, where the
source throws on `R.getX()`). -/
def sigHashBytes (k : Nat) (message : List Nat) : Option (List Nat) :=
  match pmulE k G with
  | none => none
  | some (rx, _) => some (message ++ pairBytes (padHexString (hexJS rx)))

/-- `computeSignature`. -/
def computeSignature (privateKey oneTimeSigningKey message : List Nat) : Option (List Nat) :=
  let bigPriv := bytesToNat privateKey
  let bigK := bytesToNat oneTimeSigningKey
  match pmulE bigK G with
  | none => none
  | some (rx, _) =>
    let eHex := sha256 (message ++ pairBytes (padHexString (hexJS rx)))
    let bigE := bytesToNat eHex
    let bigS := euclideanMod ((bigK : Int) - (bigE : Int) * (bigPriv : Int)) (N : Int)
    let s := bigS.toNat
    let ds := hexJS s
    some (pairBytes (if ds.length < 64 then List.replicate (64 - ds.length) 0 ++ ds else ds))

/-- The scalar produced inside `computeSignature` (before byte encoding). -/
def sigScalar (a k : Nat) (message : List Nat) : Nat :=
  match pmulE k G with
  | none => 0
  | some (rx, _) =>
    let bigE := bytesToNat (sha256 (message ++ pairBytes (padHexString (hexJS rx))))
    (euclideanMod ((k : Int) - (bigE : Int) * (a : Int)) (N : Int)).toNat

/-- The byte string hashed by `computeSignaturePubKey` (source lines 91-96)
for a given encoded nonce key: message then the hex bytes of the minimal
even-length hex encoding of the decoded point's x-coordinate. -/
def pubHashBytes (oracleR message : List Nat) : Option (List Nat) :=
  match decodePoint oracleR with
  | none => none
  | some (rx, _) => some (message ++ pairBytes (padHexString (hexJS rx)))

/-- `computeSignaturePubKey`: decode both keys (throw = `none` on failure),
hash, multiply `A` by the challenge, negate the y-coordinate via
`euclideanMod`, add `R`, encode compressed (throw = `none` on infinity, where
the source throws on `P.getY()` resp. inside `encodeCompressed`). -/
def computeSignaturePubKey (oracleA oracleR message : List Nat) : Option (List Nat) :=
  match decodePoint oracleA, decodePoint oracleR with
  | some a, some r =>
    let rxs := padHexString (hexJS r.1)
    let bigE := bytesToNat (sha256 (message ++ pairBytes rxs))
    match pmulE bigE (some a) with
    | none => none
    | some (px, py) =>
      let newY := (euclideanMod (-(py : Int)) (P : Int)).toNat
      match padd (some (px, newY)) (some r) with
      | none => none
      | some pt => some (encodeCompressed pt)
  | _, _ => none

/-- Modelled from the spec: `computeSignature` as §4.4 of the specification
describes it, where step 1 takes `rx` to be the big-endian 32-byte encoding
of the x-coordinate of `R = k·G` and step 4 emits the 32-byte big-endian
encoding of `s`.  It is identical to the embedded `computeSignature` except
for those two fixed-width encodings. -/
def specComputeSignature (privateKey oneTimeSigningKey message : List Nat) : Option (List Nat) :=
  let a := bytesToNat privateKey
  let k := bytesToNat oneTimeSigningKey
  match pmulE k G with
  | none => none
  | some (rx, _) =>
    let e := bytesToNat (sha256 (message ++ beBytes 32 rx))
    let s := euclideanMod ((k : Int) - (e : Int) * (a : Int)) (N : Int)
    some (beBytes 32 s.toNat)

/-! ### Interpretation into the Mathlib Weierstrass curve -/

/-- The secp256k1 curve `y² = x³ + 7` over `ZMod P`. -/
def Wsecp : WeierstrassCurve.Affine (ZMod P) := ⟨0, 0, 0, 0, 7⟩

/-- On-curve predicate for reduced affine coordinates. -/
def onCurveN (x y : Nat) : Prop := x < P ∧ y < P ∧ y * y % P = (x * x * x + 7) % P

instance onCurveN_dec (x y : Nat) : Decidable (onCurveN x y) :=
  inferInstanceAs (Decidable (x < P ∧ y < P ∧ y * y % P = (x * x * x + 7) % P))

/-- On-curve predicate for executable points (infinity included). -/
def onCurveE : Option (Nat × Nat) → Prop
  | none => True
  | some (x, y) => onCurveN x y

/-- Interpretation of executable points as nonsingular points of `Wsecp`.
Every affine point of this curve is nonsingular: if the partial derivative
`3x²` vanishes and also `2y = 0`, combining `y² = x³ + 7` gives `84 = 0` in
`ZMod P`, which is false; no primality of `P` is needed. -/
def toPointF (pt : Option (Nat × Nat)) : Wsecp.Point :=
  match pt with
  | none => 0
  | some (x, y) =>
    if h : onCurveN x y then
      WeierstrassCurve.Affine.Point.some (show Wsecp.Nonsingular (x : ZMod P) (y : ZMod P) by
        have hmod : ((y * y : Nat) : ZMod P) = ((x * x * x + 7 : Nat) : ZMod P) :=
          (ZMod.natCast_eq_natCast_iff _ _ _).mpr h.2.2
        push_cast at hmod
        have heq : Wsecp.Equation (x : ZMod P) (y : ZMod P) := by
          rw [WeierstrassCurve.Affine.equation_iff]
          show (y : ZMod P) ^ 2 + 0 * (x : ZMod P) * (y : ZMod P) + 0 * (y : ZMod P) =
            (x : ZMod P) ^ 3 + 0 * (x : ZMod P) ^ 2 + 0 * (x : ZMod P) + 7
          linear_combination hmod
        rw [WeierstrassCurve.Affine.nonsingular_iff]
        refine ⟨heq, ?_⟩
        show ¬0 * (y : ZMod P) = 3 * (x : ZMod P) ^ 2 + 2 * 0 * (x : ZMod P) + 0 ∨
          ¬(y : ZMod P) = -(y : ZMod P) - 0 * (x : ZMod P) - 0
        by_cases h3 : 3 * (x : ZMod P) ^ 2 = 0
        · right
          intro hy
          have hy2 : (y : ZMod P) = -(y : ZMod P) := by linear_combination hy
          have h84 : (84 : ZMod P) = 0 := by
            linear_combination (-12 : ZMod P) * hmod + 6 * (y : ZMod P) * hy2 -
              4 * (x : ZMod P) * h3
          exact absurd h84 (by decide)
        · left
          intro h0
          exact h3 (by linear_combination -h0))
    else 0

/-! ## Theorems -/

theorem powModAux_eq (m : Nat) (f : Nat) : ∀ b e, e < 2 ^ f →
    powModAux m b e f = b ^ e % m := by
  induction f with
  | zero =>
    intro b e he
    have : e = 0 := by simpa using Nat.lt_one_iff.mp he
    subst this
    simp [powModAux]
  | succ f ih =>
    intro b e he
    by_cases he0 : e = 0
    · subst he0; simp [powModAux]
    · have hdiv : e / 2 < 2 ^ f := by
        refine Nat.div_lt_of_lt_mul ?_
        rwa [← pow_succ']
      have hr : powModAux m (b * b % m) (e / 2) f = (b * b % m) ^ (e / 2) % m := ih _ _ hdiv
      have hbb : (b * b % m) ^ (e / 2) % m = b ^ (2 * (e / 2)) % m := by
        rw [← Nat.pow_mod, ← pow_two, ← pow_mul]
      rcases Nat.even_or_odd e with hpar | hpar
      · have h2 : e % 2 = 0 := Nat.even_iff.mp hpar
        have he2 : 2 * (e / 2) = e := by omega
        simp only [powModAux, if_neg he0, h2]
        rw [if_neg (by omega), hr, hbb, he2]
      · have h2 : e % 2 = 1 := Nat.odd_iff.mp hpar
        have he2 : 2 * (e / 2) + 1 = e := by omega
        simp only [powModAux, if_neg he0, h2, if_pos rfl]
        rw [hr, hbb]
        calc b % m * (b ^ (2 * (e / 2)) % m) % m
            = b * b ^ (2 * (e / 2)) % m := (Nat.mul_mod _ _ _).symm
          _ = b ^ e % m := by rw [← pow_succ', he2]

theorem powModAux_lt (m : Nat) (hm : 1 < m) (f : Nat) : ∀ b e, powModAux m b e f < m := by
  induction f with
  | zero => intro b e; simpa [powModAux] using Nat.mod_lt _ (by omega)
  | succ f ih =>
    intro b e
    by_cases he0 : e = 0
    · subst he0; simpa [powModAux] using Nat.mod_lt _ (by omega)
    · by_cases hp : e % 2 = 1
      · simpa [powModAux, he0, hp] using Nat.mod_lt _ (by omega)
      · simpa [powModAux, he0, hp] using ih (b * b % m) (e / 2)

theorem powModAux_cast (m b e f : Nat) (he : e < 2 ^ f) :
    ((powModAux m b e f : Nat) : ZMod m) = (b : ZMod m) ^ e := by
  rw [powModAux_eq m f b e he]
  push_cast [ZMod.natCast_mod]
  rfl

theorem hexDigitsAux_eq_digits (f : Nat) : ∀ v, v < 16 ^ f →
    hexDigitsAux f v = Nat.digits 16 v := by
  induction f with
  | zero =>
    intro v hv
    have : v = 0 := by simpa using Nat.lt_one_iff.mp hv
    subst this; simp [hexDigitsAux]
  | succ f ih =>
    intro v hv
    by_cases hv0 : v = 0
    · subst hv0; simp [hexDigitsAux]
    · have hdiv : v / 16 < 16 ^ f := by
        refine Nat.div_lt_of_lt_mul ?_
        rwa [← pow_succ']
      rw [hexDigitsAux, if_neg hv0, ih _ hdiv,
        Nat.digits_def' (by norm_num : 1 < 16) (Nat.pos_of_ne_zero hv0)]

theorem hexDigitsAux_self (v : Nat) : hexDigitsAux (v + 1) v = Nat.digits 16 v := by
  refine hexDigitsAux_eq_digits (v + 1) v ?_
  calc v < 2 ^ v := Nat.lt_two_pow v
    _ ≤ 16 ^ v := Nat.pow_le_pow_left (by norm_num) v
    _ < 16 ^ (v + 1) := Nat.pow_lt_pow_right (by norm_num) (Nat.lt_succ_self v)

theorem hexJS_eq (v : Nat) : hexJS v = if v = 0 then [0] else (Nat.digits 16 v).reverse := by
  rw [hexJS, hexDigitsAux_self]

theorem lePad_zero (b m : Nat) : lePad b m 0 = List.replicate m 0 := by
  induction m with
  | zero => rfl
  | succ m ih => simp [lePad, ih, List.replicate_succ]

theorem lePad_length (b m : Nat) : ∀ v, (lePad b m v).length = m := by
  induction m with
  | zero => intro v; rfl
  | succ m ih => intro v; simp [lePad, ih]

/-- Left-zero-padding the minimal hex digits to width `L` gives the
positional fixed-width encoding. -/
theorem digits_pad (L : Nat) : ∀ v, v < 16 ^ L →
    Nat.digits 16 v ++ List.replicate (L - (Nat.digits 16 v).length) 0 = lePad 16 L v := by
  induction L with
  | zero =>
    intro v hv
    have : v = 0 := by simpa using Nat.lt_one_iff.mp hv
    subst this; simp [lePad]
  | succ L ih =>
    intro v hv
    by_cases hv0 : v = 0
    · subst hv0; simp [lePad_zero]
    · have hdiv : v / 16 < 16 ^ L := by
        refine Nat.div_lt_of_lt_mul ?_
        rwa [← pow_succ']
      rw [Nat.digits_def' (by norm_num : 1 < 16) (Nat.pos_of_ne_zero hv0)]
      simp only [List.length_cons, List.cons_append, lePad]
      rw [Nat.succ_sub_succ, ih _ hdiv]

theorem pairBytes_append_pair : ∀ (xs : List Nat) (a b : Nat), xs.length % 2 = 0 →
    pairBytes (xs ++ [a, b]) = pairBytes xs ++ [16 * a + b]
  | [], a, b, _ => rfl
  | [_], _, _, h => by simp at h
  | x :: y :: t, a, b, h => by
    have ht : t.length % 2 = 0 := by
      simp only [List.length_cons] at h
      omega
    simp only [List.cons_append, pairBytes, List.append_eq,
      pairBytes_append_pair t a b ht]

/-- Pairing the fixed-width hex digits of `v` into bytes yields the
fixed-width byte encoding of `v`. -/
theorem pairBytes_beHex (m : Nat) : ∀ v, pairBytes (beHex (2 * m) v) = beBytes m v := by
  induction m with
  | zero => intro v; rfl
  | succ m ih =>
    intro v
    have h16 : v / 16 / 16 = v / 256 := by omega
    have hlow : 16 * (v / 16 % 16) + v % 16 = v % 256 := by omega
    have hmul : 2 * (m + 1) = 2 * m + 1 + 1 := by ring
    rw [hmul]
    simp only [beHex, lePad, h16]
    rw [List.reverse_cons, List.reverse_cons, List.append_assoc]
    simp only [List.cons_append, List.nil_append]
    rw [pairBytes_append_pair _ _ _ (by simp [lePad_length, Nat.mul_mod_right])]
    have := ih (v / 256)
    simp only [beHex] at this
    rw [this]
    simp [beBytes, lePad]
    omega

theorem bytesToNat_append (l1 l2 : List Nat) :
    bytesToNat (l1 ++ l2) = l2.foldl (fun acc b => acc * 256 + b) (bytesToNat l1) := by
  simp [bytesToNat, List.foldl_append]

theorem bytesToNat_beBytes (m : Nat) : ∀ v, v < 256 ^ m → bytesToNat (beBytes m v) = v := by
  induction m with
  | zero =>
    intro v hv
    have : v = 0 := by simpa using Nat.lt_one_iff.mp hv
    subst this; rfl
  | succ m ih =>
    intro v hv
    have hdiv : v / 256 < 256 ^ m := by
      refine Nat.div_lt_of_lt_mul ?_
      rwa [← pow_succ']
    simp only [beBytes, lePad, List.reverse_cons]
    rw [bytesToNat_append]
    have := ih (v / 256) hdiv
    simp only [beBytes] at this
    simp [this, Nat.div_add_mod, Nat.mul_comm]

/-- Sanity: SHA-256 of the empty message matches the standard test vector. -/
theorem sha256_empty : sha256 [] =
    [0xe3, 0xb0, 0xc4, 0x42, 0x98, 0xfc, 0x1c, 0x14, 0x9a, 0xfb, 0xf4, 0xc8, 0x99, 0x6f, 0xb9,
     0x24, 0x27, 0xae, 0x41, 0xe4, 0x64, 0x9b, 0x93, 0x4c, 0xa4, 0x95, 0x99, 0x1b, 0x78, 0x52,
     0xb8, 0x55] := by decide

/-- Sanity: SHA-256 of "abc" matches the standard test vector. -/
theorem sha256_abc : sha256 [97, 98, 99] =
    [0xba, 0x78, 0x16, 0xbf, 0x8f, 0x01, 0xcf, 0xea, 0x41, 0x41, 0x40, 0xde, 0x5d, 0xae, 0x22,
     0x23, 0xb0, 0x03, 0x61, 0xa3, 0x96, 0x17, 0x7a, 0x9c, 0xb4, 0x10, 0xff, 0x61, 0xf2, 0x00,
     0x15, 0xad] := by decide

/-! ### euclideanMod lemmas -/

theorem tmod_neg_arg (a b : Int) : Int.tmod (-a) b = -Int.tmod a b := by
  rw [Int.tmod_def, Int.tmod_def, Int.neg_tdiv]
  ring

theorem euclideanMod_le (a m : Int) (hm : 0 < m) : euclideanMod a m ≤ m := by
  by_cases ha : a < 0
  · have h1 : Int.tmod a m = -Int.tmod (-a) m := by
      rw [← tmod_neg_arg, neg_neg]
    have h2 : 0 ≤ Int.tmod (-a) m := Int.tmod_nonneg _ (by omega)
    simp only [euclideanMod, if_pos ha, if_neg (not_lt.mpr hm.le)]
    omega
  · have h2 : Int.tmod a m < m := Int.tmod_lt_of_pos _ hm
    simp only [euclideanMod, if_neg ha]
    omega

theorem hexJS_length_le (L v : Nat) (hL : 0 < L) (hv : v < 16 ^ L) :
    (hexJS v).length ≤ L := by
  by_cases hv0 : v = 0
  · subst hv0; simpa [hexJS] using hL
  · rw [hexJS_eq, if_neg hv0, List.length_reverse,
      Nat.digits_len 16 v (by norm_num) hv0]
    have hlog : Nat.log 16 v < L := (Nat.lt_pow_iff_log_lt (by norm_num) hv0).mp hv
    omega

theorem hexJS_length_ge (L v : Nat) (hv : 16 ^ L ≤ v) : L + 1 ≤ (hexJS v).length := by
  have hpow : 0 < 16 ^ L := pow_pos (by norm_num) L
  have hv0 : v ≠ 0 := by omega
  rw [hexJS_eq, if_neg hv0, List.length_reverse,
    Nat.digits_len 16 v (by norm_num) hv0]
  have hlog : L ≤ Nat.log 16 v := (Nat.pow_le_iff_le_log (by norm_num) hv0).mp hv
  omega

theorem pad_hexJS (L v : Nat) (hL : 0 < L) (hv : v < 16 ^ L) :
    List.replicate (L - (hexJS v).length) 0 ++ hexJS v = beHex L v := by
  by_cases hv0 : v = 0
  · subst hv0
    have h0 : hexJS 0 = [0] := rfl
    rw [h0]
    simp only [List.length_singleton, beHex, lePad_zero, List.reverse_replicate]
    rw [show ([0] : List Nat) = List.replicate 1 0 from rfl, ← List.replicate_add]
    congr 1
    omega
  · rw [hexJS_eq, if_neg hv0, List.length_reverse]
    have hrev := congrArg List.reverse (digits_pad L v hv)
    rw [List.reverse_append, List.reverse_replicate] at hrev
    simp only [beHex]
    exact hrev

/-! ### Point coordinate bounds -/

theorem P_pos : 0 < P := by decide

theorem P_lt_two_pow : P < 2 ^ 256 := by norm_num [P]

theorem ltP_pdouble (pt : Option (Nat × Nat)) : ltP (pdouble pt) := by
  match pt with
  | none => trivial
  | some (x, y) =>
    unfold pdouble
    by_cases h : 2 * y % P = 0
    · simp only [if_pos h]; trivial
    · simp only [if_neg h]
      exact ⟨Nat.mod_lt _ P_pos, Nat.mod_lt _ P_pos⟩

theorem ltP_padd (p q : Option (Nat × Nat)) (hp : ltP p) (hq : ltP q) :
    ltP (padd p q) := by
  match p, q with
  | none, q => simpa [padd] using hq
  | some p1, none => simpa [padd] using hp
  | some (x1, y1), some (x2, y2) =>
    unfold padd
    by_cases hx : x1 = x2
    · by_cases hy : y1 ≠ y2
      · simp only [if_pos hx, if_pos hy]; trivial
      · simp only [if_pos hx, if_neg hy]
        exact ltP_pdouble _
    · simp only [if_neg hx]
      exact ⟨Nat.mod_lt _ P_pos, Nat.mod_lt _ P_pos⟩

theorem ltP_pmulAux (f : Nat) : ∀ k pt, ltP pt → ltP (pmulAux f k pt) := by
  induction f with
  | zero => intro k pt _; trivial
  | succ f ih =>
    intro k pt h
    unfold pmulAux
    by_cases hk : k = 0
    · simp only [if_pos hk]; trivial
    · simp only [if_neg hk]
      by_cases hp : k % 2 = 1
      · simp only [if_pos hp]
        exact ltP_padd _ _ (ih _ _ (ltP_pdouble pt)) h
      · simp only [if_neg hp]
        exact ih _ _ (ltP_pdouble pt)

theorem ltP_G : ltP G := by
  constructor <;> decide

/-! ### Output formatting lemmas -/

/-- The x-coordinate hex string hashed by the source functions coincides with
the 32-byte big-endian encoding exactly when the coordinate has at least 63
hex digits, i.e. is at least `2 ^ 248`. -/
theorem padHex_beBytes (x : Nat) (h1 : 2 ^ 248 ≤ x) (h2 : x < 2 ^ 256) :
    pairBytes (padHexString (hexJS x)) = beBytes 32 x := by
  have h16a : (16 : Nat) ^ 62 = 2 ^ 248 := by norm_num
  have h16b : (16 : Nat) ^ 64 = 2 ^ 256 := by norm_num
  have hge : 63 ≤ (hexJS x).length := by
    have := hexJS_length_ge 62 x (by rw [h16a]; exact h1)
    omega
  have hle : (hexJS x).length ≤ 64 := hexJS_length_le 64 x (by norm_num) (by rw [h16b]; exact h2)
  have hpad : padHexString (hexJS x) = List.replicate (64 - (hexJS x).length) 0 ++ hexJS x := by
    unfold padHexString
    rcases (by omega : (hexJS x).length = 63 ∨ (hexJS x).length = 64) with h | h
    · rw [h]
      norm_num
    · rw [h]
      norm_num
  rw [hpad, pad_hexJS 64 x (by norm_num) (by rw [h16b]; exact h2)]
  have hp := pairBytes_beHex 32 x
  norm_num at hp
  exact hp

/-- The signature byte padding in `computeSignature` produces the 32-byte
big-endian encoding of the scalar. -/
theorem sigPad (s : Nat) (hs : s < 2 ^ 256) :
    pairBytes (if (hexJS s).length < 64 then List.replicate (64 - (hexJS s).length) 0 ++ hexJS s
      else hexJS s) = beBytes 32 s := by
  have h16b : (16 : Nat) ^ 64 = 2 ^ 256 := by norm_num
  have hle : (hexJS s).length ≤ 64 := hexJS_length_le 64 s (by norm_num) (by rw [h16b]; exact hs)
  have hpad := pad_hexJS 64 s (by norm_num) (by rw [h16b]; exact hs)
  have hp := pairBytes_beHex 32 s
  norm_num at hp
  by_cases h : (hexJS s).length < 64
  · rw [if_pos h, hpad]
    exact hp
  · have h64 : (hexJS s).length = 64 := by omega
    rw [if_neg h]
    have hh : hexJS s = beHex 64 s := by
      rw [← hpad, h64]
      simp
    rw [hh]
    exact hp

/-! ### Claim theorems (first group) -/

/-- C3: the claim that `euclideanMod(a, m)` always lies in `[0, m)` fails: at
the negative exact multiple `a = -4`, `m = 4` the code returns `m` itself
(bn.js truncated `mod` gives `0`, and the pre-computed negativity flag then
adds `m`), which is outside `[0, 4)`. -/
theorem claim_C3 : euclideanMod (-4) 4 = 4 ∧ ¬euclideanMod (-4) 4 < 4 := by decide

/-- C7: the claim that `generateNumericMessage` fails with `ValueOutOfRange`
for `value ≥ 2^256` fails: at `2^256` (65 hex digits) the padding loop adds
nothing, node's hex decoder silently drops the unpaired 65th digit, and a
32-byte buffer encoding `2^252` is returned; only from 66 hex digits on
(`value ≥ 2^260`) does the code throw (a `RangeError` from
`new Array(negative)`, not a designed error). -/
theorem claim_C7 : generateNumericMessage (2 ^ 256) = some (16 :: List.replicate 31 0) ∧
    generateNumericMessage (2 ^ 260) = none := by decide

/-- C8: `generateNumericMessage 0` is 32 zero bytes, `generateNumericMessage
255` is 31 zero bytes then `0xFF`, and every value below `2 ^ 256` encodes to
its 32-byte big-endian zero-padded form. -/
theorem claim_C8 : generateNumericMessage 0 = some (List.replicate 32 0) ∧
    generateNumericMessage 255 = some (List.replicate 31 0 ++ [255]) ∧
    ∀ v : Nat, v < 2 ^ 256 → generateNumericMessage v = some (beBytes 32 v) := by
  refine ⟨by decide, by decide, ?_⟩
  intro v hv
  have h16b : (16 : Nat) ^ 64 = 2 ^ 256 := by norm_num
  have hv16 : v < 16 ^ 64 := by rw [h16b]; exact hv
  have hle : (hexJS v).length ≤ 64 := hexJS_length_le 64 v (by norm_num) hv16
  unfold generateNumericMessage
  rw [if_pos hle, pad_hexJS 64 v (by norm_num) hv16]
  have hp := pairBytes_beHex 32 v
  norm_num at hp
  rw [hp]

/-- Witness for C8 at the concrete input 256. -/
theorem claim_C8_witness : generateNumericMessage 256 = some (beBytes 32 256) :=
  claim_C8.2.2 256 (by norm_num)

/-- C5: whenever either 33-byte public key fails to decode to a point on the
curve, `computeSignaturePubKey` fails (the `elliptic` "invalid point" throw)
rather than producing an output. -/
theorem claim_C5 (oracleA oracleR message : List Nat) (hA : oracleA.length = 33)
    (hR : oracleR.length = 33)
    (h : decodePoint oracleA = none ∨ decodePoint oracleR = none) :
    computeSignaturePubKey oracleA oracleR message = none := by
  rcases h with h | h
  · unfold computeSignaturePubKey
    rw [h]
  · cases h2 : decodePoint oracleA with
    | none =>
      unfold computeSignaturePubKey
      rw [h2]
    | some a =>
      unfold computeSignaturePubKey
      rw [h2, h]

/-- Witness for C5: `x = 5` is not on secp256k1 (`5^3 + 7` is a quadratic
non-residue), so the compressed encoding with prefix 2 fails to decode. -/
theorem claim_C5_witness :
    (2 :: beBytes 32 5).length = 33 ∧ decodePoint (2 :: beBytes 32 5) = none ∧
    computeSignaturePubKey (2 :: beBytes 32 5) (2 :: beBytes 32 5) (List.replicate 32 0) =
      none :=
  ⟨by decide, by decide, claim_C5 _ _ _ (by decide) (by decide) (Or.inl (by decide))⟩

/-- C6 (counterexample): at the 32-byte scalar `n + 1` (which is `≥ n` and so
must fail with `InvalidScalar` per the claim), `publicKeyFromPrivateKey`
succeeds and returns the compressed generator (the `elliptic` key import
silently reduces the scalar mod `n`). -/
theorem claim_C6_counterexample :
    publicKeyFromPrivateKey (beBytes 32 (N + 1)) = some (2 :: beBytes 32 Gx) := by decide

/-- C9 (counterexample): at the all-zero one-time signing key the source
throws (`R.getX()` on the point at infinity), refuting the claim that
`computeSignature` is total on all 32-byte inputs. -/
theorem claim_C9_counterexample :
    computeSignature (beBytes 32 5) (List.replicate 32 0) (List.replicate 32 0) = none := by
  decide

/-- C4: the degenerate-case rejection is absent.  At `k = 1`,
`m = 0^32` and `a = e⁻¹ mod n` (so that `e·a ≡ k (mod n)`, i.e. the produced
scalar is `≡ 0 (mod n)`), `computeSignature` raises no error and returns the
32-byte encoding of `n` itself — a signature scalar congruent to 0 — instead
of failing with `ArithmeticDegenerate`. -/
theorem claim_C4 : computeSignature
      (beBytes 32 76878437257105467182766768410594556872183704085376473142859504775666025574794)
      (beBytes 32 1) (List.replicate 32 0) = some (beBytes 32 N) ∧
    bytesToNat (beBytes 32 N) % N = 0 := by decide

/-- C2 (counterexample): at `a = 1`, `k = 153`, `m = 0^32` the x-coordinate of
`k·G` is below `2 ^ 248`, the source hashes its 31-byte minimal encoding
rather than the 32-byte encoding required by the claim, and the resulting
signatures differ. -/
theorem claim_C2_counterexample :
    computeSignature (beBytes 32 1) (beBytes 32 153) (List.replicate 32 0) ≠
      specComputeSignature (beBytes 32 1) (beBytes 32 153) (List.replicate 32 0) := by decide

theorem N_pos : 0 < N := by norm_num [N]

theorem N_lt_two_pow : N < 2 ^ 256 := by norm_num [N]

theorem euclideanMod_toNat_lt (a : Int) : (euclideanMod a ((N : Nat) : Int)).toNat < 2 ^ 256 := by
  have hN : (0 : Int) < ((N : Nat) : Int) := by exact_mod_cast N_pos
  have h1 := euclideanMod_le a _ hN
  have h2 : (euclideanMod a ((N : Nat) : Int)).toNat ≤ N := Int.toNat_le.mpr h1
  have := N_lt_two_pow
  omega

/-- C2 (amended): `computeSignature` follows the claimed algorithm except
that the hashed `rx` is the minimal even-length hex encoding of the
x-coordinate of `k·G` (`padHexString`), which equals the claimed fixed
32-byte encoding exactly when that coordinate is at least `2 ^ 248`; under
that condition the source agrees with the spec's algorithm step for step. -/
theorem claim_C2 (privateKey oneTimeSigningKey message : List Nat) (rx ry : Nat)
    (hR : pmulE (bytesToNat oneTimeSigningKey) G = some (rx, ry))
    (hrx : 2 ^ 248 ≤ rx) :
    computeSignature privateKey oneTimeSigningKey message =
      specComputeSignature privateKey oneTimeSigningKey message := by
  have hlt : ltP (pmulE (bytesToNat oneTimeSigningKey) G) := ltP_pmulAux 257 _ _ ltP_G
  rw [hR] at hlt
  have hrx2 : rx < 2 ^ 256 := lt_trans hlt.1 P_lt_two_pow
  simp only [computeSignature, specComputeSignature, hR]
  rw [padHex_beBytes rx hrx hrx2]
  exact congrArg some (sigPad _ (euclideanMod_toNat_lt _))

/-- Witness for C2 (amended) at `k = 1`, whose nonce x-coordinate `Gx`
exceeds `2 ^ 248`. -/
theorem claim_C2_witness :
    pmulE (bytesToNat (beBytes 32 1)) G = some (Gx, Gy) ∧ 2 ^ 248 ≤ Gx ∧
    computeSignature (beBytes 32 7) (beBytes 32 1) (List.replicate 32 0) =
      specComputeSignature (beBytes 32 7) (beBytes 32 1) (List.replicate 32 0) :=
  ⟨by decide, by decide, claim_C2 _ _ _ Gx Gy (by decide) (by decide)⟩


/-! ### Modular-exponentiation helpers for primality certificates -/

theorem zmod_pow_eq_one (q a e : Nat) (he : e < 2 ^ 256)
    (hval : powModAux q a e 256 = 1) : ((a : Nat) : ZMod q) ^ e = 1 := by
  have hcast := powModAux_cast q a e 256 he
  rw [hval] at hcast
  rw [← hcast]
  exact Nat.cast_one

theorem zmod_pow_ne_one (q a e c : Nat) (he : e < 2 ^ 256)
    (hval : powModAux q a e 256 = c) (hc : c % q ≠ 1 % q) :
    ((a : Nat) : ZMod q) ^ e ≠ 1 := by
  intro hone
  have hcast := powModAux_cast q a e 256 he
  rw [hval, hone] at hcast
  have h2 : ((c : Nat) : ZMod q) = ((1 : Nat) : ZMod q) := by rw [hcast, Nat.cast_one]
  exact hc ((ZMod.natCast_eq_natCast_iff' c 1 q).mp h2)

/-! ### Primality certificates (Pratt chains via lucas_primality) -/

theorem certP0 : Nat.Prime 2 := by norm_num

theorem certP1 : Nat.Prime 3 := by
  refine lucas_primality 3 ((2 : Nat) : ZMod 3) ?_ ?_
  · exact zmod_pow_eq_one 3 2 (3 - 1) (by decide) (by decide)
  · intro r hr hdvd
    have hfact : (3 : Nat) - 1 = 2 := by decide
    rw [hfact] at hdvd
    have hre : r = 2 := (Nat.prime_dvd_prime_iff_eq hr certP0).mp hdvd
    subst hre
    exact zmod_pow_ne_one 3 2 ((3 - 1) / 2) 2 (by decide) (by decide) (by decide)

theorem certP2 : Nat.Prime 5 := by
  refine lucas_primality 5 ((2 : Nat) : ZMod 5) ?_ ?_
  · exact zmod_pow_eq_one 5 2 (5 - 1) (by decide) (by decide)
  · intro r hr hdvd
    have hfact : (5 : Nat) - 1 = 2 ^ 2 := by decide
    rw [hfact] at hdvd
    have hre : r = 2 := (Nat.prime_dvd_prime_iff_eq hr certP0).mp (hr.dvd_of_dvd_pow hdvd)
    subst hre
    exact zmod_pow_ne_one 5 2 ((5 - 1) / 2) 4 (by decide) (by decide) (by decide)

theorem certP3 : Nat.Prime 7 := by
  refine lucas_primality 7 ((3 : Nat) : ZMod 7) ?_ ?_
  · exact zmod_pow_eq_one 7 3 (7 - 1) (by decide) (by decide)
  · intro r hr hdvd
    have hfact : (7 : Nat) - 1 = 2 * (3) := by decide
    rw [hfact] at hdvd
    rcases (Nat.Prime.dvd_mul hr).mp hdvd with hc | hdvd
    · have hre : r = 2 := (Nat.prime_dvd_prime_iff_eq hr certP0).mp hc
      subst hre
      exact zmod_pow_ne_one 7 3 ((7 - 1) / 2) 6 (by decide) (by decide) (by decide)
    have hre : r = 3 := (Nat.prime_dvd_prime_iff_eq hr certP1).mp hdvd
    subst hre
    exact zmod_pow_ne_one 7 3 ((7 - 1) / 3) 2 (by decide) (by decide) (by decide)

theorem certP4 : Nat.Prime 11 := by
  refine lucas_primality 11 ((2 : Nat) : ZMod 11) ?_ ?_
  · exact zmod_pow_eq_one 11 2 (11 - 1) (by decide) (by decide)
  · intro r hr hdvd
    have hfact : (11 : Nat) - 1 = 2 * (5) := by decide
    rw [hfact] at hdvd
    rcases (Nat.Prime.dvd_mul hr).mp hdvd with hc | hdvd
    · have hre : r = 2 := (Nat.prime_dvd_prime_iff_eq hr certP0).mp hc
      subst hre
      exact zmod_pow_ne_one 11 2 ((11 - 1) / 2) 10 (by decide) (by decide) (by decide)
    have hre : r = 5 := (Nat.prime_dvd_prime_iff_eq hr certP2).mp hdvd
    subst hre
    exact zmod_pow_ne_one 11 2 ((11 - 1) / 5) 4 (by decide) (by decide) (by decide)

theorem certP5 : Nat.Prime 13 := by
  refine lucas_primality 13 ((2 : Nat) : ZMod 13) ?_ ?_
  · exact zmod_pow_eq_one 13 2 (13 - 1) (by decide) (by decide)
  · intro r hr hdvd
    have hfact : (13 : Nat) - 1 = 2 ^ 2 * (3) := by decide
    rw [hfact] at hdvd
    rcases (Nat.Prime.dvd_mul hr).mp hdvd with hc | hdvd
    · have hre : r = 2 := (Nat.prime_dvd_prime_iff_eq hr certP0).mp (hr.dvd_of_dvd_pow hc)
      subst hre
      exact zmod_pow_ne_one 13 2 ((13 - 1) / 2) 12 (by decide) (by decide) (by decide)
    have hre : r = 3 := (Nat.prime_dvd_prime_iff_eq hr certP1).mp hdvd
    subst hre
    exact zmod_pow_ne_one 13 2 ((13 - 1) / 3) 3 (by decide) (by decide) (by decide)

theorem certP6 : Nat.Prime 17 := by
  refine lucas_primality 17 ((3 : Nat) : ZMod 17) ?_ ?_
  · exact zmod_pow_eq_one 17 3 (17 - 1) (by decide) (by decide)
  · intro r hr hdvd
    have hfact : (17 : Nat) - 1 = 2 ^ 4 := by decide
    rw [hfact] at hdvd
    have hre : r = 2 := (Nat.prime_dvd_prime_iff_eq hr certP0).mp (hr.dvd_of_dvd_pow hdvd)
    subst hre
    exact zmod_pow_ne_one 17 3 ((17 - 1) / 2) 16 (by decide) (by decide) (by decide)

theorem certP7 : Nat.Prime 19 := by
  refine lucas_primality 19 ((2 : Nat) : ZMod 19) ?_ ?_
  · exact zmod_pow_eq_one 19 2 (19 - 1) (by decide) (by decide)
  · intro r hr hdvd
    have hfact : (19 : Nat) - 1 = 2 * (3 ^ 2) := by decide
    rw [hfact] at hdvd
    rcases (Nat.Prime.dvd_mul hr).mp hdvd with hc | hdvd
    · have hre : r = 2 := (Nat.prime_dvd_prime_iff_eq hr certP0).mp hc
      subst hre
      exact zmod_pow_ne_one 19 2 ((19 - 1) / 2) 18 (by decide) (by decide) (by decide)
    have hre : r = 3 := (Nat.prime_dvd_prime_iff_eq hr certP1).mp (hr.dvd_of_dvd_pow hdvd)
    subst hre
    exact zmod_pow_ne_one 19 2 ((19 - 1) / 3) 7 (by decide) (by decide) (by decide)

theorem certP8 : Nat.Prime 23 := by
  refine lucas_primality 23 ((5 : Nat) : ZMod 23) ?_ ?_
  · exact zmod_pow_eq_one 23 5 (23 - 1) (by decide) (by decide)
  · intro r hr hdvd
    have hfact : (23 : Nat) - 1 = 2 * (11) := by decide
    rw [hfact] at hdvd
    rcases (Nat.Prime.dvd_mul hr).mp hdvd with hc | hdvd
    · have hre : r = 2 := (Nat.prime_dvd_prime_iff_eq hr certP0).mp hc
      subst hre
      exact zmod_pow_ne_one 23 5 ((23 - 1) / 2) 22 (by decide) (by decide) (by decide)
    have hre : r = 11 := (Nat.prime_dvd_prime_iff_eq hr certP4).mp hdvd
    subst hre
    exact zmod_pow_ne_one 23 5 ((23 - 1) / 11) 2 (by decide) (by decide) (by decide)

theorem certP9 : Nat.Prime 29 := by
  refine lucas_primality 29 ((2 : Nat) : ZMod 29) ?_ ?_
  · exact zmod_pow_eq_one 29 2 (29 - 1) (by decide) (by decide)
  · intro r hr hdvd
    have hfact : (29 : Nat) - 1 = 2 ^ 2 * (7) := by decide
    rw [hfact] at hdvd
    rcases (Nat.Prime.dvd_mul hr).mp hdvd with hc | hdvd
    · have hre : r = 2 := (Nat.prime_dvd_prime_iff_eq hr certP0).mp (hr.dvd_of_dvd_pow hc)
      subst hre
      exact zmod_pow_ne_one 29 2 ((29 - 1) / 2) 28 (by decide) (by decide) (by decide)
    have hre : r = 7 := (Nat.prime_dvd_prime_iff_eq hr certP3).mp hdvd
    subst hre
    exact zmod_pow_ne_one 29 2 ((29 - 1) / 7) 16 (by decide) (by decide) (by decide)

theorem certP10 : Nat.Prime 31 := by
  refine lucas_primality 31 ((3 : Nat) : ZMod 31) ?_ ?_
  · exact zmod_pow_eq_one 31 3 (31 - 1) (by decide) (by decide)
  · intro r hr hdvd
    have hfact : (31 : Nat) - 1 = 2 * (3 * (5)) := by decide
    rw [hfact] at hdvd
    rcases (Nat.Prime.dvd_mul hr).mp hdvd with hc | hdvd
    · have hre : r = 2 := (Nat.prime_dvd_prime_iff_eq hr certP0).mp hc
      subst hre
      exact zmod_pow_ne_one 31 3 ((31 - 1) / 2) 30 (by decide) (by decide) (by decide)
    rcases (Nat.Prime.dvd_mul hr).mp hdvd with hc | hdvd
    · have hre : r = 3 := (Nat.prime_dvd_prime_iff_eq hr certP1).mp hc
      subst hre
      exact zmod_pow_ne_one 31 3 ((31 - 1) / 3) 25 (by decide) (by decide) (by decide)
    have hre : r = 5 := (Nat.prime_dvd_prime_iff_eq hr certP2).mp hdvd
    subst hre
    exact zmod_pow_ne_one 31 3 ((31 - 1) / 5) 16 (by decide) (by decide) (by decide)

theorem certP11 : Nat.Prime 37 := by
  refine lucas_primality 37 ((2 : Nat) : ZMod 37) ?_ ?_
  · exact zmod_pow_eq_one 37 2 (37 - 1) (by decide) (by decide)
  · intro r hr hdvd
    have hfact : (37 : Nat) - 1 = 2 ^ 2 * (3 ^ 2) := by decide
    rw [hfact] at hdvd
    rcases (Nat.Prime.dvd_mul hr).mp hdvd with hc | hdvd
    · have hre : r = 2 := (Nat.prime_dvd_prime_iff_eq hr certP0).mp (hr.dvd_of_dvd_pow hc)
      subst hre
      exact zmod_pow_ne_one 37 2 ((37 - 1) / 2) 36 (by decide) (by decide) (by decide)
    have hre : r = 3 := (Nat.prime_dvd_prime_iff_eq hr certP1).mp (hr.dvd_of_dvd_pow hdvd)
    subst hre
    exact zmod_pow_ne_one 37 2 ((37 - 1) / 3) 26 (by decide) (by decide) (by decide)

theorem certP12 : Nat.Prime 41 := by
  refine lucas_primality 41 ((6 : Nat) : ZMod 41) ?_ ?_
  · exact zmod_pow_eq_one 41 6 (41 - 1) (by decide) (by decide)
  · intro r hr hdvd
    have hfact : (41 : Nat) - 1 = 2 ^ 3 * (5) := by decide
    rw [hfact] at hdvd
    rcases (Nat.Prime.dvd_mul hr).mp hdvd with hc | hdvd
    · have hre : r = 2 := (Nat.prime_dvd_prime_iff_eq hr certP0).mp (hr.dvd_of_dvd_pow hc)
      subst hre
      exact zmod_pow_ne_one 41 6 ((41 - 1) / 2) 40 (by decide) (by decide) (by decide)
    have hre : r = 5 := (Nat.prime_dvd_prime_iff_eq hr certP2).mp hdvd
    subst hre
    exact zmod_pow_ne_one 41 6 ((41 - 1) / 5) 10 (by decide) (by decide) (by decide)

theorem certP13 : Nat.Prime 53 := by
  refine lucas_primality 53 ((2 : Nat) : ZMod 53) ?_ ?_
  · exact zmod_pow_eq_one 53 2 (53 - 1) (by decide) (by decide)
  · intro r hr hdvd
    have hfact : (53 : Nat) - 1 = 2 ^ 2 * (13) := by decide
    rw [hfact] at hdvd
    rcases (Nat.Prime.dvd_mul hr).mp hdvd with hc | hdvd
    · have hre : r = 2 := (Nat.prime_dvd_prime_iff_eq hr certP0).mp (hr.dvd_of_dvd_pow hc)
      subst hre
      exact zmod_pow_ne_one 53 2 ((53 - 1) / 2) 52 (by decide) (by decide) (by decide)
    have hre : r = 13 := (Nat.prime_dvd_prime_iff_eq hr certP5).mp hdvd
    subst hre
    exact zmod_pow_ne_one 53 2 ((53 - 1) / 13) 16 (by decide) (by decide) (by decide)

theorem certP14 : Nat.Prime 59 := by
  refine lucas_primality 59 ((2 : Nat) : ZMod 59) ?_ ?_
  · exact zmod_pow_eq_one 59 2 (59 - 1) (by decide) (by decide)
  · intro r hr hdvd
    have hfact : (59 : Nat) - 1 = 2 * (29) := by decide
    rw [hfact] at hdvd
    rcases (Nat.Prime.dvd_mul hr).mp hdvd with hc | hdvd
    · have hre : r = 2 := (Nat.prime_dvd_prime_iff_eq hr certP0).mp hc
      subst hre
      exact zmod_pow_ne_one 59 2 ((59 - 1) / 2) 58 (by decide) (by decide) (by decide)
    have hre : r = 29 := (Nat.prime_dvd_prime_iff_eq hr certP9).mp hdvd
    subst hre
    exact zmod_pow_ne_one 59 2 ((59 - 1) / 29) 4 (by decide) (by decide) (by decide)

theorem certP15 : Nat.Prime 67 := by
  refine lucas_primality 67 ((2 : Nat) : ZMod 67) ?_ ?_
  · exact zmod_pow_eq_one 67 2 (67 - 1) (by decide) (by decide)
  · intro r hr hdvd
    have hfact : (67 : Nat) - 1 = 2 * (3 * (11)) := by decide
    rw [hfact] at hdvd
    rcases (Nat.Prime.dvd_mul hr).mp hdvd with hc | hdvd
    · have hre : r = 2 := (Nat.prime_dvd_prime_iff_eq hr certP0).mp hc
      subst hre
      exact zmod_pow_ne_one 67 2 ((67 - 1) / 2) 66 (by decide) (by decide) (by decide)
    rcases (Nat.Prime.dvd_mul hr).mp hdvd with hc | hdvd
    · have hre : r = 3 := (Nat.prime_dvd_prime_iff_eq hr certP1).mp hc
      subst hre
      exact zmod_pow_ne_one 67 2 ((67 - 1) / 3) 37 (by decide) (by decide) (by decide)
    have hre : r = 11 := (Nat.prime_dvd_prime_iff_eq hr certP4).mp hdvd
    subst hre
    exact zmod_pow_ne_one 67 2 ((67 - 1) / 11) 64 (by decide) (by decide) (by decide)

theorem certP16 : Nat.Prime 73 := by
  refine lucas_primality 73 ((5 : Nat) : ZMod 73) ?_ ?_
  · exact zmod_pow_eq_one 73 5 (73 - 1) (by decide) (by decide)
  · intro r hr hdvd
    have hfact : (73 : Nat) - 1 = 2 ^ 3 * (3 ^ 2) := by decide
    rw [hfact] at hdvd
    rcases (Nat.Prime.dvd_mul hr).mp hdvd with hc | hdvd
    · have hre : r = 2 := (Nat.prime_dvd_prime_iff_eq hr certP0).mp (hr.dvd_of_dvd_pow hc)
      subst hre
      exact zmod_pow_ne_one 73 5 ((73 - 1) / 2) 72 (by decide) (by decide) (by decide)
    have hre : r = 3 := (Nat.prime_dvd_prime_iff_eq hr certP1).mp (hr.dvd_of_dvd_pow hdvd)
    subst hre
    exact zmod_pow_ne_one 73 5 ((73 - 1) / 3) 8 (by decide) (by decide) (by decide)

theorem certP17 : Nat.Prime 83 := by
  refine lucas_primality 83 ((2 : Nat) : ZMod 83) ?_ ?_
  · exact zmod_pow_eq_one 83 2 (83 - 1) (by decide) (by decide)
  · intro r hr hdvd
    have hfact : (83 : Nat) - 1 = 2 * (41) := by decide
    rw [hfact] at hdvd
    rcases (Nat.Prime.dvd_mul hr).mp hdvd with hc | hdvd
    · have hre : r = 2 := (Nat.prime_dvd_prime_iff_eq hr certP0).mp hc
      subst hre
      exact zmod_pow_ne_one 83 2 ((83 - 1) / 2) 82 (by decide) (by decide) (by decide)
    have hre : r = 41 := (Nat.prime_dvd_prime_iff_eq hr certP12).mp hdvd
    subst hre
    exact zmod_pow_ne_one 83 2 ((83 - 1) / 41) 4 (by decide) (by decide) (by decide)

theorem certP18 : Nat.Prime 97 := by
  refine lucas_primality 97 ((5 : Nat) : ZMod 97) ?_ ?_
  · exact zmod_pow_eq_one 97 5 (97 - 1) (by decide) (by decide)
  · intro r hr hdvd
    have hfact : (97 : Nat) - 1 = 2 ^ 5 * (3) := by decide
    rw [hfact] at hdvd
    rcases (Nat.Prime.dvd_mul hr).mp hdvd with hc | hdvd
    · have hre : r = 2 := (Nat.prime_dvd_prime_iff_eq hr certP0).mp (hr.dvd_of_dvd_pow hc)
      subst hre
      exact zmod_pow_ne_one 97 5 ((97 - 1) / 2) 96 (by decide) (by decide) (by decide)
    have hre : r = 3 := (Nat.prime_dvd_prime_iff_eq hr certP1).mp hdvd
    subst hre
    exact zmod_pow_ne_one 97 5 ((97 - 1) / 3) 35 (by decide) (by decide) (by decide)

theorem certP19 : Nat.Prime 101 := by
  refine lucas_primality 101 ((2 : Nat) : ZMod 101) ?_ ?_
  · exact zmod_pow_eq_one 101 2 (101 - 1) (by decide) (by decide)
  · intro r hr hdvd
    have hfact : (101 : Nat) - 1 = 2 ^ 2 * (5 ^ 2) := by decide
    rw [hfact] at hdvd
    rcases (Nat.Prime.dvd_mul hr).mp hdvd with hc | hdvd
    · have hre : r = 2 := (Nat.prime_dvd_prime_iff_eq hr certP0).mp (hr.dvd_of_dvd_pow hc)
      subst hre
      exact zmod_pow_ne_one 101 2 ((101 - 1) / 2) 100 (by decide) (by decide) (by decide)
    have hre : r = 5 := (Nat.prime_dvd_prime_iff_eq hr certP2).mp (hr.dvd_of_dvd_pow hdvd)
    subst hre
    exact zmod_pow_ne_one 101 2 ((101 - 1) / 5) 95 (by decide) (by decide) (by decide)

theorem certP20 : Nat.Prime 103 := by
  refine lucas_primality 103 ((5 : Nat) : ZMod 103) ?_ ?_
  · exact zmod_pow_eq_one 103 5 (103 - 1) (by decide) (by decide)
  · intro r hr hdvd
    have hfact : (103 : Nat) - 1 = 2 * (3 * (17)) := by decide
    rw [hfact] at hdvd
    rcases (Nat.Prime.dvd_mul hr).mp hdvd with hc | hdvd
    · have hre : r = 2 := (Nat.prime_dvd_prime_iff_eq hr certP0).mp hc
      subst hre
      exact zmod_pow_ne_one 103 5 ((103 - 1) / 2) 102 (by decide) (by decide) (by decide)
    rcases (Nat.Prime.dvd_mul hr).mp hdvd with hc | hdvd
    · have hre : r = 3 := (Nat.prime_dvd_prime_iff_eq hr certP1).mp hc
      subst hre
      exact zmod_pow_ne_one 103 5 ((103 - 1) / 3) 56 (by decide) (by decide) (by decide)
    have hre : r = 17 := (Nat.prime_dvd_prime_iff_eq hr certP6).mp hdvd
    subst hre
    exact zmod_pow_ne_one 103 5 ((103 - 1) / 17) 72 (by decide) (by decide) (by decide)

theorem certP21 : Nat.Prime 109 := by
  refine lucas_primality 109 ((6 : Nat) : ZMod 109) ?_ ?_
  · exact zmod_pow_eq_one 109 6 (109 - 1) (by decide) (by decide)
  · intro r hr hdvd
    have hfact : (109 : Nat) - 1 = 2 ^ 2 * (3 ^ 3) := by decide
    rw [hfact] at hdvd
    rcases (Nat.Prime.dvd_mul hr).mp hdvd with hc | hdvd
    · have hre : r = 2 := (Nat.prime_dvd_prime_iff_eq hr certP0).mp (hr.dvd_of_dvd_pow hc)
      subst hre
      exact zmod_pow_ne_one 109 6 ((109 - 1) / 2) 108 (by decide) (by decide) (by decide)
    have hre : r = 3 := (Nat.prime_dvd_prime_iff_eq hr certP1).mp (hr.dvd_of_dvd_pow hdvd)
    subst hre
    exact zmod_pow_ne_one 109 6 ((109 - 1) / 3) 63 (by decide) (by decide) (by decide)

theorem certP22 : Nat.Prime 113 := by
  refine lucas_primality 113 ((3 : Nat) : ZMod 113) ?_ ?_
  · exact zmod_pow_eq_one 113 3 (113 - 1) (by decide) (by decide)
  · intro r hr hdvd
    have hfact : (113 : Nat) - 1 = 2 ^ 4 * (7) := by decide
    rw [hfact] at hdvd
    rcases (Nat.Prime.dvd_mul hr).mp hdvd with hc | hdvd
    · have hre : r = 2 := (Nat.prime_dvd_prime_iff_eq hr certP0).mp (hr.dvd_of_dvd_pow hc)
      subst hre
      exact zmod_pow_ne_one 113 3 ((113 - 1) / 2) 112 (by decide) (by decide) (by decide)
    have hre : r = 7 := (Nat.prime_dvd_prime_iff_eq hr certP3).mp hdvd
    subst hre
    exact zmod_pow_ne_one 113 3 ((113 - 1) / 7) 49 (by decide) (by decide) (by decide)

theorem certP23 : Nat.Prime 131 := by
  refine lucas_primality 131 ((2 : Nat) : ZMod 131) ?_ ?_
  · exact zmod_pow_eq_one 131 2 (131 - 1) (by decide) (by decide)
  · intro r hr hdvd
    have hfact : (131 : Nat) - 1 = 2 * (5 * (13)) := by decide
    rw [hfact] at hdvd
    rcases (Nat.Prime.dvd_mul hr).mp hdvd with hc | hdvd
    · have hre : r = 2 := (Nat.prime_dvd_prime_iff_eq hr certP0).mp hc
      subst hre
      exact zmod_pow_ne_one 131 2 ((131 - 1) / 2) 130 (by decide) (by decide) (by decide)
    rcases (Nat.Prime.dvd_mul hr).mp hdvd with hc | hdvd
    · have hre : r = 5 := (Nat.prime_dvd_prime_iff_eq hr certP2).mp hc
      subst hre
      exact zmod_pow_ne_one 131 2 ((131 - 1) / 5) 53 (by decide) (by decide) (by decide)
    have hre : r = 13 := (Nat.prime_dvd_prime_iff_eq hr certP5).mp hdvd
    subst hre
    exact zmod_pow_ne_one 131 2 ((131 - 1) / 13) 107 (by decide) (by decide) (by decide)

theorem certP24 : Nat.Prime 149 := by
  refine lucas_primality 149 ((2 : Nat) : ZMod 149) ?_ ?_
  · exact zmod_pow_eq_one 149 2 (149 - 1) (by decide) (by decide)
  · intro r hr hdvd
    have hfact : (149 : Nat) - 1 = 2 ^ 2 * (37) := by decide
    rw [hfact] at hdvd
    rcases (Nat.Prime.dvd_mul hr).mp hdvd with hc | hdvd
    · have hre : r = 2 := (Nat.prime_dvd_prime_iff_eq hr certP0).mp (hr.dvd_of_dvd_pow hc)
      subst hre
      exact zmod_pow_ne_one 149 2 ((149 - 1) / 2) 148 (by decide) (by decide) (by decide)
    have hre : r = 37 := (Nat.prime_dvd_prime_iff_eq hr certP11).mp hdvd
    subst hre
    exact zmod_pow_ne_one 149 2 ((149 - 1) / 37) 16 (by decide) (by decide) (by decide)

theorem certP25 : Nat.Prime 199 := by
  refine lucas_primality 199 ((3 : Nat) : ZMod 199) ?_ ?_
  · exact zmod_pow_eq_one 199 3 (199 - 1) (by decide) (by decide)
  · intro r hr hdvd
    have hfact : (199 : Nat) - 1 = 2 * (3 ^ 2 * (11)) := by decide
    rw [hfact] at hdvd
    rcases (Nat.Prime.dvd_mul hr).mp hdvd with hc | hdvd
    · have hre : r = 2 := (Nat.prime_dvd_prime_iff_eq hr certP0).mp hc
      subst hre
      exact zmod_pow_ne_one 199 3 ((199 - 1) / 2) 198 (by decide) (by decide) (by decide)
    rcases (Nat.Prime.dvd_mul hr).mp hdvd with hc | hdvd
    · have hre : r = 3 := (Nat.prime_dvd_prime_iff_eq hr certP1).mp (hr.dvd_of_dvd_pow hc)
      subst hre
      exact zmod_pow_ne_one 199 3 ((199 - 1) / 3) 106 (by decide) (by decide) (by decide)
    have hre : r = 11 := (Nat.prime_dvd_prime_iff_eq hr certP4).mp hdvd
    subst hre
    exact zmod_pow_ne_one 199 3 ((199 - 1) / 11) 125 (by decide) (by decide) (by decide)

theorem certP26 : Nat.Prime 239 := by
  refine lucas_primality 239 ((7 : Nat) : ZMod 239) ?_ ?_
  · exact zmod_pow_eq_one 239 7 (239 - 1) (by decide) (by decide)
  · intro r hr hdvd
    have hfact : (239 : Nat) - 1 = 2 * (7 * (17)) := by decide
    rw [hfact] at hdvd
    rcases (Nat.Prime.dvd_mul hr).mp hdvd with hc | hdvd
    · have hre : r = 2 := (Nat.prime_dvd_prime_iff_eq hr certP0).mp hc
      subst hre
      exact zmod_pow_ne_one 239 7 ((239 - 1) / 2) 238 (by decide) (by decide) (by decide)
    rcases (Nat.Prime.dvd_mul hr).mp hdvd with hc | hdvd
    · have hre : r = 7 := (Nat.prime_dvd_prime_iff_eq hr certP3).mp hc
      subst hre
      exact zmod_pow_ne_one 239 7 ((239 - 1) / 7) 24 (by decide) (by decide) (by decide)
    have hre : r = 17 := (Nat.prime_dvd_prime_iff_eq hr certP6).mp hdvd
    subst hre
    exact zmod_pow_ne_one 239 7 ((239 - 1) / 17) 211 (by decide) (by decide) (by decide)

theorem certP27 : Nat.Prime 271 := by
  refine lucas_primality 271 ((6 : Nat) : ZMod 271) ?_ ?_
  · exact zmod_pow_eq_one 271 6 (271 - 1) (by decide) (by decide)
  · intro r hr hdvd
    have hfact : (271 : Nat) - 1 = 2 * (3 ^ 3 * (5)) := by decide
    rw [hfact] at hdvd
    rcases (Nat.Prime.dvd_mul hr).mp hdvd with hc | hdvd
    · have hre : r = 2 := (Nat.prime_dvd_prime_iff_eq hr certP0).mp hc
      subst hre
      exact zmod_pow_ne_one 271 6 ((271 - 1) / 2) 270 (by decide) (by decide) (by decide)
    rcases (Nat.Prime.dvd_mul hr).mp hdvd with hc | hdvd
    · have hre : r = 3 := (Nat.prime_dvd_prime_iff_eq hr certP1).mp (hr.dvd_of_dvd_pow hc)
      subst hre
      exact zmod_pow_ne_one 271 6 ((271 - 1) / 3) 242 (by decide) (by decide) (by decide)
    have hre : r = 5 := (Nat.prime_dvd_prime_iff_eq hr certP2).mp hdvd
    subst hre
    exact zmod_pow_ne_one 271 6 ((271 - 1) / 5) 10 (by decide) (by decide) (by decide)

theorem certP28 : Nat.Prime 293 := by
  refine lucas_primality 293 ((2 : Nat) : ZMod 293) ?_ ?_
  · exact zmod_pow_eq_one 293 2 (293 - 1) (by decide) (by decide)
  · intro r hr hdvd
    have hfact : (293 : Nat) - 1 = 2 ^ 2 * (73) := by decide
    rw [hfact] at hdvd
    rcases (Nat.Prime.dvd_mul hr).mp hdvd with hc | hdvd
    · have hre : r = 2 := (Nat.prime_dvd_prime_iff_eq hr certP0).mp (hr.dvd_of_dvd_pow hc)
      subst hre
      exact zmod_pow_ne_one 293 2 ((293 - 1) / 2) 292 (by decide) (by decide) (by decide)
    have hre : r = 73 := (Nat.prime_dvd_prime_iff_eq hr certP16).mp hdvd
    subst hre
    exact zmod_pow_ne_one 293 2 ((293 - 1) / 73) 16 (by decide) (by decide) (by decide)

theorem certP29 : Nat.Prime 419 := by
  refine lucas_primality 419 ((2 : Nat) : ZMod 419) ?_ ?_
  · exact zmod_pow_eq_one 419 2 (419 - 1) (by decide) (by decide)
  · intro r hr hdvd
    have hfact : (419 : Nat) - 1 = 2 * (11 * (19)) := by decide
    rw [hfact] at hdvd
    rcases (Nat.Prime.dvd_mul hr).mp hdvd with hc | hdvd
    · have hre : r = 2 := (Nat.prime_dvd_prime_iff_eq hr certP0).mp hc
      subst hre
      exact zmod_pow_ne_one 419 2 ((419 - 1) / 2) 418 (by decide) (by decide) (by decide)
    rcases (Nat.Prime.dvd_mul hr).mp hdvd with hc | hdvd
    · have hre : r = 11 := (Nat.prime_dvd_prime_iff_eq hr certP4).mp hc
      subst hre
      exact zmod_pow_ne_one 419 2 ((419 - 1) / 11) 334 (by decide) (by decide) (by decide)
    have hre : r = 19 := (Nat.prime_dvd_prime_iff_eq hr certP7).mp hdvd
    subst hre
    exact zmod_pow_ne_one 419 2 ((419 - 1) / 19) 114 (by decide) (by decide) (by decide)

theorem certP30 : Nat.Prime 443 := by
  refine lucas_primality 443 ((2 : Nat) : ZMod 443) ?_ ?_
  · exact zmod_pow_eq_one 443 2 (443 - 1) (by decide) (by decide)
  · intro r hr hdvd
    have hfact : (443 : Nat) - 1 = 2 * (13 * (17)) := by decide
    rw [hfact] at hdvd
    rcases (Nat.Prime.dvd_mul hr).mp hdvd with hc | hdvd
    · have hre : r = 2 := (Nat.prime_dvd_prime_iff_eq hr certP0).mp hc
      subst hre
      exact zmod_pow_ne_one 443 2 ((443 - 1) / 2) 442 (by decide) (by decide) (by decide)
    rcases (Nat.Prime.dvd_mul hr).mp hdvd with hc | hdvd
    · have hre : r = 13 := (Nat.prime_dvd_prime_iff_eq hr certP5).mp hc
      subst hre
      exact zmod_pow_ne_one 443 2 ((443 - 1) / 13) 35 (by decide) (by decide) (by decide)
    have hre : r = 17 := (Nat.prime_dvd_prime_iff_eq hr certP6).mp hdvd
    subst hre
    exact zmod_pow_ne_one 443 2 ((443 - 1) / 17) 123 (by decide) (by decide) (by decide)

theorem certP31 : Nat.Prime 461 := by
  refine lucas_primality 461 ((2 : Nat) : ZMod 461) ?_ ?_
  · exact zmod_pow_eq_one 461 2 (461 - 1) (by decide) (by decide)
  · intro r hr hdvd
    have hfact : (461 : Nat) - 1 = 2 ^ 2 * (5 * (23)) := by decide
    rw [hfact] at hdvd
    rcases (Nat.Prime.dvd_mul hr).mp hdvd with hc | hdvd
    · have hre : r = 2 := (Nat.prime_dvd_prime_iff_eq hr certP0).mp (hr.dvd_of_dvd_pow hc)
      subst hre
      exact zmod_pow_ne_one 461 2 ((461 - 1) / 2) 460 (by decide) (by decide) (by decide)
    rcases (Nat.Prime.dvd_mul hr).mp hdvd with hc | hdvd
    · have hre : r = 5 := (Nat.prime_dvd_prime_iff_eq hr certP2).mp hc
      subst hre
      exact zmod_pow_ne_one 461 2 ((461 - 1) / 5) 88 (by decide) (by decide) (by decide)
    have hre : r = 23 := (Nat.prime_dvd_prime_iff_eq hr certP8).mp hdvd
    subst hre
    exact zmod_pow_ne_one 461 2 ((461 - 1) / 23) 262 (by decide) (by decide) (by decide)

theorem certP32 : Nat.Prime 631 := by
  refine lucas_primality 631 ((3 : Nat) : ZMod 631) ?_ ?_
  · exact zmod_pow_eq_one 631 3 (631 - 1) (by decide) (by decide)
  · intro r hr hdvd
    have hfact : (631 : Nat) - 1 = 2 * (3 ^ 2 * (5 * (7))) := by decide
    rw [hfact] at hdvd
    rcases (Nat.Prime.dvd_mul hr).mp hdvd with hc | hdvd
    · have hre : r = 2 := (Nat.prime_dvd_prime_iff_eq hr certP0).mp hc
      subst hre
      exact zmod_pow_ne_one 631 3 ((631 - 1) / 2) 630 (by decide) (by decide) (by decide)
    rcases (Nat.Prime.dvd_mul hr).mp hdvd with hc | hdvd
    · have hre : r = 3 := (Nat.prime_dvd_prime_iff_eq hr certP1).mp (hr.dvd_of_dvd_pow hc)
      subst hre
      exact zmod_pow_ne_one 631 3 ((631 - 1) / 3) 587 (by decide) (by decide) (by decide)
    rcases (Nat.Prime.dvd_mul hr).mp hdvd with hc | hdvd
    · have hre : r = 5 := (Nat.prime_dvd_prime_iff_eq hr certP2).mp hc
      subst hre
      exact zmod_pow_ne_one 631 3 ((631 - 1) / 5) 242 (by decide) (by decide) (by decide)
    have hre : r = 7 := (Nat.prime_dvd_prime_iff_eq hr certP3).mp hdvd
    subst hre
    exact zmod_pow_ne_one 631 3 ((631 - 1) / 7) 269 (by decide) (by decide) (by decide)

theorem certP33 : Nat.Prime 797 := by
  refine lucas_primality 797 ((2 : Nat) : ZMod 797) ?_ ?_
  · exact zmod_pow_eq_one 797 2 (797 - 1) (by decide) (by decide)
  · intro r hr hdvd
    have hfact : (797 : Nat) - 1 = 2 ^ 2 * (199) := by decide
    rw [hfact] at hdvd
    rcases (Nat.Prime.dvd_mul hr).mp hdvd with hc | hdvd
    · have hre : r = 2 := (Nat.prime_dvd_prime_iff_eq hr certP0).mp (hr.dvd_of_dvd_pow hc)
      subst hre
      exact zmod_pow_ne_one 797 2 ((797 - 1) / 2) 796 (by decide) (by decide) (by decide)
    have hre : r = 199 := (Nat.prime_dvd_prime_iff_eq hr certP25).mp hdvd
    subst hre
    exact zmod_pow_ne_one 797 2 ((797 - 1) / 199) 16 (by decide) (by decide) (by decide)

theorem certP34 : Nat.Prime 887 := by
  refine lucas_primality 887 ((5 : Nat) : ZMod 887) ?_ ?_
  · exact zmod_pow_eq_one 887 5 (887 - 1) (by decide) (by decide)
  · intro r hr hdvd
    have hfact : (887 : Nat) - 1 = 2 * (443) := by decide
    rw [hfact] at hdvd
    rcases (Nat.Prime.dvd_mul hr).mp hdvd with hc | hdvd
    · have hre : r = 2 := (Nat.prime_dvd_prime_iff_eq hr certP0).mp hc
      subst hre
      exact zmod_pow_ne_one 887 5 ((887 - 1) / 2) 886 (by decide) (by decide) (by decide)
    have hre : r = 443 := (Nat.prime_dvd_prime_iff_eq hr certP30).mp hdvd
    subst hre
    exact zmod_pow_ne_one 887 5 ((887 - 1) / 443) 25 (by decide) (by decide) (by decide)

theorem certP35 : Nat.Prime 971 := by
  refine lucas_primality 971 ((6 : Nat) : ZMod 971) ?_ ?_
  · exact zmod_pow_eq_one 971 6 (971 - 1) (by decide) (by decide)
  · intro r hr hdvd
    have hfact : (971 : Nat) - 1 = 2 * (5 * (97)) := by decide
    rw [hfact] at hdvd
    rcases (Nat.Prime.dvd_mul hr).mp hdvd with hc | hdvd
    · have hre : r = 2 := (Nat.prime_dvd_prime_iff_eq hr certP0).mp hc
      subst hre
      exact zmod_pow_ne_one 971 6 ((971 - 1) / 2) 970 (by decide) (by decide) (by decide)
    rcases (Nat.Prime.dvd_mul hr).mp hdvd with hc | hdvd
    · have hre : r = 5 := (Nat.prime_dvd_prime_iff_eq hr certP2).mp hc
      subst hre
      exact zmod_pow_ne_one 971 6 ((971 - 1) / 5) 341 (by decide) (by decide) (by decide)
    have hre : r = 97 := (Nat.prime_dvd_prime_iff_eq hr certP18).mp hdvd
    subst hre
    exact zmod_pow_ne_one 971 6 ((971 - 1) / 97) 64 (by decide) (by decide) (by decide)

theorem certP36 : Nat.Prime 1373 := by
  refine lucas_primality 1373 ((2 : Nat) : ZMod 1373) ?_ ?_
  · exact zmod_pow_eq_one 1373 2 (1373 - 1) (by decide) (by decide)
  · intro r hr hdvd
    have hfact : (1373 : Nat) - 1 = 2 ^ 2 * (7 ^ 3) := by decide
    rw [hfact] at hdvd
    rcases (Nat.Prime.dvd_mul hr).mp hdvd with hc | hdvd
    · have hre : r = 2 := (Nat.prime_dvd_prime_iff_eq hr certP0).mp (hr.dvd_of_dvd_pow hc)
      subst hre
      exact zmod_pow_ne_one 1373 2 ((1373 - 1) / 2) 1372 (by decide) (by decide) (by decide)
    have hre : r = 7 := (Nat.prime_dvd_prime_iff_eq hr certP3).mp (hr.dvd_of_dvd_pow hdvd)
    subst hre
    exact zmod_pow_ne_one 1373 2 ((1373 - 1) / 7) 333 (by decide) (by decide) (by decide)

theorem certP37 : Nat.Prime 1409 := by
  refine lucas_primality 1409 ((3 : Nat) : ZMod 1409) ?_ ?_
  · exact zmod_pow_eq_one 1409 3 (1409 - 1) (by decide) (by decide)
  · intro r hr hdvd
    have hfact : (1409 : Nat) - 1 = 2 ^ 7 * (11) := by decide
    rw [hfact] at hdvd
    rcases (Nat.Prime.dvd_mul hr).mp hdvd with hc | hdvd
    · have hre : r = 2 := (Nat.prime_dvd_prime_iff_eq hr certP0).mp (hr.dvd_of_dvd_pow hc)
      subst hre
      exact zmod_pow_ne_one 1409 3 ((1409 - 1) / 2) 1408 (by decide) (by decide) (by decide)
    have hre : r = 11 := (Nat.prime_dvd_prime_iff_eq hr certP4).mp hdvd
    subst hre
    exact zmod_pow_ne_one 1409 3 ((1409 - 1) / 11) 992 (by decide) (by decide) (by decide)

theorem certP38 : Nat.Prime 1627 := by
  refine lucas_primality 1627 ((3 : Nat) : ZMod 1627) ?_ ?_
  · exact zmod_pow_eq_one 1627 3 (1627 - 1) (by decide) (by decide)
  · intro r hr hdvd
    have hfact : (1627 : Nat) - 1 = 2 * (3 * (271)) := by decide
    rw [hfact] at hdvd
    rcases (Nat.Prime.dvd_mul hr).mp hdvd with hc | hdvd
    · have hre : r = 2 := (Nat.prime_dvd_prime_iff_eq hr certP0).mp hc
      subst hre
      exact zmod_pow_ne_one 1627 3 ((1627 - 1) / 2) 1626 (by decide) (by decide) (by decide)
    rcases (Nat.Prime.dvd_mul hr).mp hdvd with hc | hdvd
    · have hre : r = 3 := (Nat.prime_dvd_prime_iff_eq hr certP1).mp hc
      subst hre
      exact zmod_pow_ne_one 1627 3 ((1627 - 1) / 3) 1362 (by decide) (by decide) (by decide)
    have hre : r = 271 := (Nat.prime_dvd_prime_iff_eq hr certP27).mp hdvd
    subst hre
    exact zmod_pow_ne_one 1627 3 ((1627 - 1) / 271) 729 (by decide) (by decide) (by decide)

theorem certP39 : Nat.Prime 1871 := by
  refine lucas_primality 1871 ((14 : Nat) : ZMod 1871) ?_ ?_
  · exact zmod_pow_eq_one 1871 14 (1871 - 1) (by decide) (by decide)
  · intro r hr hdvd
    have hfact : (1871 : Nat) - 1 = 2 * (5 * (11 * (17))) := by decide
    rw [hfact] at hdvd
    rcases (Nat.Prime.dvd_mul hr).mp hdvd with hc | hdvd
    · have hre : r = 2 := (Nat.prime_dvd_prime_iff_eq hr certP0).mp hc
      subst hre
      exact zmod_pow_ne_one 1871 14 ((1871 - 1) / 2) 1870 (by decide) (by decide) (by decide)
    rcases (Nat.Prime.dvd_mul hr).mp hdvd with hc | hdvd
    · have hre : r = 5 := (Nat.prime_dvd_prime_iff_eq hr certP2).mp hc
      subst hre
      exact zmod_pow_ne_one 1871 14 ((1871 - 1) / 5) 932 (by decide) (by decide) (by decide)
    rcases (Nat.Prime.dvd_mul hr).mp hdvd with hc | hdvd
    · have hre : r = 11 := (Nat.prime_dvd_prime_iff_eq hr certP4).mp hc
      subst hre
      exact zmod_pow_ne_one 1871 14 ((1871 - 1) / 11) 1838 (by decide) (by decide) (by decide)
    have hre : r = 17 := (Nat.prime_dvd_prime_iff_eq hr certP6).mp hdvd
    subst hre
    exact zmod_pow_ne_one 1871 14 ((1871 - 1) / 17) 81 (by decide) (by decide) (by decide)

theorem certP40 : Nat.Prime 2011 := by
  refine lucas_primality 2011 ((3 : Nat) : ZMod 2011) ?_ ?_
  · exact zmod_pow_eq_one 2011 3 (2011 - 1) (by decide) (by decide)
  · intro r hr hdvd
    have hfact : (2011 : Nat) - 1 = 2 * (3 * (5 * (67))) := by decide
    rw [hfact] at hdvd
    rcases (Nat.Prime.dvd_mul hr).mp hdvd with hc | hdvd
    · have hre : r = 2 := (Nat.prime_dvd_prime_iff_eq hr certP0).mp hc
      subst hre
      exact zmod_pow_ne_one 2011 3 ((2011 - 1) / 2) 2010 (by decide) (by decide) (by decide)
    rcases (Nat.Prime.dvd_mul hr).mp hdvd with hc | hdvd
    · have hre : r = 3 := (Nat.prime_dvd_prime_iff_eq hr certP1).mp hc
      subst hre
      exact zmod_pow_ne_one 2011 3 ((2011 - 1) / 3) 205 (by decide) (by decide) (by decide)
    rcases (Nat.Prime.dvd_mul hr).mp hdvd with hc | hdvd
    · have hre : r = 5 := (Nat.prime_dvd_prime_iff_eq hr certP2).mp hc
      subst hre
      exact zmod_pow_ne_one 2011 3 ((2011 - 1) / 5) 1328 (by decide) (by decide) (by decide)
    have hre : r = 67 := (Nat.prime_dvd_prime_iff_eq hr certP15).mp hdvd
    subst hre
    exact zmod_pow_ne_one 2011 3 ((2011 - 1) / 67) 1116 (by decide) (by decide) (by decide)

theorem certP41 : Nat.Prime 2621 := by
  refine lucas_primality 2621 ((2 : Nat) : ZMod 2621) ?_ ?_
  · exact zmod_pow_eq_one 2621 2 (2621 - 1) (by decide) (by decide)
  · intro r hr hdvd
    have hfact : (2621 : Nat) - 1 = 2 ^ 2 * (5 * (131)) := by decide
    rw [hfact] at hdvd
    rcases (Nat.Prime.dvd_mul hr).mp hdvd with hc | hdvd
    · have hre : r = 2 := (Nat.prime_dvd_prime_iff_eq hr certP0).mp (hr.dvd_of_dvd_pow hc)
      subst hre
      exact zmod_pow_ne_one 2621 2 ((2621 - 1) / 2) 2620 (by decide) (by decide) (by decide)
    rcases (Nat.Prime.dvd_mul hr).mp hdvd with hc | hdvd
    · have hre : r = 5 := (Nat.prime_dvd_prime_iff_eq hr certP2).mp hc
      subst hre
      exact zmod_pow_ne_one 2621 2 ((2621 - 1) / 5) 1860 (by decide) (by decide) (by decide)
    have hre : r = 131 := (Nat.prime_dvd_prime_iff_eq hr certP23).mp hdvd
    subst hre
    exact zmod_pow_ne_one 2621 2 ((2621 - 1) / 131) 176 (by decide) (by decide) (by decide)

theorem certP42 : Nat.Prime 2657 := by
  refine lucas_primality 2657 ((3 : Nat) : ZMod 2657) ?_ ?_
  · exact zmod_pow_eq_one 2657 3 (2657 - 1) (by decide) (by decide)
  · intro r hr hdvd
    have hfact : (2657 : Nat) - 1 = 2 ^ 5 * (83) := by decide
    rw [hfact] at hdvd
    rcases (Nat.Prime.dvd_mul hr).mp hdvd with hc | hdvd
    · have hre : r = 2 := (Nat.prime_dvd_prime_iff_eq hr certP0).mp (hr.dvd_of_dvd_pow hc)
      subst hre
      exact zmod_pow_ne_one 2657 3 ((2657 - 1) / 2) 2656 (by decide) (by decide) (by decide)
    have hre : r = 83 := (Nat.prime_dvd_prime_iff_eq hr certP17).mp hdvd
    subst hre
    exact zmod_pow_ne_one 2657 3 ((2657 - 1) / 83) 2491 (by decide) (by decide) (by decide)

theorem certP43 : Nat.Prime 2731 := by
  refine lucas_primality 2731 ((3 : Nat) : ZMod 2731) ?_ ?_
  · exact zmod_pow_eq_one 2731 3 (2731 - 1) (by decide) (by decide)
  · intro r hr hdvd
    have hfact : (2731 : Nat) - 1 = 2 * (3 * (5 * (7 * (13)))) := by decide
    rw [hfact] at hdvd
    rcases (Nat.Prime.dvd_mul hr).mp hdvd with hc | hdvd
    · have hre : r = 2 := (Nat.prime_dvd_prime_iff_eq hr certP0).mp hc
      subst hre
      exact zmod_pow_ne_one 2731 3 ((2731 - 1) / 2) 2730 (by decide) (by decide) (by decide)
    rcases (Nat.Prime.dvd_mul hr).mp hdvd with hc | hdvd
    · have hre : r = 3 := (Nat.prime_dvd_prime_iff_eq hr certP1).mp hc
      subst hre
      exact zmod_pow_ne_one 2731 3 ((2731 - 1) / 3) 2284 (by decide) (by decide) (by decide)
    rcases (Nat.Prime.dvd_mul hr).mp hdvd with hc | hdvd
    · have hre : r = 5 := (Nat.prime_dvd_prime_iff_eq hr certP2).mp hc
      subst hre
      exact zmod_pow_ne_one 2731 3 ((2731 - 1) / 5) 1633 (by decide) (by decide) (by decide)
    rcases (Nat.Prime.dvd_mul hr).mp hdvd with hc | hdvd
    · have hre : r = 7 := (Nat.prime_dvd_prime_iff_eq hr certP3).mp hc
      subst hre
      exact zmod_pow_ne_one 2731 3 ((2731 - 1) / 7) 1238 (by decide) (by decide) (by decide)
    have hre : r = 13 := (Nat.prime_dvd_prime_iff_eq hr certP5).mp hdvd
    subst hre
    exact zmod_pow_ne_one 2731 3 ((2731 - 1) / 13) 1024 (by decide) (by decide) (by decide)

theorem certP44 : Nat.Prime 2861 := by
  refine lucas_primality 2861 ((2 : Nat) : ZMod 2861) ?_ ?_
  · exact zmod_pow_eq_one 2861 2 (2861 - 1) (by decide) (by decide)
  · intro r hr hdvd
    have hfact : (2861 : Nat) - 1 = 2 ^ 2 * (5 * (11 * (13))) := by decide
    rw [hfact] at hdvd
    rcases (Nat.Prime.dvd_mul hr).mp hdvd with hc | hdvd
    · have hre : r = 2 := (Nat.prime_dvd_prime_iff_eq hr certP0).mp (hr.dvd_of_dvd_pow hc)
      subst hre
      exact zmod_pow_ne_one 2861 2 ((2861 - 1) / 2) 2860 (by decide) (by decide) (by decide)
    rcases (Nat.Prime.dvd_mul hr).mp hdvd with hc | hdvd
    · have hre : r = 5 := (Nat.prime_dvd_prime_iff_eq hr certP2).mp hc
      subst hre
      exact zmod_pow_ne_one 2861 2 ((2861 - 1) / 5) 2174 (by decide) (by decide) (by decide)
    rcases (Nat.Prime.dvd_mul hr).mp hdvd with hc | hdvd
    · have hre : r = 11 := (Nat.prime_dvd_prime_iff_eq hr certP4).mp hc
      subst hre
      exact zmod_pow_ne_one 2861 2 ((2861 - 1) / 11) 2368 (by decide) (by decide) (by decide)
    have hre : r = 13 := (Nat.prime_dvd_prime_iff_eq hr certP5).mp hdvd
    subst hre
    exact zmod_pow_ne_one 2861 2 ((2861 - 1) / 13) 1385 (by decide) (by decide) (by decide)

theorem certP45 : Nat.Prime 4051 := by
  refine lucas_primality 4051 ((10 : Nat) : ZMod 4051) ?_ ?_
  · exact zmod_pow_eq_one 4051 10 (4051 - 1) (by decide) (by decide)
  · intro r hr hdvd
    have hfact : (4051 : Nat) - 1 = 2 * (3 ^ 4 * (5 ^ 2)) := by decide
    rw [hfact] at hdvd
    rcases (Nat.Prime.dvd_mul hr).mp hdvd with hc | hdvd
    · have hre : r = 2 := (Nat.prime_dvd_prime_iff_eq hr certP0).mp hc
      subst hre
      exact zmod_pow_ne_one 4051 10 ((4051 - 1) / 2) 4050 (by decide) (by decide) (by decide)
    rcases (Nat.Prime.dvd_mul hr).mp hdvd with hc | hdvd
    · have hre : r = 3 := (Nat.prime_dvd_prime_iff_eq hr certP1).mp (hr.dvd_of_dvd_pow hc)
      subst hre
      exact zmod_pow_ne_one 4051 10 ((4051 - 1) / 3) 797 (by decide) (by decide) (by decide)
    have hre : r = 5 := (Nat.prime_dvd_prime_iff_eq hr certP2).mp (hr.dvd_of_dvd_pow hdvd)
    subst hre
    exact zmod_pow_ne_one 4051 10 ((4051 - 1) / 5) 4019 (by decide) (by decide) (by decide)

theorem certP46 : Nat.Prime 4423 := by
  refine lucas_primality 4423 ((3 : Nat) : ZMod 4423) ?_ ?_
  · exact zmod_pow_eq_one 4423 3 (4423 - 1) (by decide) (by decide)
  · intro r hr hdvd
    have hfact : (4423 : Nat) - 1 = 2 * (3 * (11 * (67))) := by decide
    rw [hfact] at hdvd
    rcases (Nat.Prime.dvd_mul hr).mp hdvd with hc | hdvd
    · have hre : r = 2 := (Nat.prime_dvd_prime_iff_eq hr certP0).mp hc
      subst hre
      exact zmod_pow_ne_one 4423 3 ((4423 - 1) / 2) 4422 (by decide) (by decide) (by decide)
    rcases (Nat.Prime.dvd_mul hr).mp hdvd with hc | hdvd
    · have hre : r = 3 := (Nat.prime_dvd_prime_iff_eq hr certP1).mp hc
      subst hre
      exact zmod_pow_ne_one 4423 3 ((4423 - 1) / 3) 66 (by decide) (by decide) (by decide)
    rcases (Nat.Prime.dvd_mul hr).mp hdvd with hc | hdvd
    · have hre : r = 11 := (Nat.prime_dvd_prime_iff_eq hr certP4).mp hc
      subst hre
      exact zmod_pow_ne_one 4423 3 ((4423 - 1) / 11) 285 (by decide) (by decide) (by decide)
    have hre : r = 67 := (Nat.prime_dvd_prime_iff_eq hr certP15).mp hdvd
    subst hre
    exact zmod_pow_ne_one 4423 3 ((4423 - 1) / 67) 4365 (by decide) (by decide) (by decide)

theorem certP47 : Nat.Prime 5323 := by
  refine lucas_primality 5323 ((5 : Nat) : ZMod 5323) ?_ ?_
  · exact zmod_pow_eq_one 5323 5 (5323 - 1) (by decide) (by decide)
  · intro r hr hdvd
    have hfact : (5323 : Nat) - 1 = 2 * (3 * (887)) := by decide
    rw [hfact] at hdvd
    rcases (Nat.Prime.dvd_mul hr).mp hdvd with hc | hdvd
    · have hre : r = 2 := (Nat.prime_dvd_prime_iff_eq hr certP0).mp hc
      subst hre
      exact zmod_pow_ne_one 5323 5 ((5323 - 1) / 2) 5322 (by decide) (by decide) (by decide)
    rcases (Nat.Prime.dvd_mul hr).mp hdvd with hc | hdvd
    · have hre : r = 3 := (Nat.prime_dvd_prime_iff_eq hr certP1).mp hc
      subst hre
      exact zmod_pow_ne_one 5323 5 ((5323 - 1) / 3) 1282 (by decide) (by decide) (by decide)
    have hre : r = 887 := (Nat.prime_dvd_prime_iff_eq hr certP34).mp hdvd
    subst hre
    exact zmod_pow_ne_one 5323 5 ((5323 - 1) / 887) 4979 (by decide) (by decide) (by decide)

theorem certP48 : Nat.Prime 7723 := by
  refine lucas_primality 7723 ((3 : Nat) : ZMod 7723) ?_ ?_
  · exact zmod_pow_eq_one 7723 3 (7723 - 1) (by decide) (by decide)
  · intro r hr hdvd
    have hfact : (7723 : Nat) - 1 = 2 * (3 ^ 3 * (11 * (13))) := by decide
    rw [hfact] at hdvd
    rcases (Nat.Prime.dvd_mul hr).mp hdvd with hc | hdvd
    · have hre : r = 2 := (Nat.prime_dvd_prime_iff_eq hr certP0).mp hc
      subst hre
      exact zmod_pow_ne_one 7723 3 ((7723 - 1) / 2) 7722 (by decide) (by decide) (by decide)
    rcases (Nat.Prime.dvd_mul hr).mp hdvd with hc | hdvd
    · have hre : r = 3 := (Nat.prime_dvd_prime_iff_eq hr certP1).mp (hr.dvd_of_dvd_pow hc)
      subst hre
      exact zmod_pow_ne_one 7723 3 ((7723 - 1) / 3) 917 (by decide) (by decide) (by decide)
    rcases (Nat.Prime.dvd_mul hr).mp hdvd with hc | hdvd
    · have hre : r = 11 := (Nat.prime_dvd_prime_iff_eq hr certP4).mp hc
      subst hre
      exact zmod_pow_ne_one 7723 3 ((7723 - 1) / 11) 2429 (by decide) (by decide) (by decide)
    have hre : r = 13 := (Nat.prime_dvd_prime_iff_eq hr certP5).mp hdvd
    subst hre
    exact zmod_pow_ne_one 7723 3 ((7723 - 1) / 13) 2889 (by decide) (by decide) (by decide)

theorem certP49 : Nat.Prime 9349 := by
  refine lucas_primality 9349 ((2 : Nat) : ZMod 9349) ?_ ?_
  · exact zmod_pow_eq_one 9349 2 (9349 - 1) (by decide) (by decide)
  · intro r hr hdvd
    have hfact : (9349 : Nat) - 1 = 2 ^ 2 * (3 * (19 * (41))) := by decide
    rw [hfact] at hdvd
    rcases (Nat.Prime.dvd_mul hr).mp hdvd with hc | hdvd
    · have hre : r = 2 := (Nat.prime_dvd_prime_iff_eq hr certP0).mp (hr.dvd_of_dvd_pow hc)
      subst hre
      exact zmod_pow_ne_one 9349 2 ((9349 - 1) / 2) 9348 (by decide) (by decide) (by decide)
    rcases (Nat.Prime.dvd_mul hr).mp hdvd with hc | hdvd
    · have hre : r = 3 := (Nat.prime_dvd_prime_iff_eq hr certP1).mp hc
      subst hre
      exact zmod_pow_ne_one 9349 2 ((9349 - 1) / 3) 4020 (by decide) (by decide) (by decide)
    rcases (Nat.Prime.dvd_mul hr).mp hdvd with hc | hdvd
    · have hre : r = 19 := (Nat.prime_dvd_prime_iff_eq hr certP7).mp hc
      subst hre
      exact zmod_pow_ne_one 9349 2 ((9349 - 1) / 19) 4423 (by decide) (by decide) (by decide)
    have hre : r = 41 := (Nat.prime_dvd_prime_iff_eq hr certP12).mp hdvd
    subst hre
    exact zmod_pow_ne_one 9349 2 ((9349 - 1) / 41) 1995 (by decide) (by decide) (by decide)

theorem certP50 : Nat.Prime 13441 := by
  refine lucas_primality 13441 ((11 : Nat) : ZMod 13441) ?_ ?_
  · exact zmod_pow_eq_one 13441 11 (13441 - 1) (by decide) (by decide)
  · intro r hr hdvd
    have hfact : (13441 : Nat) - 1 = 2 ^ 7 * (3 * (5 * (7))) := by decide
    rw [hfact] at hdvd
    rcases (Nat.Prime.dvd_mul hr).mp hdvd with hc | hdvd
    · have hre : r = 2 := (Nat.prime_dvd_prime_iff_eq hr certP0).mp (hr.dvd_of_dvd_pow hc)
      subst hre
      exact zmod_pow_ne_one 13441 11 ((13441 - 1) / 2) 13440 (by decide) (by decide) (by decide)
    rcases (Nat.Prime.dvd_mul hr).mp hdvd with hc | hdvd
    · have hre : r = 3 := (Nat.prime_dvd_prime_iff_eq hr certP1).mp hc
      subst hre
      exact zmod_pow_ne_one 13441 11 ((13441 - 1) / 3) 645 (by decide) (by decide) (by decide)
    rcases (Nat.Prime.dvd_mul hr).mp hdvd with hc | hdvd
    · have hre : r = 5 := (Nat.prime_dvd_prime_iff_eq hr certP2).mp hc
      subst hre
      exact zmod_pow_ne_one 13441 11 ((13441 - 1) / 5) 8733 (by decide) (by decide) (by decide)
    have hre : r = 7 := (Nat.prime_dvd_prime_iff_eq hr certP3).mp hdvd
    subst hre
    exact zmod_pow_ne_one 13441 11 ((13441 - 1) / 7) 10662 (by decide) (by decide) (by decide)

theorem certP51 : Nat.Prime 16699 := by
  refine lucas_primality 16699 ((3 : Nat) : ZMod 16699) ?_ ?_
  · exact zmod_pow_eq_one 16699 3 (16699 - 1) (by decide) (by decide)
  · intro r hr hdvd
    have hfact : (16699 : Nat) - 1 = 2 * (3 * (11 ^ 2 * (23))) := by decide
    rw [hfact] at hdvd
    rcases (Nat.Prime.dvd_mul hr).mp hdvd with hc | hdvd
    · have hre : r = 2 := (Nat.prime_dvd_prime_iff_eq hr certP0).mp hc
      subst hre
      exact zmod_pow_ne_one 16699 3 ((16699 - 1) / 2) 16698 (by decide) (by decide) (by decide)
    rcases (Nat.Prime.dvd_mul hr).mp hdvd with hc | hdvd
    · have hre : r = 3 := (Nat.prime_dvd_prime_iff_eq hr certP1).mp hc
      subst hre
      exact zmod_pow_ne_one 16699 3 ((16699 - 1) / 3) 4376 (by decide) (by decide) (by decide)
    rcases (Nat.Prime.dvd_mul hr).mp hdvd with hc | hdvd
    · have hre : r = 11 := (Nat.prime_dvd_prime_iff_eq hr certP4).mp (hr.dvd_of_dvd_pow hc)
      subst hre
      exact zmod_pow_ne_one 16699 3 ((16699 - 1) / 11) 3130 (by decide) (by decide) (by decide)
    have hre : r = 23 := (Nat.prime_dvd_prime_iff_eq hr certP8).mp hdvd
    subst hre
    exact zmod_pow_ne_one 16699 3 ((16699 - 1) / 23) 7706 (by decide) (by decide) (by decide)

theorem certP52 : Nat.Prime 20113 := by
  refine lucas_primality 20113 ((10 : Nat) : ZMod 20113) ?_ ?_
  · exact zmod_pow_eq_one 20113 10 (20113 - 1) (by decide) (by decide)
  · intro r hr hdvd
    have hfact : (20113 : Nat) - 1 = 2 ^ 4 * (3 * (419)) := by decide
    rw [hfact] at hdvd
    rcases (Nat.Prime.dvd_mul hr).mp hdvd with hc | hdvd
    · have hre : r = 2 := (Nat.prime_dvd_prime_iff_eq hr certP0).mp (hr.dvd_of_dvd_pow hc)
      subst hre
      exact zmod_pow_ne_one 20113 10 ((20113 - 1) / 2) 20112 (by decide) (by decide) (by decide)
    rcases (Nat.Prime.dvd_mul hr).mp hdvd with hc | hdvd
    · have hre : r = 3 := (Nat.prime_dvd_prime_iff_eq hr certP1).mp hc
      subst hre
      exact zmod_pow_ne_one 20113 10 ((20113 - 1) / 3) 5472 (by decide) (by decide) (by decide)
    have hre : r = 419 := (Nat.prime_dvd_prime_iff_eq hr certP29).mp hdvd
    subst hre
    exact zmod_pow_ne_one 20113 10 ((20113 - 1) / 419) 4141 (by decide) (by decide) (by decide)

theorem certP53 : Nat.Prime 24809 := by
  refine lucas_primality 24809 ((6 : Nat) : ZMod 24809) ?_ ?_
  · exact zmod_pow_eq_one 24809 6 (24809 - 1) (by decide) (by decide)
  · intro r hr hdvd
    have hfact : (24809 : Nat) - 1 = 2 ^ 3 * (7 * (443)) := by decide
    rw [hfact] at hdvd
    rcases (Nat.Prime.dvd_mul hr).mp hdvd with hc | hdvd
    · have hre : r = 2 := (Nat.prime_dvd_prime_iff_eq hr certP0).mp (hr.dvd_of_dvd_pow hc)
      subst hre
      exact zmod_pow_ne_one 24809 6 ((24809 - 1) / 2) 24808 (by decide) (by decide) (by decide)
    rcases (Nat.Prime.dvd_mul hr).mp hdvd with hc | hdvd
    · have hre : r = 7 := (Nat.prime_dvd_prime_iff_eq hr certP3).mp hc
      subst hre
      exact zmod_pow_ne_one 24809 6 ((24809 - 1) / 7) 13134 (by decide) (by decide) (by decide)
    have hre : r = 443 := (Nat.prime_dvd_prime_iff_eq hr certP30).mp hdvd
    subst hre
    exact zmod_pow_ne_one 24809 6 ((24809 - 1) / 443) 19364 (by decide) (by decide) (by decide)

theorem certP54 : Nat.Prime 28181 := by
  refine lucas_primality 28181 ((2 : Nat) : ZMod 28181) ?_ ?_
  · exact zmod_pow_eq_one 28181 2 (28181 - 1) (by decide) (by decide)
  · intro r hr hdvd
    have hfact : (28181 : Nat) - 1 = 2 ^ 2 * (5 * (1409)) := by decide
    rw [hfact] at hdvd
    rcases (Nat.Prime.dvd_mul hr).mp hdvd with hc | hdvd
    · have hre : r = 2 := (Nat.prime_dvd_prime_iff_eq hr certP0).mp (hr.dvd_of_dvd_pow hc)
      subst hre
      exact zmod_pow_ne_one 28181 2 ((28181 - 1) / 2) 28180 (by decide) (by decide) (by decide)
    rcases (Nat.Prime.dvd_mul hr).mp hdvd with hc | hdvd
    · have hre : r = 5 := (Nat.prime_dvd_prime_iff_eq hr certP2).mp hc
      subst hre
      exact zmod_pow_ne_one 28181 2 ((28181 - 1) / 5) 26799 (by decide) (by decide) (by decide)
    have hre : r = 1409 := (Nat.prime_dvd_prime_iff_eq hr certP37).mp hdvd
    subst hre
    exact zmod_pow_ne_one 28181 2 ((28181 - 1) / 1409) 5879 (by decide) (by decide) (by decide)

theorem certP55 : Nat.Prime 41201 := by
  refine lucas_primality 41201 ((3 : Nat) : ZMod 41201) ?_ ?_
  · exact zmod_pow_eq_one 41201 3 (41201 - 1) (by decide) (by decide)
  · intro r hr hdvd
    have hfact : (41201 : Nat) - 1 = 2 ^ 4 * (5 ^ 2 * (103)) := by decide
    rw [hfact] at hdvd
    rcases (Nat.Prime.dvd_mul hr).mp hdvd with hc | hdvd
    · have hre : r = 2 := (Nat.prime_dvd_prime_iff_eq hr certP0).mp (hr.dvd_of_dvd_pow hc)
      subst hre
      exact zmod_pow_ne_one 41201 3 ((41201 - 1) / 2) 41200 (by decide) (by decide) (by decide)
    rcases (Nat.Prime.dvd_mul hr).mp hdvd with hc | hdvd
    · have hre : r = 5 := (Nat.prime_dvd_prime_iff_eq hr certP2).mp (hr.dvd_of_dvd_pow hc)
      subst hre
      exact zmod_pow_ne_one 41201 3 ((41201 - 1) / 5) 18549 (by decide) (by decide) (by decide)
    have hre : r = 103 := (Nat.prime_dvd_prime_iff_eq hr certP20).mp hdvd
    subst hre
    exact zmod_pow_ne_one 41201 3 ((41201 - 1) / 103) 16839 (by decide) (by decide) (by decide)

theorem certP56 : Nat.Prime 85831 := by
  refine lucas_primality 85831 ((3 : Nat) : ZMod 85831) ?_ ?_
  · exact zmod_pow_eq_one 85831 3 (85831 - 1) (by decide) (by decide)
  · intro r hr hdvd
    have hfact : (85831 : Nat) - 1 = 2 * (3 * (5 * (2861))) := by decide
    rw [hfact] at hdvd
    rcases (Nat.Prime.dvd_mul hr).mp hdvd with hc | hdvd
    · have hre : r = 2 := (Nat.prime_dvd_prime_iff_eq hr certP0).mp hc
      subst hre
      exact zmod_pow_ne_one 85831 3 ((85831 - 1) / 2) 85830 (by decide) (by decide) (by decide)
    rcases (Nat.Prime.dvd_mul hr).mp hdvd with hc | hdvd
    · have hre : r = 3 := (Nat.prime_dvd_prime_iff_eq hr certP1).mp hc
      subst hre
      exact zmod_pow_ne_one 85831 3 ((85831 - 1) / 3) 48231 (by decide) (by decide) (by decide)
    rcases (Nat.Prime.dvd_mul hr).mp hdvd with hc | hdvd
    · have hre : r = 5 := (Nat.prime_dvd_prime_iff_eq hr certP2).mp hc
      subst hre
      exact zmod_pow_ne_one 85831 3 ((85831 - 1) / 5) 63649 (by decide) (by decide) (by decide)
    have hre : r = 2861 := (Nat.prime_dvd_prime_iff_eq hr certP44).mp hdvd
    subst hre
    exact zmod_pow_ne_one 85831 3 ((85831 - 1) / 2861) 5623 (by decide) (by decide) (by decide)

theorem certP57 : Nat.Prime 96557 := by
  refine lucas_primality 96557 ((2 : Nat) : ZMod 96557) ?_ ?_
  · exact zmod_pow_eq_one 96557 2 (96557 - 1) (by decide) (by decide)
  · intro r hr hdvd
    have hfact : (96557 : Nat) - 1 = 2 ^ 2 * (101 * (239)) := by decide
    rw [hfact] at hdvd
    rcases (Nat.Prime.dvd_mul hr).mp hdvd with hc | hdvd
    · have hre : r = 2 := (Nat.prime_dvd_prime_iff_eq hr certP0).mp (hr.dvd_of_dvd_pow hc)
      subst hre
      exact zmod_pow_ne_one 96557 2 ((96557 - 1) / 2) 96556 (by decide) (by decide) (by decide)
    rcases (Nat.Prime.dvd_mul hr).mp hdvd with hc | hdvd
    · have hre : r = 101 := (Nat.prime_dvd_prime_iff_eq hr certP19).mp hc
      subst hre
      exact zmod_pow_ne_one 96557 2 ((96557 - 1) / 101) 63065 (by decide) (by decide) (by decide)
    have hre : r = 239 := (Nat.prime_dvd_prime_iff_eq hr certP26).mp hdvd
    subst hre
    exact zmod_pow_ne_one 96557 2 ((96557 - 1) / 239) 29586 (by decide) (by decide) (by decide)

theorem certP58 : Nat.Prime 120233 := by
  refine lucas_primality 120233 ((3 : Nat) : ZMod 120233) ?_ ?_
  · exact zmod_pow_eq_one 120233 3 (120233 - 1) (by decide) (by decide)
  · intro r hr hdvd
    have hfact : (120233 : Nat) - 1 = 2 ^ 3 * (7 * (19 * (113))) := by decide
    rw [hfact] at hdvd
    rcases (Nat.Prime.dvd_mul hr).mp hdvd with hc | hdvd
    · have hre : r = 2 := (Nat.prime_dvd_prime_iff_eq hr certP0).mp (hr.dvd_of_dvd_pow hc)
      subst hre
      exact zmod_pow_ne_one 120233 3 ((120233 - 1) / 2) 120232 (by decide) (by decide) (by decide)
    rcases (Nat.Prime.dvd_mul hr).mp hdvd with hc | hdvd
    · have hre : r = 7 := (Nat.prime_dvd_prime_iff_eq hr certP3).mp hc
      subst hre
      exact zmod_pow_ne_one 120233 3 ((120233 - 1) / 7) 41163 (by decide) (by decide) (by decide)
    rcases (Nat.Prime.dvd_mul hr).mp hdvd with hc | hdvd
    · have hre : r = 19 := (Nat.prime_dvd_prime_iff_eq hr certP7).mp hc
      subst hre
      exact zmod_pow_ne_one 120233 3 ((120233 - 1) / 19) 61639 (by decide) (by decide) (by decide)
    have hre : r = 113 := (Nat.prime_dvd_prime_iff_eq hr certP22).mp hdvd
    subst hre
    exact zmod_pow_ne_one 120233 3 ((120233 - 1) / 113) 80142 (by decide) (by decide) (by decide)

theorem certP59 : Nat.Prime 305873 := by
  refine lucas_primality 305873 ((3 : Nat) : ZMod 305873) ?_ ?_
  · exact zmod_pow_eq_one 305873 3 (305873 - 1) (by decide) (by decide)
  · intro r hr hdvd
    have hfact : (305873 : Nat) - 1 = 2 ^ 4 * (7 * (2731)) := by decide
    rw [hfact] at hdvd
    rcases (Nat.Prime.dvd_mul hr).mp hdvd with hc | hdvd
    · have hre : r = 2 := (Nat.prime_dvd_prime_iff_eq hr certP0).mp (hr.dvd_of_dvd_pow hc)
      subst hre
      exact zmod_pow_ne_one 305873 3 ((305873 - 1) / 2) 305872 (by decide) (by decide) (by decide)
    rcases (Nat.Prime.dvd_mul hr).mp hdvd with hc | hdvd
    · have hre : r = 7 := (Nat.prime_dvd_prime_iff_eq hr certP3).mp hc
      subst hre
      exact zmod_pow_ne_one 305873 3 ((305873 - 1) / 7) 145208 (by decide) (by decide) (by decide)
    have hre : r = 2731 := (Nat.prime_dvd_prime_iff_eq hr certP43).mp hdvd
    subst hre
    exact zmod_pow_ne_one 305873 3 ((305873 - 1) / 2731) 133117 (by decide) (by decide) (by decide)

theorem certP60 : Nat.Prime 1206781 := by
  refine lucas_primality 1206781 ((10 : Nat) : ZMod 1206781) ?_ ?_
  · exact zmod_pow_eq_one 1206781 10 (1206781 - 1) (by decide) (by decide)
  · intro r hr hdvd
    have hfact : (1206781 : Nat) - 1 = 2 ^ 2 * (3 * (5 * (20113))) := by decide
    rw [hfact] at hdvd
    rcases (Nat.Prime.dvd_mul hr).mp hdvd with hc | hdvd
    · have hre : r = 2 := (Nat.prime_dvd_prime_iff_eq hr certP0).mp (hr.dvd_of_dvd_pow hc)
      subst hre
      exact zmod_pow_ne_one 1206781 10 ((1206781 - 1) / 2) 1206780 (by decide) (by decide) (by decide)
    rcases (Nat.Prime.dvd_mul hr).mp hdvd with hc | hdvd
    · have hre : r = 3 := (Nat.prime_dvd_prime_iff_eq hr certP1).mp hc
      subst hre
      exact zmod_pow_ne_one 1206781 10 ((1206781 - 1) / 3) 608272 (by decide) (by decide) (by decide)
    rcases (Nat.Prime.dvd_mul hr).mp hdvd with hc | hdvd
    · have hre : r = 5 := (Nat.prime_dvd_prime_iff_eq hr certP2).mp hc
      subst hre
      exact zmod_pow_ne_one 1206781 10 ((1206781 - 1) / 5) 1065415 (by decide) (by decide) (by decide)
    have hre : r = 20113 := (Nat.prime_dvd_prime_iff_eq hr certP52).mp hdvd
    subst hre
    exact zmod_pow_ne_one 1206781 10 ((1206781 - 1) / 20113) 888380 (by decide) (by decide) (by decide)

theorem certP61 : Nat.Prime 1627771 := by
  refine lucas_primality 1627771 ((3 : Nat) : ZMod 1627771) ?_ ?_
  · exact zmod_pow_eq_one 1627771 3 (1627771 - 1) (by decide) (by decide)
  · intro r hr hdvd
    have hfact : (1627771 : Nat) - 1 = 2 * (3 * (5 * (29 * (1871)))) := by decide
    rw [hfact] at hdvd
    rcases (Nat.Prime.dvd_mul hr).mp hdvd with hc | hdvd
    · have hre : r = 2 := (Nat.prime_dvd_prime_iff_eq hr certP0).mp hc
      subst hre
      exact zmod_pow_ne_one 1627771 3 ((1627771 - 1) / 2) 1627770 (by decide) (by decide) (by decide)
    rcases (Nat.Prime.dvd_mul hr).mp hdvd with hc | hdvd
    · have hre : r = 3 := (Nat.prime_dvd_prime_iff_eq hr certP1).mp hc
      subst hre
      exact zmod_pow_ne_one 1627771 3 ((1627771 - 1) / 3) 1274054 (by decide) (by decide) (by decide)
    rcases (Nat.Prime.dvd_mul hr).mp hdvd with hc | hdvd
    · have hre : r = 5 := (Nat.prime_dvd_prime_iff_eq hr certP2).mp hc
      subst hre
      exact zmod_pow_ne_one 1627771 3 ((1627771 - 1) / 5) 528870 (by decide) (by decide) (by decide)
    rcases (Nat.Prime.dvd_mul hr).mp hdvd with hc | hdvd
    · have hre : r = 29 := (Nat.prime_dvd_prime_iff_eq hr certP9).mp hc
      subst hre
      exact zmod_pow_ne_one 1627771 3 ((1627771 - 1) / 29) 366762 (by decide) (by decide) (by decide)
    have hre : r = 1871 := (Nat.prime_dvd_prime_iff_eq hr certP39).mp hdvd
    subst hre
    exact zmod_pow_ne_one 1627771 3 ((1627771 - 1) / 1871) 132478 (by decide) (by decide) (by decide)

theorem certP62 : Nat.Prime 4681609 := by
  refine lucas_primality 4681609 ((23 : Nat) : ZMod 4681609) ?_ ?_
  · exact zmod_pow_eq_one 4681609 23 (4681609 - 1) (by decide) (by decide)
  · intro r hr hdvd
    have hfact : (4681609 : Nat) - 1 = 2 ^ 3 * (3 * (97 * (2011))) := by decide
    rw [hfact] at hdvd
    rcases (Nat.Prime.dvd_mul hr).mp hdvd with hc | hdvd
    · have hre : r = 2 := (Nat.prime_dvd_prime_iff_eq hr certP0).mp (hr.dvd_of_dvd_pow hc)
      subst hre
      exact zmod_pow_ne_one 4681609 23 ((4681609 - 1) / 2) 4681608 (by decide) (by decide) (by decide)
    rcases (Nat.Prime.dvd_mul hr).mp hdvd with hc | hdvd
    · have hre : r = 3 := (Nat.prime_dvd_prime_iff_eq hr certP1).mp hc
      subst hre
      exact zmod_pow_ne_one 4681609 23 ((4681609 - 1) / 3) 4655375 (by decide) (by decide) (by decide)
    rcases (Nat.Prime.dvd_mul hr).mp hdvd with hc | hdvd
    · have hre : r = 97 := (Nat.prime_dvd_prime_iff_eq hr certP18).mp hc
      subst hre
      exact zmod_pow_ne_one 4681609 23 ((4681609 - 1) / 97) 2645224 (by decide) (by decide) (by decide)
    have hre : r = 2011 := (Nat.prime_dvd_prime_iff_eq hr certP40).mp hdvd
    subst hre
    exact zmod_pow_ne_one 4681609 23 ((4681609 - 1) / 2011) 3128060 (by decide) (by decide) (by decide)

theorem certP63 : Nat.Prime 7240687 := by
  refine lucas_primality 7240687 ((3 : Nat) : ZMod 7240687) ?_ ?_
  · exact zmod_pow_eq_one 7240687 3 (7240687 - 1) (by decide) (by decide)
  · intro r hr hdvd
    have hfact : (7240687 : Nat) - 1 = 2 * (3 * (1206781)) := by decide
    rw [hfact] at hdvd
    rcases (Nat.Prime.dvd_mul hr).mp hdvd with hc | hdvd
    · have hre : r = 2 := (Nat.prime_dvd_prime_iff_eq hr certP0).mp hc
      subst hre
      exact zmod_pow_ne_one 7240687 3 ((7240687 - 1) / 2) 7240686 (by decide) (by decide) (by decide)
    rcases (Nat.Prime.dvd_mul hr).mp hdvd with hc | hdvd
    · have hre : r = 3 := (Nat.prime_dvd_prime_iff_eq hr certP1).mp hc
      subst hre
      exact zmod_pow_ne_one 7240687 3 ((7240687 - 1) / 3) 6501936 (by decide) (by decide) (by decide)
    have hre : r = 1206781 := (Nat.prime_dvd_prime_iff_eq hr certP60).mp hdvd
    subst hre
    exact zmod_pow_ne_one 7240687 3 ((7240687 - 1) / 1206781) 729 (by decide) (by decide) (by decide)

theorem certP64 : Nat.Prime 13331831 := by
  refine lucas_primality 13331831 ((13 : Nat) : ZMod 13331831) ?_ ?_
  · exact zmod_pow_eq_one 13331831 13 (13331831 - 1) (by decide) (by decide)
  · intro r hr hdvd
    have hfact : (13331831 : Nat) - 1 = 2 * (5 * (971 * (1373))) := by decide
    rw [hfact] at hdvd
    rcases (Nat.Prime.dvd_mul hr).mp hdvd with hc | hdvd
    · have hre : r = 2 := (Nat.prime_dvd_prime_iff_eq hr certP0).mp hc
      subst hre
      exact zmod_pow_ne_one 13331831 13 ((13331831 - 1) / 2) 13331830 (by decide) (by decide) (by decide)
    rcases (Nat.Prime.dvd_mul hr).mp hdvd with hc | hdvd
    · have hre : r = 5 := (Nat.prime_dvd_prime_iff_eq hr certP2).mp hc
      subst hre
      exact zmod_pow_ne_one 13331831 13 ((13331831 - 1) / 5) 1325729 (by decide) (by decide) (by decide)
    rcases (Nat.Prime.dvd_mul hr).mp hdvd with hc | hdvd
    · have hre : r = 971 := (Nat.prime_dvd_prime_iff_eq hr certP35).mp hc
      subst hre
      exact zmod_pow_ne_one 13331831 13 ((13331831 - 1) / 971) 54862 (by decide) (by decide) (by decide)
    have hre : r = 1373 := (Nat.prime_dvd_prime_iff_eq hr certP36).mp hdvd
    subst hre
    exact zmod_pow_ne_one 13331831 13 ((13331831 - 1) / 1373) 1273336 (by decide) (by decide) (by decide)

theorem certP65 : Nat.Prime 44706919 := by
  refine lucas_primality 44706919 ((6 : Nat) : ZMod 44706919) ?_ ?_
  · exact zmod_pow_eq_one 44706919 6 (44706919 - 1) (by decide) (by decide)
  · intro r hr hdvd
    have hfact : (44706919 : Nat) - 1 = 2 * (3 * (797 * (9349))) := by decide
    rw [hfact] at hdvd
    rcases (Nat.Prime.dvd_mul hr).mp hdvd with hc | hdvd
    · have hre : r = 2 := (Nat.prime_dvd_prime_iff_eq hr certP0).mp hc
      subst hre
      exact zmod_pow_ne_one 44706919 6 ((44706919 - 1) / 2) 44706918 (by decide) (by decide) (by decide)
    rcases (Nat.Prime.dvd_mul hr).mp hdvd with hc | hdvd
    · have hre : r = 3 := (Nat.prime_dvd_prime_iff_eq hr certP1).mp hc
      subst hre
      exact zmod_pow_ne_one 44706919 6 ((44706919 - 1) / 3) 30500379 (by decide) (by decide) (by decide)
    rcases (Nat.Prime.dvd_mul hr).mp hdvd with hc | hdvd
    · have hre : r = 797 := (Nat.prime_dvd_prime_iff_eq hr certP33).mp hc
      subst hre
      exact zmod_pow_ne_one 44706919 6 ((44706919 - 1) / 797) 41156332 (by decide) (by decide) (by decide)
    have hre : r = 9349 := (Nat.prime_dvd_prime_iff_eq hr certP49).mp hdvd
    subst hre
    exact zmod_pow_ne_one 44706919 6 ((44706919 - 1) / 9349) 6711465 (by decide) (by decide) (by decide)

theorem certP66 : Nat.Prime 107590001 := by
  refine lucas_primality 107590001 ((3 : Nat) : ZMod 107590001) ?_ ?_
  · exact zmod_pow_eq_one 107590001 3 (107590001 - 1) (by decide) (by decide)
  · intro r hr hdvd
    have hfact : (107590001 : Nat) - 1 = 2 ^ 4 * (5 ^ 4 * (7 * (29 * (53)))) := by decide
    rw [hfact] at hdvd
    rcases (Nat.Prime.dvd_mul hr).mp hdvd with hc | hdvd
    · have hre : r = 2 := (Nat.prime_dvd_prime_iff_eq hr certP0).mp (hr.dvd_of_dvd_pow hc)
      subst hre
      exact zmod_pow_ne_one 107590001 3 ((107590001 - 1) / 2) 107590000 (by decide) (by decide) (by decide)
    rcases (Nat.Prime.dvd_mul hr).mp hdvd with hc | hdvd
    · have hre : r = 5 := (Nat.prime_dvd_prime_iff_eq hr certP2).mp (hr.dvd_of_dvd_pow hc)
      subst hre
      exact zmod_pow_ne_one 107590001 3 ((107590001 - 1) / 5) 67174630 (by decide) (by decide) (by decide)
    rcases (Nat.Prime.dvd_mul hr).mp hdvd with hc | hdvd
    · have hre : r = 7 := (Nat.prime_dvd_prime_iff_eq hr certP3).mp hc
      subst hre
      exact zmod_pow_ne_one 107590001 3 ((107590001 - 1) / 7) 37492364 (by decide) (by decide) (by decide)
    rcases (Nat.Prime.dvd_mul hr).mp hdvd with hc | hdvd
    · have hre : r = 29 := (Nat.prime_dvd_prime_iff_eq hr certP9).mp hc
      subst hre
      exact zmod_pow_ne_one 107590001 3 ((107590001 - 1) / 29) 32711690 (by decide) (by decide) (by decide)
    have hre : r = 53 := (Nat.prime_dvd_prime_iff_eq hr certP13).mp hdvd
    subst hre
    exact zmod_pow_ne_one 107590001 3 ((107590001 - 1) / 53) 15240736 (by decide) (by decide) (by decide)

theorem certP67 : Nat.Prime 545358713 := by
  refine lucas_primality 545358713 ((5 : Nat) : ZMod 545358713) ?_ ?_
  · exact zmod_pow_eq_one 545358713 5 (545358713 - 1) (by decide) (by decide)
  · intro r hr hdvd
    have hfact : (545358713 : Nat) - 1 = 2 ^ 3 * (41 * (59 * (28181))) := by decide
    rw [hfact] at hdvd
    rcases (Nat.Prime.dvd_mul hr).mp hdvd with hc | hdvd
    · have hre : r = 2 := (Nat.prime_dvd_prime_iff_eq hr certP0).mp (hr.dvd_of_dvd_pow hc)
      subst hre
      exact zmod_pow_ne_one 545358713 5 ((545358713 - 1) / 2) 545358712 (by decide) (by decide) (by decide)
    rcases (Nat.Prime.dvd_mul hr).mp hdvd with hc | hdvd
    · have hre : r = 41 := (Nat.prime_dvd_prime_iff_eq hr certP12).mp hc
      subst hre
      exact zmod_pow_ne_one 545358713 5 ((545358713 - 1) / 41) 232418614 (by decide) (by decide) (by decide)
    rcases (Nat.Prime.dvd_mul hr).mp hdvd with hc | hdvd
    · have hre : r = 59 := (Nat.prime_dvd_prime_iff_eq hr certP14).mp hc
      subst hre
      exact zmod_pow_ne_one 545358713 5 ((545358713 - 1) / 59) 256734421 (by decide) (by decide) (by decide)
    have hre : r = 28181 := (Nat.prime_dvd_prime_iff_eq hr certP54).mp hdvd
    subst hre
    exact zmod_pow_ne_one 545358713 5 ((545358713 - 1) / 28181) 453985277 (by decide) (by decide) (by decide)

theorem certP68 : Nat.Prime 297159362677 := by
  refine lucas_primality 297159362677 ((2 : Nat) : ZMod 297159362677) ?_ ?_
  · exact zmod_pow_eq_one 297159362677 2 (297159362677 - 1) (by decide) (by decide)
  · intro r hr hdvd
    have hfact : (297159362677 : Nat) - 1 = 2 ^ 2 * (3 ^ 2 * (11 * (461 * (1627771)))) := by decide
    rw [hfact] at hdvd
    rcases (Nat.Prime.dvd_mul hr).mp hdvd with hc | hdvd
    · have hre : r = 2 := (Nat.prime_dvd_prime_iff_eq hr certP0).mp (hr.dvd_of_dvd_pow hc)
      subst hre
      exact zmod_pow_ne_one 297159362677 2 ((297159362677 - 1) / 2) 297159362676 (by decide) (by decide) (by decide)
    rcases (Nat.Prime.dvd_mul hr).mp hdvd with hc | hdvd
    · have hre : r = 3 := (Nat.prime_dvd_prime_iff_eq hr certP1).mp (hr.dvd_of_dvd_pow hc)
      subst hre
      exact zmod_pow_ne_one 297159362677 2 ((297159362677 - 1) / 3) 21378871788 (by decide) (by decide) (by decide)
    rcases (Nat.Prime.dvd_mul hr).mp hdvd with hc | hdvd
    · have hre : r = 11 := (Nat.prime_dvd_prime_iff_eq hr certP4).mp hc
      subst hre
      exact zmod_pow_ne_one 297159362677 2 ((297159362677 - 1) / 11) 235971553533 (by decide) (by decide) (by decide)
    rcases (Nat.Prime.dvd_mul hr).mp hdvd with hc | hdvd
    · have hre : r = 461 := (Nat.prime_dvd_prime_iff_eq hr certP31).mp hc
      subst hre
      exact zmod_pow_ne_one 297159362677 2 ((297159362677 - 1) / 461) 238970074943 (by decide) (by decide) (by decide)
    have hre : r = 1627771 := (Nat.prime_dvd_prime_iff_eq hr certP61).mp hdvd
    subst hre
    exact zmod_pow_ne_one 297159362677 2 ((297159362677 - 1) / 1627771) 114170894341 (by decide) (by decide) (by decide)

theorem certP69 : Nat.Prime 107361793816595537 := by
  refine lucas_primality 107361793816595537 ((3 : Nat) : ZMod 107361793816595537) ?_ ?_
  · exact zmod_pow_eq_one 107361793816595537 3 (107361793816595537 - 1) (by decide) (by decide)
  · intro r hr hdvd
    have hfact : (107361793816595537 : Nat) - 1 = 2 ^ 4 * (16699 * (85831 * (4681609))) := by decide
    rw [hfact] at hdvd
    rcases (Nat.Prime.dvd_mul hr).mp hdvd with hc | hdvd
    · have hre : r = 2 := (Nat.prime_dvd_prime_iff_eq hr certP0).mp (hr.dvd_of_dvd_pow hc)
      subst hre
      exact zmod_pow_ne_one 107361793816595537 3 ((107361793816595537 - 1) / 2) 107361793816595536 (by decide) (by decide) (by decide)
    rcases (Nat.Prime.dvd_mul hr).mp hdvd with hc | hdvd
    · have hre : r = 16699 := (Nat.prime_dvd_prime_iff_eq hr certP51).mp hc
      subst hre
      exact zmod_pow_ne_one 107361793816595537 3 ((107361793816595537 - 1) / 16699) 5951470030516601 (by decide) (by decide) (by decide)
    rcases (Nat.Prime.dvd_mul hr).mp hdvd with hc | hdvd
    · have hre : r = 85831 := (Nat.prime_dvd_prime_iff_eq hr certP56).mp hc
      subst hre
      exact zmod_pow_ne_one 107361793816595537 3 ((107361793816595537 - 1) / 85831) 43062364984479349 (by decide) (by decide) (by decide)
    have hre : r = 4681609 := (Nat.prime_dvd_prime_iff_eq hr certP62).mp hdvd
    subst hre
    exact zmod_pow_ne_one 107361793816595537 3 ((107361793816595537 - 1) / 4681609) 38869239624772579 (by decide) (by decide) (by decide)

theorem certP70 : Nat.Prime 173378833005251801 := by
  refine lucas_primality 173378833005251801 ((6 : Nat) : ZMod 173378833005251801) ?_ ?_
  · exact zmod_pow_eq_one 173378833005251801 6 (173378833005251801 - 1) (by decide) (by decide)
  · intro r hr hdvd
    have hfact : (173378833005251801 : Nat) - 1 = 2 ^ 3 * (5 ^ 2 * (2621 * (24809 * (13331831)))) := by decide
    rw [hfact] at hdvd
    rcases (Nat.Prime.dvd_mul hr).mp hdvd with hc | hdvd
    · have hre : r = 2 := (Nat.prime_dvd_prime_iff_eq hr certP0).mp (hr.dvd_of_dvd_pow hc)
      subst hre
      exact zmod_pow_ne_one 173378833005251801 6 ((173378833005251801 - 1) / 2) 173378833005251800 (by decide) (by decide) (by decide)
    rcases (Nat.Prime.dvd_mul hr).mp hdvd with hc | hdvd
    · have hre : r = 5 := (Nat.prime_dvd_prime_iff_eq hr certP2).mp (hr.dvd_of_dvd_pow hc)
      subst hre
      exact zmod_pow_ne_one 173378833005251801 6 ((173378833005251801 - 1) / 5) 152071994513768143 (by decide) (by decide) (by decide)
    rcases (Nat.Prime.dvd_mul hr).mp hdvd with hc | hdvd
    · have hre : r = 2621 := (Nat.prime_dvd_prime_iff_eq hr certP41).mp hc
      subst hre
      exact zmod_pow_ne_one 173378833005251801 6 ((173378833005251801 - 1) / 2621) 25743935490785551 (by decide) (by decide) (by decide)
    rcases (Nat.Prime.dvd_mul hr).mp hdvd with hc | hdvd
    · have hre : r = 24809 := (Nat.prime_dvd_prime_iff_eq hr certP53).mp hc
      subst hre
      exact zmod_pow_ne_one 173378833005251801 6 ((173378833005251801 - 1) / 24809) 5978649957832462 (by decide) (by decide) (by decide)
    have hre : r = 13331831 := (Nat.prime_dvd_prime_iff_eq hr certP64).mp hdvd
    subst hre
    exact zmod_pow_ne_one 173378833005251801 6 ((173378833005251801 - 1) / 13331831) 17954474104786666 (by decide) (by decide) (by decide)

theorem certP71 : Nat.Prime 174723607534414371449 := by
  refine lucas_primality 174723607534414371449 ((3 : Nat) : ZMod 174723607534414371449) ?_ ?_
  · exact zmod_pow_eq_one 174723607534414371449 3 (174723607534414371449 - 1) (by decide) (by decide)
  · intro r hr hdvd
    have hfact : (174723607534414371449 : Nat) - 1 = 2 ^ 3 * (17 * (59 * (4051 * (120233 * (44706919))))) := by decide
    rw [hfact] at hdvd
    rcases (Nat.Prime.dvd_mul hr).mp hdvd with hc | hdvd
    · have hre : r = 2 := (Nat.prime_dvd_prime_iff_eq hr certP0).mp (hr.dvd_of_dvd_pow hc)
      subst hre
      exact zmod_pow_ne_one 174723607534414371449 3 ((174723607534414371449 - 1) / 2) 174723607534414371448 (by decide) (by decide) (by decide)
    rcases (Nat.Prime.dvd_mul hr).mp hdvd with hc | hdvd
    · have hre : r = 17 := (Nat.prime_dvd_prime_iff_eq hr certP6).mp hc
      subst hre
      exact zmod_pow_ne_one 174723607534414371449 3 ((174723607534414371449 - 1) / 17) 143977312736193201955 (by decide) (by decide) (by decide)
    rcases (Nat.Prime.dvd_mul hr).mp hdvd with hc | hdvd
    · have hre : r = 59 := (Nat.prime_dvd_prime_iff_eq hr certP14).mp hc
      subst hre
      exact zmod_pow_ne_one 174723607534414371449 3 ((174723607534414371449 - 1) / 59) 101275312590739994117 (by decide) (by decide) (by decide)
    rcases (Nat.Prime.dvd_mul hr).mp hdvd with hc | hdvd
    · have hre : r = 4051 := (Nat.prime_dvd_prime_iff_eq hr certP45).mp hc
      subst hre
      exact zmod_pow_ne_one 174723607534414371449 3 ((174723607534414371449 - 1) / 4051) 117775491988442121468 (by decide) (by decide) (by decide)
    rcases (Nat.Prime.dvd_mul hr).mp hdvd with hc | hdvd
    · have hre : r = 120233 := (Nat.prime_dvd_prime_iff_eq hr certP58).mp hc
      subst hre
      exact zmod_pow_ne_one 174723607534414371449 3 ((174723607534414371449 - 1) / 120233) 143725591556162883674 (by decide) (by decide) (by decide)
    have hre : r = 44706919 := (Nat.prime_dvd_prime_iff_eq hr certP65).mp hdvd
    subst hre
    exact zmod_pow_ne_one 174723607534414371449 3 ((174723607534414371449 - 1) / 44706919) 72059039805266995621 (by decide) (by decide) (by decide)

theorem certP72 : Nat.Prime 22149492674086928081353 := by
  refine lucas_primality 22149492674086928081353 ((5 : Nat) : ZMod 22149492674086928081353) ?_ ?_
  · exact zmod_pow_eq_one 22149492674086928081353 5 (22149492674086928081353 - 1) (by decide) (by decide)
  · intro r hr hdvd
    have hfact : (22149492674086928081353 : Nat) - 1 = 2 ^ 3 * (3 * (5323 * (173378833005251801))) := by decide
    rw [hfact] at hdvd
    rcases (Nat.Prime.dvd_mul hr).mp hdvd with hc | hdvd
    · have hre : r = 2 := (Nat.prime_dvd_prime_iff_eq hr certP0).mp (hr.dvd_of_dvd_pow hc)
      subst hre
      exact zmod_pow_ne_one 22149492674086928081353 5 ((22149492674086928081353 - 1) / 2) 22149492674086928081352 (by decide) (by decide) (by decide)
    rcases (Nat.Prime.dvd_mul hr).mp hdvd with hc | hdvd
    · have hre : r = 3 := (Nat.prime_dvd_prime_iff_eq hr certP1).mp hc
      subst hre
      exact zmod_pow_ne_one 22149492674086928081353 5 ((22149492674086928081353 - 1) / 3) 10043889752229528935999 (by decide) (by decide) (by decide)
    rcases (Nat.Prime.dvd_mul hr).mp hdvd with hc | hdvd
    · have hre : r = 5323 := (Nat.prime_dvd_prime_iff_eq hr certP47).mp hc
      subst hre
      exact zmod_pow_ne_one 22149492674086928081353 5 ((22149492674086928081353 - 1) / 5323) 6446620476143922066636 (by decide) (by decide) (by decide)
    have hre : r = 173378833005251801 := (Nat.prime_dvd_prime_iff_eq hr certP70).mp hdvd
    subst hre
    exact zmod_pow_ne_one 22149492674086928081353 5 ((22149492674086928081353 - 1) / 173378833005251801) 317195385910872261254 (by decide) (by decide) (by decide)

theorem certP73 : Nat.Prime 132896956044521568488119 := by
  refine lucas_primality 132896956044521568488119 ((6 : Nat) : ZMod 132896956044521568488119) ?_ ?_
  · exact zmod_pow_eq_one 132896956044521568488119 6 (132896956044521568488119 - 1) (by decide) (by decide)
  · intro r hr hdvd
    have hfact : (132896956044521568488119 : Nat) - 1 = 2 * (3 * (22149492674086928081353)) := by decide
    rw [hfact] at hdvd
    rcases (Nat.Prime.dvd_mul hr).mp hdvd with hc | hdvd
    · have hre : r = 2 := (Nat.prime_dvd_prime_iff_eq hr certP0).mp hc
      subst hre
      exact zmod_pow_ne_one 132896956044521568488119 6 ((132896956044521568488119 - 1) / 2) 132896956044521568488118 (by decide) (by decide) (by decide)
    rcases (Nat.Prime.dvd_mul hr).mp hdvd with hc | hdvd
    · have hre : r = 3 := (Nat.prime_dvd_prime_iff_eq hr certP1).mp hc
      subst hre
      exact zmod_pow_ne_one 132896956044521568488119 6 ((132896956044521568488119 - 1) / 3) 76725380987433565404982 (by decide) (by decide) (by decide)
    have hre : r = 22149492674086928081353 := (Nat.prime_dvd_prime_iff_eq hr certP72).mp hdvd
    subst hre
    exact zmod_pow_ne_one 132896956044521568488119 6 ((132896956044521568488119 - 1) / 22149492674086928081353) 46656 (by decide) (by decide) (by decide)

theorem certP74 : Nat.Prime 29047611873442575647497758179 := by
  refine lucas_primality 29047611873442575647497758179 ((2 : Nat) : ZMod 29047611873442575647497758179) ?_ ?_
  · exact zmod_pow_eq_one 29047611873442575647497758179 2 (29047611873442575647497758179 - 1) (by decide) (by decide)
  · intro r hr hdvd
    have hfact : (29047611873442575647497758179 : Nat) - 1 = 2 * (293 * (305873 * (545358713 * (297159362677)))) := by decide
    rw [hfact] at hdvd
    rcases (Nat.Prime.dvd_mul hr).mp hdvd with hc | hdvd
    · have hre : r = 2 := (Nat.prime_dvd_prime_iff_eq hr certP0).mp hc
      subst hre
      exact zmod_pow_ne_one 29047611873442575647497758179 2 ((29047611873442575647497758179 - 1) / 2) 29047611873442575647497758178 (by decide) (by decide) (by decide)
    rcases (Nat.Prime.dvd_mul hr).mp hdvd with hc | hdvd
    · have hre : r = 293 := (Nat.prime_dvd_prime_iff_eq hr certP28).mp hc
      subst hre
      exact zmod_pow_ne_one 29047611873442575647497758179 2 ((29047611873442575647497758179 - 1) / 293) 6256662822391641148461841119 (by decide) (by decide) (by decide)
    rcases (Nat.Prime.dvd_mul hr).mp hdvd with hc | hdvd
    · have hre : r = 305873 := (Nat.prime_dvd_prime_iff_eq hr certP59).mp hc
      subst hre
      exact zmod_pow_ne_one 29047611873442575647497758179 2 ((29047611873442575647497758179 - 1) / 305873) 15515419077790409984750505041 (by decide) (by decide) (by decide)
    rcases (Nat.Prime.dvd_mul hr).mp hdvd with hc | hdvd
    · have hre : r = 545358713 := (Nat.prime_dvd_prime_iff_eq hr certP67).mp hc
      subst hre
      exact zmod_pow_ne_one 29047611873442575647497758179 2 ((29047611873442575647497758179 - 1) / 545358713) 1548700731856248688196814844 (by decide) (by decide) (by decide)
    have hre : r = 297159362677 := (Nat.prime_dvd_prime_iff_eq hr certP68).mp hdvd
    subst hre
    exact zmod_pow_ne_one 29047611873442575647497758179 2 ((29047611873442575647497758179 - 1) / 297159362677) 16062460713643416818883781819 (by decide) (by decide) (by decide)

theorem certP75 : Nat.Prime 341948486974166000522343609283189 := by
  refine lucas_primality 341948486974166000522343609283189 ((2 : Nat) : ZMod 341948486974166000522343609283189) ?_ ?_
  · exact zmod_pow_eq_one 341948486974166000522343609283189 2 (341948486974166000522343609283189 - 1) (by decide) (by decide)
  · intro r hr hdvd
    have hfact : (341948486974166000522343609283189 : Nat) - 1 = 2 ^ 2 * (3 ^ 3 * (109 * (29047611873442575647497758179))) := by decide
    rw [hfact] at hdvd
    rcases (Nat.Prime.dvd_mul hr).mp hdvd with hc | hdvd
    · have hre : r = 2 := (Nat.prime_dvd_prime_iff_eq hr certP0).mp (hr.dvd_of_dvd_pow hc)
      subst hre
      exact zmod_pow_ne_one 341948486974166000522343609283189 2 ((341948486974166000522343609283189 - 1) / 2) 341948486974166000522343609283188 (by decide) (by decide) (by decide)
    rcases (Nat.Prime.dvd_mul hr).mp hdvd with hc | hdvd
    · have hre : r = 3 := (Nat.prime_dvd_prime_iff_eq hr certP1).mp (hr.dvd_of_dvd_pow hc)
      subst hre
      exact zmod_pow_ne_one 341948486974166000522343609283189 2 ((341948486974166000522343609283189 - 1) / 3) 165002932037550746596172898062794 (by decide) (by decide) (by decide)
    rcases (Nat.Prime.dvd_mul hr).mp hdvd with hc | hdvd
    · have hre : r = 109 := (Nat.prime_dvd_prime_iff_eq hr certP21).mp hc
      subst hre
      exact zmod_pow_ne_one 341948486974166000522343609283189 2 ((341948486974166000522343609283189 - 1) / 109) 153618737808983370202320649387857 (by decide) (by decide) (by decide)
    have hre : r = 29047611873442575647497758179 := (Nat.prime_dvd_prime_iff_eq hr certP74).mp hdvd
    subst hre
    exact zmod_pow_ne_one 341948486974166000522343609283189 2 ((341948486974166000522343609283189 - 1) / 29047611873442575647497758179) 291782875431971620014836968593543 (by decide) (by decide) (by decide)

theorem certP76 : Nat.Prime 255515944373312847190720520512484175977 := by
  refine lucas_primality 255515944373312847190720520512484175977 ((3 : Nat) : ZMod 255515944373312847190720520512484175977) ?_ ?_
  · exact zmod_pow_eq_one 255515944373312847190720520512484175977 3 (255515944373312847190720520512484175977 - 1) (by decide) (by decide)
  · intro r hr hdvd
    have hfact : (255515944373312847190720520512484175977 : Nat) - 1 = 2 ^ 3 * (7 ^ 2 * (11 * (1627 * (2657 * (4423 * (41201 * (96557 * (7240687 * (107590001))))))))) := by decide
    rw [hfact] at hdvd
    rcases (Nat.Prime.dvd_mul hr).mp hdvd with hc | hdvd
    · have hre : r = 2 := (Nat.prime_dvd_prime_iff_eq hr certP0).mp (hr.dvd_of_dvd_pow hc)
      subst hre
      exact zmod_pow_ne_one 255515944373312847190720520512484175977 3 ((255515944373312847190720520512484175977 - 1) / 2) 255515944373312847190720520512484175976 (by decide) (by decide) (by decide)
    rcases (Nat.Prime.dvd_mul hr).mp hdvd with hc | hdvd
    · have hre : r = 7 := (Nat.prime_dvd_prime_iff_eq hr certP3).mp (hr.dvd_of_dvd_pow hc)
      subst hre
      exact zmod_pow_ne_one 255515944373312847190720520512484175977 3 ((255515944373312847190720520512484175977 - 1) / 7) 101630464857884484146913207008716355375 (by decide) (by decide) (by decide)
    rcases (Nat.Prime.dvd_mul hr).mp hdvd with hc | hdvd
    · have hre : r = 11 := (Nat.prime_dvd_prime_iff_eq hr certP4).mp hc
      subst hre
      exact zmod_pow_ne_one 255515944373312847190720520512484175977 3 ((255515944373312847190720520512484175977 - 1) / 11) 216514664320154426008163201710470464886 (by decide) (by decide) (by decide)
    rcases (Nat.Prime.dvd_mul hr).mp hdvd with hc | hdvd
    · have hre : r = 1627 := (Nat.prime_dvd_prime_iff_eq hr certP38).mp hc
      subst hre
      exact zmod_pow_ne_one 255515944373312847190720520512484175977 3 ((255515944373312847190720520512484175977 - 1) / 1627) 72473583126275438393254198129422586513 (by decide) (by decide) (by decide)
    rcases (Nat.Prime.dvd_mul hr).mp hdvd with hc | hdvd
    · have hre : r = 2657 := (Nat.prime_dvd_prime_iff_eq hr certP42).mp hc
      subst hre
      exact zmod_pow_ne_one 255515944373312847190720520512484175977 3 ((255515944373312847190720520512484175977 - 1) / 2657) 25264823290665569537380285172105507303 (by decide) (by decide) (by decide)
    rcases (Nat.Prime.dvd_mul hr).mp hdvd with hc | hdvd
    · have hre : r = 4423 := (Nat.prime_dvd_prime_iff_eq hr certP46).mp hc
      subst hre
      exact zmod_pow_ne_one 255515944373312847190720520512484175977 3 ((255515944373312847190720520512484175977 - 1) / 4423) 83399280779944061005050044694706920693 (by decide) (by decide) (by decide)
    rcases (Nat.Prime.dvd_mul hr).mp hdvd with hc | hdvd
    · have hre : r = 41201 := (Nat.prime_dvd_prime_iff_eq hr certP55).mp hc
      subst hre
      exact zmod_pow_ne_one 255515944373312847190720520512484175977 3 ((255515944373312847190720520512484175977 - 1) / 41201) 172827330636526207461984371528411705589 (by decide) (by decide) (by decide)
    rcases (Nat.Prime.dvd_mul hr).mp hdvd with hc | hdvd
    · have hre : r = 96557 := (Nat.prime_dvd_prime_iff_eq hr certP57).mp hc
      subst hre
      exact zmod_pow_ne_one 255515944373312847190720520512484175977 3 ((255515944373312847190720520512484175977 - 1) / 96557) 255259905881023646761568249610326048823 (by decide) (by decide) (by decide)
    rcases (Nat.Prime.dvd_mul hr).mp hdvd with hc | hdvd
    · have hre : r = 7240687 := (Nat.prime_dvd_prime_iff_eq hr certP63).mp hc
      subst hre
      exact zmod_pow_ne_one 255515944373312847190720520512484175977 3 ((255515944373312847190720520512484175977 - 1) / 7240687) 31043399383638056505926561103262574803 (by decide) (by decide) (by decide)
    have hre : r = 107590001 := (Nat.prime_dvd_prime_iff_eq hr certP66).mp hdvd
    subst hre
    exact zmod_pow_ne_one 255515944373312847190720520512484175977 3 ((255515944373312847190720520512484175977 - 1) / 107590001) 18335160587089267704563076742628378053 (by decide) (by decide) (by decide)

theorem certP77 : Nat.Prime 205115282021455665897114700593932402728804164701536103180137503955397371 := by
  refine lucas_primality 205115282021455665897114700593932402728804164701536103180137503955397371 ((10 : Nat) : ZMod 205115282021455665897114700593932402728804164701536103180137503955397371) ?_ ?_
  · exact zmod_pow_eq_one 205115282021455665897114700593932402728804164701536103180137503955397371 10 (205115282021455665897114700593932402728804164701536103180137503955397371 - 1) (by decide) (by decide)
  · intro r hr hdvd
    have hfact : (205115282021455665897114700593932402728804164701536103180137503955397371 : Nat) - 1 = 2 * (3 * (5 * (29 ^ 2 * (31 * (7723 * (132896956044521568488119 * (255515944373312847190720520512484175977))))))) := by decide
    rw [hfact] at hdvd
    rcases (Nat.Prime.dvd_mul hr).mp hdvd with hc | hdvd
    · have hre : r = 2 := (Nat.prime_dvd_prime_iff_eq hr certP0).mp hc
      subst hre
      exact zmod_pow_ne_one 205115282021455665897114700593932402728804164701536103180137503955397371 10 ((205115282021455665897114700593932402728804164701536103180137503955397371 - 1) / 2) 205115282021455665897114700593932402728804164701536103180137503955397370 (by decide) (by decide) (by decide)
    rcases (Nat.Prime.dvd_mul hr).mp hdvd with hc | hdvd
    · have hre : r = 3 := (Nat.prime_dvd_prime_iff_eq hr certP1).mp hc
      subst hre
      exact zmod_pow_ne_one 205115282021455665897114700593932402728804164701536103180137503955397371 10 ((205115282021455665897114700593932402728804164701536103180137503955397371 - 1) / 3) 178616112238072933217230078226700686412819640559154366246118991325153614 (by decide) (by decide) (by decide)
    rcases (Nat.Prime.dvd_mul hr).mp hdvd with hc | hdvd
    · have hre : r = 5 := (Nat.prime_dvd_prime_iff_eq hr certP2).mp hc
      subst hre
      exact zmod_pow_ne_one 205115282021455665897114700593932402728804164701536103180137503955397371 10 ((205115282021455665897114700593932402728804164701536103180137503955397371 - 1) / 5) 148667663605783182964533161827581554934625546150551877457291286907751879 (by decide) (by decide) (by decide)
    rcases (Nat.Prime.dvd_mul hr).mp hdvd with hc | hdvd
    · have hre : r = 29 := (Nat.prime_dvd_prime_iff_eq hr certP9).mp (hr.dvd_of_dvd_pow hc)
      subst hre
      exact zmod_pow_ne_one 205115282021455665897114700593932402728804164701536103180137503955397371 10 ((205115282021455665897114700593932402728804164701536103180137503955397371 - 1) / 29) 90719238424619861502781386762050866835022444605988461034414193158222234 (by decide) (by decide) (by decide)
    rcases (Nat.Prime.dvd_mul hr).mp hdvd with hc | hdvd
    · have hre : r = 31 := (Nat.prime_dvd_prime_iff_eq hr certP10).mp hc
      subst hre
      exact zmod_pow_ne_one 205115282021455665897114700593932402728804164701536103180137503955397371 10 ((205115282021455665897114700593932402728804164701536103180137503955397371 - 1) / 31) 178914599646525377090000213924526954283063588893967770896141456545640969 (by decide) (by decide) (by decide)
    rcases (Nat.Prime.dvd_mul hr).mp hdvd with hc | hdvd
    · have hre : r = 7723 := (Nat.prime_dvd_prime_iff_eq hr certP48).mp hc
      subst hre
      exact zmod_pow_ne_one 205115282021455665897114700593932402728804164701536103180137503955397371 10 ((205115282021455665897114700593932402728804164701536103180137503955397371 - 1) / 7723) 123665784261542600597161422878187596862401757469595512553658861111742805 (by decide) (by decide) (by decide)
    rcases (Nat.Prime.dvd_mul hr).mp hdvd with hc | hdvd
    · have hre : r = 132896956044521568488119 := (Nat.prime_dvd_prime_iff_eq hr certP73).mp hc
      subst hre
      exact zmod_pow_ne_one 205115282021455665897114700593932402728804164701536103180137503955397371 10 ((205115282021455665897114700593932402728804164701536103180137503955397371 - 1) / 132896956044521568488119) 23464812984708083251961214877810561828785050182618072726888556255391050 (by decide) (by decide) (by decide)
    have hre : r = 255515944373312847190720520512484175977 := (Nat.prime_dvd_prime_iff_eq hr certP76).mp hdvd
    subst hre
    exact zmod_pow_ne_one 205115282021455665897114700593932402728804164701536103180137503955397371 10 ((205115282021455665897114700593932402728804164701536103180137503955397371 - 1) / 255515944373312847190720520512484175977) 178266113035923784558209165568976194333480695760850831337861960477148809 (by decide) (by decide) (by decide)

theorem certP78 : Nat.Prime 115792089237316195423570985008687907852837564279074904382605163141518161494337 := by
  refine lucas_primality 115792089237316195423570985008687907852837564279074904382605163141518161494337 ((7 : Nat) : ZMod 115792089237316195423570985008687907852837564279074904382605163141518161494337) ?_ ?_
  · exact zmod_pow_eq_one 115792089237316195423570985008687907852837564279074904382605163141518161494337 7 (115792089237316195423570985008687907852837564279074904382605163141518161494337 - 1) (by decide) (by decide)
  · intro r hr hdvd
    have hfact : (115792089237316195423570985008687907852837564279074904382605163141518161494337 : Nat) - 1 = 2 ^ 6 * (3 * (149 * (631 * (107361793816595537 * (174723607534414371449 * (341948486974166000522343609283189)))))) := by decide
    rw [hfact] at hdvd
    rcases (Nat.Prime.dvd_mul hr).mp hdvd with hc | hdvd
    · have hre : r = 2 := (Nat.prime_dvd_prime_iff_eq hr certP0).mp (hr.dvd_of_dvd_pow hc)
      subst hre
      exact zmod_pow_ne_one 115792089237316195423570985008687907852837564279074904382605163141518161494337 7 ((115792089237316195423570985008687907852837564279074904382605163141518161494337 - 1) / 2) 115792089237316195423570985008687907852837564279074904382605163141518161494336 (by decide) (by decide) (by decide)
    rcases (Nat.Prime.dvd_mul hr).mp hdvd with hc | hdvd
    · have hre : r = 3 := (Nat.prime_dvd_prime_iff_eq hr certP1).mp hc
      subst hre
      exact zmod_pow_ne_one 115792089237316195423570985008687907852837564279074904382605163141518161494337 7 ((115792089237316195423570985008687907852837564279074904382605163141518161494337 - 1) / 3) 78074008874160198520644763525212887401909906723592317393988542598630163514318 (by decide) (by decide) (by decide)
    rcases (Nat.Prime.dvd_mul hr).mp hdvd with hc | hdvd
    · have hre : r = 149 := (Nat.prime_dvd_prime_iff_eq hr certP24).mp hc
      subst hre
      exact zmod_pow_ne_one 115792089237316195423570985008687907852837564279074904382605163141518161494337 7 ((115792089237316195423570985008687907852837564279074904382605163141518161494337 - 1) / 149) 64883128911135277911836602334573374963230868236696644030005288079353585574111 (by decide) (by decide) (by decide)
    rcases (Nat.Prime.dvd_mul hr).mp hdvd with hc | hdvd
    · have hre : r = 631 := (Nat.prime_dvd_prime_iff_eq hr certP32).mp hc
      subst hre
      exact zmod_pow_ne_one 115792089237316195423570985008687907852837564279074904382605163141518161494337 7 ((115792089237316195423570985008687907852837564279074904382605163141518161494337 - 1) / 631) 6252150074946714737332729428705675642972902278047830378127425501959375813903 (by decide) (by decide) (by decide)
    rcases (Nat.Prime.dvd_mul hr).mp hdvd with hc | hdvd
    · have hre : r = 107361793816595537 := (Nat.prime_dvd_prime_iff_eq hr certP69).mp hc
      subst hre
      exact zmod_pow_ne_one 115792089237316195423570985008687907852837564279074904382605163141518161494337 7 ((115792089237316195423570985008687907852837564279074904382605163141518161494337 - 1) / 107361793816595537) 26709443456820378470009624069039436105476083851490662296256974102742433182582 (by decide) (by decide) (by decide)
    rcases (Nat.Prime.dvd_mul hr).mp hdvd with hc | hdvd
    · have hre : r = 174723607534414371449 := (Nat.prime_dvd_prime_iff_eq hr certP71).mp hc
      subst hre
      exact zmod_pow_ne_one 115792089237316195423570985008687907852837564279074904382605163141518161494337 7 ((115792089237316195423570985008687907852837564279074904382605163141518161494337 - 1) / 174723607534414371449) 38287106903381487806596844795024845528187487515989485561747806759347824233212 (by decide) (by decide) (by decide)
    have hre : r = 341948486974166000522343609283189 := (Nat.prime_dvd_prime_iff_eq hr certP75).mp hdvd
    subst hre
    exact zmod_pow_ne_one 115792089237316195423570985008687907852837564279074904382605163141518161494337 7 ((115792089237316195423570985008687907852837564279074904382605163141518161494337 - 1) / 341948486974166000522343609283189) 40330847986065730117990277892798860778585692388550324850907595869688089295689 (by decide) (by decide) (by decide)

theorem certP79 : Nat.Prime 115792089237316195423570985008687907853269984665640564039457584007908834671663 := by
  refine lucas_primality 115792089237316195423570985008687907853269984665640564039457584007908834671663 ((3 : Nat) : ZMod 115792089237316195423570985008687907853269984665640564039457584007908834671663) ?_ ?_
  · exact zmod_pow_eq_one 115792089237316195423570985008687907853269984665640564039457584007908834671663 3 (115792089237316195423570985008687907853269984665640564039457584007908834671663 - 1) (by decide) (by decide)
  · intro r hr hdvd
    have hfact : (115792089237316195423570985008687907853269984665640564039457584007908834671663 : Nat) - 1 = 2 * (3 * (7 * (13441 * (205115282021455665897114700593932402728804164701536103180137503955397371)))) := by decide
    rw [hfact] at hdvd
    rcases (Nat.Prime.dvd_mul hr).mp hdvd with hc | hdvd
    · have hre : r = 2 := (Nat.prime_dvd_prime_iff_eq hr certP0).mp hc
      subst hre
      exact zmod_pow_ne_one 115792089237316195423570985008687907853269984665640564039457584007908834671663 3 ((115792089237316195423570985008687907853269984665640564039457584007908834671663 - 1) / 2) 115792089237316195423570985008687907853269984665640564039457584007908834671662 (by decide) (by decide) (by decide)
    rcases (Nat.Prime.dvd_mul hr).mp hdvd with hc | hdvd
    · have hre : r = 3 := (Nat.prime_dvd_prime_iff_eq hr certP1).mp hc
      subst hre
      exact zmod_pow_ne_one 115792089237316195423570985008687907853269984665640564039457584007908834671663 3 ((115792089237316195423570985008687907853269984665640564039457584007908834671663 - 1) / 3) 60197513588986302554485582024885075108884032450952339817679072026166228089408 (by decide) (by decide) (by decide)
    rcases (Nat.Prime.dvd_mul hr).mp hdvd with hc | hdvd
    · have hre : r = 7 := (Nat.prime_dvd_prime_iff_eq hr certP3).mp hc
      subst hre
      exact zmod_pow_ne_one 115792089237316195423570985008687907853269984665640564039457584007908834671663 3 ((115792089237316195423570985008687907853269984665640564039457584007908834671663 - 1) / 7) 73577166854750709961935200508434814177540983658115200205126683779095497532107 (by decide) (by decide) (by decide)
    rcases (Nat.Prime.dvd_mul hr).mp hdvd with hc | hdvd
    · have hre : r = 13441 := (Nat.prime_dvd_prime_iff_eq hr certP50).mp hc
      subst hre
      exact zmod_pow_ne_one 115792089237316195423570985008687907853269984665640564039457584007908834671663 3 ((115792089237316195423570985008687907853269984665640564039457584007908834671663 - 1) / 13441) 47069427835566023893842355796053529714200560266804286213968496489326012498751 (by decide) (by decide) (by decide)
    have hre : r = 205115282021455665897114700593932402728804164701536103180137503955397371 := (Nat.prime_dvd_prime_iff_eq hr certP77).mp hdvd
    subst hre
    exact zmod_pow_ne_one 115792089237316195423570985008687907853269984665640564039457584007908834671663 3 ((115792089237316195423570985008687907853269984665640564039457584007908834671663 - 1) / 205115282021455665897114700593932402728804164701536103180137503955397371) 15008666919421193757556023654256545850754027412553468855825889464239117716646 (by decide) (by decide) (by decide)

theorem P_prime : Nat.Prime P := by
  show Nat.Prime 115792089237316195423570985008687907853269984665640564039457584007908834671663
  exact certP79

theorem N_prime : Nat.Prime N := by
  show Nat.Prime 115792089237316195423570985008687907852837564279074904382605163141518161494337
  exact certP78

/-! ## Bridge to the Mathlib group law on secp256k1 -/

theorem Wsecp_a1 : Wsecp.a₁ = 0 := rfl

theorem Wsecp_a2 : Wsecp.a₂ = 0 := rfl

theorem Wsecp_a3 : Wsecp.a₃ = 0 := rfl

theorem Wsecp_a4 : Wsecp.a₄ = 0 := rfl

theorem Wsecp_a6 : Wsecp.a₆ = 7 := rfl

theorem Wsecp_negY (x y : ZMod P) : Wsecp.negY x y = -y := by
  rw [WeierstrassCurve.Affine.negY, Wsecp_a1, Wsecp_a3]
  ring

theorem castP_mod (a : Nat) : ((a % P : Nat) : ZMod P) = (a : ZMod P) :=
  ZMod.natCast_mod a P

theorem castP_sub (x : Nat) (h : x < P) : ((P - x : Nat) : ZMod P) = -(x : ZMod P) := by
  rw [Nat.cast_sub h.le, ZMod.natCast_self, zero_sub]

theorem castP_inj (a b : Nat) (ha : a < P) (hb : b < P) (h : (a : ZMod P) = (b : ZMod P)) :
    a = b := by
  have h2 := (ZMod.natCast_eq_natCast_iff' a b P).mp h
  rwa [Nat.mod_eq_of_lt ha, Nat.mod_eq_of_lt hb] at h2

theorem castP_ne_zero (a : Nat) (ha : a < P) (h : a ≠ 0) : (a : ZMod P) ≠ 0 := by
  intro h0
  exact h (castP_inj a 0 ha P_pos (by simpa using h0))

theorem two_ne_zero_P : (2 : ZMod P) ≠ 0 := by decide

theorem pinv_cast [Fact (Nat.Prime P)] (x : Nat) (hx : (x : ZMod P) ≠ 0) :
    ((pinv x : Nat) : ZMod P) = (x : ZMod P)⁻¹ := by
  have h := powModAux_cast P x (P - 2) 256 (by decide)
  rw [pinv, h]
  have hmul : (x : ZMod P) * (x : ZMod P) ^ (P - 2) = 1 := by
    rw [← pow_succ']
    have h2 : P - 2 + 1 = P - 1 := by decide
    rw [h2]
    exact ZMod.pow_card_sub_one_eq_one hx
  exact (inv_eq_of_mul_eq_one_right hmul).symm

theorem point_ext {x1 y1 x2 y2 : ZMod P} (h1 : Wsecp.Nonsingular x1 y1)
    (h2 : Wsecp.Nonsingular x2 y2) (hx : x1 = x2) (hy : y1 = y2) :
    WeierstrassCurve.Affine.Point.some h1 = WeierstrassCurve.Affine.Point.some h2 := by
  subst hx
  subst hy
  rfl

theorem onCurveN_of_equation (x y : Nat) (hx : x < P) (hy : y < P)
    (heq : Wsecp.Equation (x : ZMod P) (y : ZMod P)) : onCurveN x y := by
  refine ⟨hx, hy, ?_⟩
  rw [WeierstrassCurve.Affine.equation_iff, Wsecp_a1, Wsecp_a2, Wsecp_a3, Wsecp_a4,
    Wsecp_a6] at heq
  have hcast : ((y * y : Nat) : ZMod P) = ((x * x * x + 7 : Nat) : ZMod P) := by
    push_cast
    linear_combination heq
  exact (ZMod.natCast_eq_natCast_iff' _ _ _).mp hcast

theorem toPointF_none : toPointF none = 0 := rfl

theorem nonsingular_of_onCurveN (x y : Nat) (h : onCurveN x y) :
    Wsecp.Nonsingular (x : ZMod P) (y : ZMod P) := by
  have hmod : ((y * y : Nat) : ZMod P) = ((x * x * x + 7 : Nat) : ZMod P) :=
    (ZMod.natCast_eq_natCast_iff _ _ _).mpr h.2.2
  push_cast at hmod
  have heq : Wsecp.Equation (x : ZMod P) (y : ZMod P) := by
    rw [WeierstrassCurve.Affine.equation_iff]
    show (y : ZMod P) ^ 2 + 0 * (x : ZMod P) * (y : ZMod P) + 0 * (y : ZMod P) =
      (x : ZMod P) ^ 3 + 0 * (x : ZMod P) ^ 2 + 0 * (x : ZMod P) + 7
    linear_combination hmod
  rw [WeierstrassCurve.Affine.nonsingular_iff]
  refine ⟨heq, ?_⟩
  show ¬0 * (y : ZMod P) = 3 * (x : ZMod P) ^ 2 + 2 * 0 * (x : ZMod P) + 0 ∨
    ¬(y : ZMod P) = -(y : ZMod P) - 0 * (x : ZMod P) - 0
  by_cases h3 : 3 * (x : ZMod P) ^ 2 = 0
  · right
    intro hy
    have hy2 : (y : ZMod P) = -(y : ZMod P) := by linear_combination hy
    have h84 : (84 : ZMod P) = 0 := by
      linear_combination (-12 : ZMod P) * hmod + 6 * (y : ZMod P) * hy2 -
        4 * (x : ZMod P) * h3
    exact absurd h84 (by decide)
  · left
    intro h0
    exact h3 (by linear_combination -h0)

theorem toPointF_some_eq (x y : Nat) (h : onCurveN x y) :
    ∃ hns : Wsecp.Nonsingular (x : ZMod P) (y : ZMod P),
      toPointF (some (x, y)) = WeierstrassCurve.Affine.Point.some hns := by
  exact ⟨nonsingular_of_onCurveN x y h, by simp only [toPointF, dif_pos h]⟩

theorem slope_add_bridge [Fact (Nat.Prime P)] (l x1 y1 x2 y2 : Nat)
    (h1 : onCurveN x1 y1) (h2 : onCurveN x2 y2)
    (hlcast : ((l : Nat) : ZMod P) =
      Wsecp.slope (x1 : ZMod P) (x2 : ZMod P) (y1 : ZMod P) (y2 : ZMod P))
    (hxy : (x1 : ZMod P) = (x2 : ZMod P) →
      (y1 : ZMod P) ≠ Wsecp.negY (x2 : ZMod P) (y2 : ZMod P)) :
    onCurveE (some ((l * l % P + (P - x1) + (P - x2)) % P,
      (l * ((x1 + (P - (l * l % P + (P - x1) + (P - x2)) % P)) % P) % P + (P - y1)) % P)) ∧
    toPointF (some ((l * l % P + (P - x1) + (P - x2)) % P,
      (l * ((x1 + (P - (l * l % P + (P - x1) + (P - x2)) % P)) % P) % P + (P - y1)) % P)) =
      toPointF (some (x1, y1)) + toPointF (some (x2, y2)) := by
  obtain ⟨hns1, hPt1⟩ := toPointF_some_eq x1 y1 h1
  obtain ⟨hns2, hPt2⟩ := toPointF_some_eq x2 y2 h2
  have hX3 : (((l * l % P + (P - x1) + (P - x2)) % P : Nat) : ZMod P) =
      Wsecp.addX (x1 : ZMod P) (x2 : ZMod P)
        (Wsecp.slope (x1 : ZMod P) (x2 : ZMod P) (y1 : ZMod P) (y2 : ZMod P)) := by
    push_cast [castP_mod, castP_sub x1 h1.1, castP_sub x2 h2.1]
    rw [hlcast, WeierstrassCurve.Affine.addX, Wsecp_a1, Wsecp_a2]
    ring
  have hY3 : (((l * ((x1 + (P - (l * l % P + (P - x1) + (P - x2)) % P)) % P) % P +
        (P - y1)) % P : Nat) : ZMod P) =
      Wsecp.addY (x1 : ZMod P) (x2 : ZMod P) (y1 : ZMod P)
        (Wsecp.slope (x1 : ZMod P) (x2 : ZMod P) (y1 : ZMod P) (y2 : ZMod P)) := by
    push_cast [castP_mod, castP_sub x1 h1.1, castP_sub x2 h2.1, castP_sub y1 h1.2.1,
      castP_sub _ (Nat.mod_lt (l * l % P + (P - x1) + (P - x2)) P_pos)]
    simp only [hlcast, WeierstrassCurve.Affine.addY, WeierstrassCurve.Affine.negAddY,
      WeierstrassCurve.Affine.addX, Wsecp_negY, Wsecp_a1, Wsecp_a2, Wsecp_a3]
    ring
  have hcurve3 : onCurveN ((l * l % P + (P - x1) + (P - x2)) % P)
      ((l * ((x1 + (P - (l * l % P + (P - x1) + (P - x2)) % P)) % P) % P + (P - y1)) % P) := by
    refine onCurveN_of_equation _ _ (Nat.mod_lt _ P_pos) (Nat.mod_lt _ P_pos) ?_
    rw [hX3, hY3]
    exact (WeierstrassCurve.Affine.nonsingular_add hns1 hns2 hxy).1
  obtain ⟨hns3, hPt3⟩ := toPointF_some_eq _ _ hcurve3
  refine ⟨hcurve3, ?_⟩
  rw [hPt3, hPt1, hPt2, WeierstrassCurve.Affine.Point.add_of_imp hxy]
  exact point_ext _ _ hX3 hY3

theorem pdouble_bridge [Fact (Nat.Prime P)] (x y : Nat) (h : onCurveN x y) :
    onCurveE (pdouble (some (x, y))) ∧
      toPointF (pdouble (some (x, y))) = toPointF (some (x, y)) + toPointF (some (x, y)) := by
  obtain ⟨hxP, hyP, hcurve⟩ := h
  obtain ⟨hns, hPt⟩ := toPointF_some_eq x y ⟨hxP, hyP, hcurve⟩
  by_cases hy0 : 2 * y % P = 0
  · have hPodd : P % 2 = 1 := by decide
    have hdvd : P ∣ 2 * y := Nat.dvd_of_mod_eq_zero hy0
    have hy' : y = 0 := by
      rcases hdvd with ⟨c, hc⟩
      have hc2 : c < 2 := by
        by_contra hge
        have : P * 2 ≤ P * c := Nat.mul_le_mul_left P (by omega)
        omega
      interval_cases c <;> omega
    subst hy'
    have hzero : pdouble (some (x, 0)) = none := by
      simp [pdouble, hy0]
    rw [hzero, hPt, toPointF_none]
    refine ⟨trivial, (WeierstrassCurve.Affine.Point.add_self_of_Y_eq ?_).symm⟩
    rw [Wsecp_negY]
    simp
  · have hyne : y ≠ 0 := fun h0 => hy0 (by simp [h0])
    have hycast : (y : ZMod P) ≠ 0 := castP_ne_zero y hyP hyne
    have h2P : ((2 * y % P : Nat) : ZMod P) = 2 * (y : ZMod P) := by
      rw [castP_mod]
      push_cast
      ring
    have h2ne : ((2 * y % P : Nat) : ZMod P) ≠ 0 := by
      rw [h2P]
      intro hz
      rcases mul_eq_zero.mp hz with h2z | hyz
      · exact two_ne_zero_P h2z
      · exact hycast hyz
    have hYne : (y : ZMod P) ≠ Wsecp.negY (x : ZMod P) (y : ZMod P) := by
      rw [Wsecp_negY]
      intro hyeq
      have h2y : 2 * (y : ZMod P) = 0 := by linear_combination hyeq
      rcases mul_eq_zero.mp h2y with h2z | hyz
      · exact two_ne_zero_P h2z
      · exact hycast hyz
    have hlcast : ((3 * (x * x % P) % P * pinv (2 * y % P) % P : Nat) : ZMod P) =
        Wsecp.slope (x : ZMod P) (x : ZMod P) (y : ZMod P) (y : ZMod P) := by
      rw [WeierstrassCurve.Affine.slope_of_Y_ne rfl hYne, Wsecp_negY, Wsecp_a1, Wsecp_a2,
        Wsecp_a4, castP_mod]
      push_cast [castP_mod, pinv_cast _ h2ne, h2P]
      rw [div_eq_mul_inv]
      ring_nf
    have hmain := slope_add_bridge (3 * (x * x % P) % P * pinv (2 * y % P) % P) x y x y
      ⟨hxP, hyP, hcurve⟩ ⟨hxP, hyP, hcurve⟩ hlcast (fun _ => hYne)
    simpa only [pdouble, if_neg hy0] using hmain

theorem padd_bridge [Fact (Nat.Prime P)] (p q : Option (Nat × Nat)) (hp : onCurveE p)
    (hq : onCurveE q) :
    onCurveE (padd p q) ∧ toPointF (padd p q) = toPointF p + toPointF q := by
  match p, q with
  | none, none =>
    exact ⟨trivial, by rw [show padd none none = none from rfl, toPointF_none, zero_add]⟩
  | none, some q1 =>
    exact ⟨hq, by rw [show padd none (some q1) = some q1 from rfl, toPointF_none, zero_add]⟩
  | some p1, none =>
    exact ⟨hp, by rw [show padd (some p1) none = some p1 from rfl, toPointF_none, add_zero]⟩
  | some (x1, y1), some (x2, y2) =>
    have hp' : onCurveN x1 y1 := hp
    have hq' : onCurveN x2 y2 := hq
    obtain ⟨hx1, hy1, hc1⟩ := hp'
    obtain ⟨hx2, hy2, hc2⟩ := hq'
    by_cases hxeq : x1 = x2
    · subst hxeq
      by_cases hyeq : y1 = y2
      · subst hyeq
        have hstep : padd (some (x1, y1)) (some (x1, y1)) = pdouble (some (x1, y1)) := by
          simp [padd]
        rw [hstep]
        exact pdouble_bridge x1 y1 ⟨hx1, hy1, hc1⟩
      · obtain ⟨hns1, hPt1⟩ := toPointF_some_eq x1 y1 ⟨hx1, hy1, hc1⟩
        obtain ⟨hns2, hPt2⟩ := toPointF_some_eq x1 y2 ⟨hx1, hy2, hc2⟩
        have hstep : padd (some (x1, y1)) (some (x1, y2)) = none := by
          simp [padd, hyeq]
        have hm1 : ((y1 * y1 : Nat) : ZMod P) = ((x1 * x1 * x1 + 7 : Nat) : ZMod P) :=
          (ZMod.natCast_eq_natCast_iff' _ _ _).mpr hc1
        have hm2 : ((y2 * y2 : Nat) : ZMod P) = ((x1 * x1 * x1 + 7 : Nat) : ZMod P) :=
          (ZMod.natCast_eq_natCast_iff' _ _ _).mpr hc2
        push_cast at hm1 hm2
        have hfac : ((y1 : ZMod P) - y2) * ((y1 : ZMod P) + y2) = 0 := by
          linear_combination hm1 - hm2
        have hyneg : (y1 : ZMod P) = -(y2 : ZMod P) := by
          rcases mul_eq_zero.mp hfac with hh | hh
          · exact absurd (castP_inj y1 y2 hy1 hy2 (by linear_combination hh)) hyeq
          · linear_combination hh
        rw [hstep, toPointF_none, hPt1, hPt2]
        refine ⟨trivial, (WeierstrassCurve.Affine.Point.add_of_Y_eq rfl ?_).symm⟩
        rw [Wsecp_negY]
        exact hyneg
    · have hxcast : (x1 : ZMod P) ≠ (x2 : ZMod P) := fun hh => hxeq (castP_inj _ _ hx1 hx2 hh)
      have hdnz : (((x1 + (P - x2)) % P : Nat) : ZMod P) ≠ 0 := by
        have hdcast : (((x1 + (P - x2)) % P : Nat) : ZMod P) = (x1 : ZMod P) - x2 := by
          push_cast [castP_mod, castP_sub x2 hx2]
          ring
        rw [hdcast]
        exact sub_ne_zero_of_ne hxcast
      have hlcast : (((y1 + (P - y2)) % P * pinv ((x1 + (P - x2)) % P) % P : Nat) : ZMod P) =
          Wsecp.slope (x1 : ZMod P) (x2 : ZMod P) (y1 : ZMod P) (y2 : ZMod P) := by
        rw [WeierstrassCurve.Affine.slope_of_X_ne hxcast, castP_mod]
        push_cast [castP_mod, castP_sub y2 hy2, castP_sub x2 hx2, pinv_cast _ hdnz]
        rw [div_eq_mul_inv]
        ring
      have hxy : (x1 : ZMod P) = (x2 : ZMod P) →
          (y1 : ZMod P) ≠ Wsecp.negY (x2 : ZMod P) (y2 : ZMod P) := fun hh =>
        absurd hh hxcast
      have hmain := slope_add_bridge ((y1 + (P - y2)) % P * pinv ((x1 + (P - x2)) % P) % P)
        x1 y1 x2 y2 ⟨hx1, hy1, hc1⟩ ⟨hx2, hy2, hc2⟩ hlcast hxy
      simpa only [padd, if_neg hxeq] using hmain

theorem pdouble_bridge_any [Fact (Nat.Prime P)] (pt : Option (Nat × Nat)) (hpt : onCurveE pt) :
    onCurveE (pdouble pt) ∧ toPointF (pdouble pt) = toPointF pt + toPointF pt := by
  match pt with
  | none => exact ⟨trivial, by rw [show pdouble none = none from rfl, toPointF_none, add_zero]⟩
  | some (x, y) => exact pdouble_bridge x y hpt

theorem pmulAux_bridge [Fact (Nat.Prime P)] (f : Nat) : ∀ k pt, onCurveE pt → k < 2 ^ f →
    onCurveE (pmulAux f k pt) ∧ toPointF (pmulAux f k pt) = k • toPointF pt := by
  induction f with
  | zero =>
    intro k pt hpt hk
    have hk0 : k = 0 := by simpa using Nat.lt_one_iff.mp hk
    subst hk0
    exact ⟨trivial, by rw [show pmulAux 0 0 pt = none from rfl, toPointF_none, zero_nsmul]⟩
  | succ f ih =>
    intro k pt hpt hk
    by_cases hk0 : k = 0
    · subst hk0
      refine ⟨?_, ?_⟩
      · show onCurveE (if 0 = 0 then none else _)
        rw [if_pos rfl]
        trivial
      · show toPointF (if 0 = 0 then none else _) = _
        rw [if_pos rfl, toPointF_none, zero_nsmul]
    · have hdb := pdouble_bridge_any pt hpt
      have hk2 : k / 2 < 2 ^ f := by
        refine Nat.div_lt_of_lt_mul ?_
        rwa [← pow_succ']
      have hr := ih (k / 2) (pdouble pt) hdb.1 hk2
      have hsmul : toPointF (pmulAux f (k / 2) (pdouble pt)) = (2 * (k / 2)) • toPointF pt := by
        rw [hr.2, hdb.2, ← two_nsmul, ← mul_nsmul]
      by_cases hodd : k % 2 = 1
      · have heq : pmulAux (f + 1) k pt = padd (pmulAux f (k / 2) (pdouble pt)) pt := by
          simp only [pmulAux, if_neg hk0, if_pos hodd]
        have hpa := padd_bridge (pmulAux f (k / 2) (pdouble pt)) pt hr.1 hpt
        rw [heq]
        refine ⟨hpa.1, ?_⟩
        rw [hpa.2, hsmul]
        have hk21 : k = 2 * (k / 2) + 1 := by omega
        calc (2 * (k / 2)) • toPointF pt + toPointF pt
            = (2 * (k / 2) + 1) • toPointF pt := (succ_nsmul _ _).symm
          _ = k • toPointF pt := by rw [← hk21]
      · have heq : pmulAux (f + 1) k pt = pmulAux f (k / 2) (pdouble pt) := by
          simp only [pmulAux, if_neg hk0, if_neg hodd]
        rw [heq]
        refine ⟨hr.1, ?_⟩
        rw [hsmul]
        congr 1
        omega

theorem pmulE_bridge [Fact (Nat.Prime P)] (k : Nat) (pt : Option (Nat × Nat))
    (hpt : onCurveE pt) (hk : k < 2 ^ 257) :
    onCurveE (pmulE k pt) ∧ toPointF (pmulE k pt) = k • toPointF pt :=
  pmulAux_bridge 257 k pt hpt hk

theorem onCurveG : onCurveE G := by
  show onCurveN Gx Gy
  decide

theorem toPointF_G_ne : toPointF G ≠ 0 := by
  obtain ⟨hns, hPt⟩ := toPointF_some_eq Gx Gy (by decide)
  rw [show G = some (Gx, Gy) from rfl, hPt]
  exact WeierstrassCurve.Affine.Point.some_ne_zero hns

theorem nsmulG_order [Fact (Nat.Prime P)] : N • toPointF G = 0 := by
  have hcomp : pmulE N G = none := by decide
  have hb := pmulE_bridge N G onCurveG (by norm_num [N])
  rw [hcomp, toPointF_none] at hb
  exact hb.2.symm

theorem addOrderOf_G [Fact (Nat.Prime P)] : addOrderOf (toPointF G) = N := by
  have hdvd : addOrderOf (toPointF G) ∣ N := addOrderOf_dvd_of_nsmul_eq_zero nsmulG_order
  rcases N_prime.eq_one_or_self_of_dvd _ hdvd with h1 | hN
  · exact absurd (AddMonoid.addOrderOf_eq_one_iff.mp h1) toPointF_G_ne
  · exact hN

theorem nsmulG_eq_zero_iff [Fact (Nat.Prime P)] (k : Nat) : k • toPointF G = 0 ↔ N ∣ k := by
  rw [← addOrderOf_G]
  exact addOrderOf_dvd_iff_nsmul_eq_zero.symm

theorem pmulE_G_eq_none_iff [Fact (Nat.Prime P)] (k : Nat) (hk : k < 2 ^ 257) :
    pmulE k G = none ↔ N ∣ k := by
  have hb := pmulE_bridge k G onCurveG hk
  constructor
  · intro hnone
    rw [hnone, toPointF_none] at hb
    exact (nsmulG_eq_zero_iff k).mp hb.2.symm
  · intro hdvd
    rcases hres : pmulE k G with _ | pt
    · rfl
    · exfalso
      obtain ⟨px, py⟩ := pt
      rw [hres] at hb
      obtain ⟨hns, hPt⟩ := toPointF_some_eq px py hb.1
      have h0 : toPointF (some (px, py)) = 0 := by
        rw [hb.2]
        exact (nsmulG_eq_zero_iff k).mpr hdvd
      rw [hPt] at h0
      exact WeierstrassCurve.Affine.Point.some_ne_zero hns h0

theorem pmulE_G_some [Fact (Nat.Prime P)] (k : Nat) (hk : k < 2 ^ 257) (hnd : ¬N ∣ k) :
    ∃ px py, pmulE k G = some (px, py) ∧ onCurveN px py ∧
      toPointF (some (px, py)) = k • toPointF G := by
  have hb := pmulE_bridge k G onCurveG hk
  rcases hres : pmulE k G with _ | pt
  · exact absurd ((pmulE_G_eq_none_iff k hk).mp hres) hnd
  · obtain ⟨px, py⟩ := pt
    rw [hres] at hb
    exact ⟨px, py, rfl, hb.1, hb.2⟩

theorem beBytes_length (m v : Nat) : (beBytes m v).length = m := by
  rw [beBytes, List.length_reverse, lePad_length]

theorem sqrtP_lt (w : Nat) : sqrtP w < P := powModAux_lt P (by decide) 256 w ((P + 1) / 4)

theorem sqrtP_sq [Fact (Nat.Prime P)] (w y : Nat) (hyP : y < P) (hwP : w < P)
    (hwy : ((w : Nat) : ZMod P) = (y : ZMod P) * y) :
    sqrtP w * sqrtP w % P = w := by
  have hcast := powModAux_cast P w ((P + 1) / 4) 256 (by decide)
  have hsq : ((sqrtP w : Nat) : ZMod P) * ((sqrtP w : Nat) : ZMod P) =
      ((w : Nat) : ZMod P) ^ (2 * ((P + 1) / 4)) := by
    rw [sqrtP, hcast, ← pow_add, two_mul]
  have he1 : 2 * ((P + 1) / 4) = (P + 1) / 2 := by decide
  have he2 : 2 * ((P + 1) / 2) = P + 1 := by decide
  have hkey : ((sqrtP w : Nat) : ZMod P) * ((sqrtP w : Nat) : ZMod P) =
      ((w : Nat) : ZMod P) := by
    rw [hsq, he1, hwy, ← pow_two, ← pow_mul, he2]
    by_cases hy0 : (y : ZMod P) = 0
    · rw [hy0]
      simp
    · have hfer : (y : ZMod P) ^ (P - 1) = 1 := ZMod.pow_card_sub_one_eq_one hy0
      have he3 : P + 1 = 2 + (P - 1) := by decide
      rw [he3, pow_add, hfer, mul_one]
  have hc2 : ((sqrtP w * sqrtP w : Nat) : ZMod P) = ((w : Nat) : ZMod P) := by
    push_cast
    exact hkey
  have h3 := (ZMod.natCast_eq_natCast_iff' _ _ _).mp hc2
  rwa [Nat.mod_eq_of_lt hwP] at h3

theorem decode_encode [Fact (Nat.Prime P)] (x y : Nat) (h : onCurveN x y) :
    decodePoint (encodeCompressed (x, y)) = some (x, y) := by
  obtain ⟨hxP, hyP, hcurve⟩ := h
  have hxlt : x < 256 ^ 32 := lt_trans hxP (by norm_num [P])
  have hPodd : P % 2 = 1 := by decide
  have hbytes : bytesToNat (beBytes 32 x) = x := bytesToNat_beBytes 32 x hxlt
  have hlen : (beBytes 32 x).length = 32 := beBytes_length 32 x
  have hxmod : bytesToNat (beBytes 32 x) % P = x := by rw [hbytes, Nat.mod_eq_of_lt hxP]
  have hwP : (x * (x * x % P) % P + 7) % P < P := Nat.mod_lt _ P_pos
  have hwy : (((x * (x * x % P) % P + 7) % P : Nat) : ZMod P) = (y : ZMod P) * y := by
    have hcc : ((y * y : Nat) : ZMod P) = ((x * x * x + 7 : Nat) : ZMod P) :=
      (ZMod.natCast_eq_natCast_iff' _ _ _).mpr hcurve
    push_cast at hcc
    push_cast [castP_mod]
    linear_combination (-1 : ZMod P) * hcc
  have hsq := sqrtP_sq _ y hyP hwP hwy
  have hy0P : sqrtP ((x * (x * x % P) % P + 7) % P) < P := sqrtP_lt _
  have hy0sq : ((sqrtP ((x * (x * x % P) % P + 7) % P) : Nat) : ZMod P) *
      (sqrtP ((x * (x * x % P) % P + 7) % P) : Nat) = (y : ZMod P) * y := by
    have hc : ((sqrtP ((x * (x * x % P) % P + 7) % P) *
        sqrtP ((x * (x * x % P) % P + 7) % P : Nat) : Nat) : ZMod P) =
        (((x * (x * x % P) % P + 7) % P : Nat) : ZMod P) :=
      (ZMod.natCast_eq_natCast_iff' _ _ _).mpr (by rw [hsq, Nat.mod_eq_of_lt hwP])
    push_cast at hc
    rw [hwy] at hc
    exact hc
  have hfac : (((sqrtP ((x * (x * x % P) % P + 7) % P) : Nat) : ZMod P) - y) *
      (((sqrtP ((x * (x * x % P) % P + 7) % P) : Nat) : ZMod P) + y) = 0 := by
    linear_combination hy0sq
  by_cases hpar : y % 2 = 1
  · have henc : encodeCompressed (x, y) = 3 :: beBytes 32 x := by
      simp [encodeCompressed, hpar]
    rw [henc]
    simp only [decodePoint]
    rw [if_pos ⟨Or.inr trivial, hlen⟩, hxmod, if_neg (not_ne_iff.mpr hsq)]
    rcases mul_eq_zero.mp hfac with hcase | hcase
    · have hy0y : sqrtP ((x * (x * x % P) % P + 7) % P) = y :=
        castP_inj _ y hy0P hyP (by linear_combination hcase)
      rw [if_pos (Or.inl ⟨by rw [hy0y]; exact hpar, trivial⟩), hy0y]
    · have hyne : y ≠ 0 := by
        intro h0
        rw [h0] at hpar
        simp at hpar
      have hy0v : sqrtP ((x * (x * x % P) % P + 7) % P) = P - y := by
        refine castP_inj _ (P - y) hy0P (by omega) ?_
        rw [castP_sub y hyP]
        linear_combination hcase
      have hy0par : sqrtP ((x * (x * x % P) % P + 7) % P) % 2 = 0 := by omega
      rw [if_neg (by rintro (⟨h1, _⟩ | ⟨_, h2⟩) <;> omega), if_neg (by omega)]
      have : P - sqrtP ((x * (x * x % P) % P + 7) % P) = y := by omega
      rw [this]
  · have henc : encodeCompressed (x, y) = 2 :: beBytes 32 x := by
      simp [encodeCompressed, hpar]
    rw [henc]
    simp only [decodePoint]
    rw [if_pos ⟨Or.inl trivial, hlen⟩, hxmod, if_neg (not_ne_iff.mpr hsq)]
    rcases mul_eq_zero.mp hfac with hcase | hcase
    · have hy0y : sqrtP ((x * (x * x % P) % P + 7) % P) = y :=
        castP_inj _ y hy0P hyP (by linear_combination hcase)
      rw [if_pos (Or.inr ⟨by rw [hy0y]; omega, trivial⟩), hy0y]
    · by_cases hyz : y = 0
      · have hy0y : sqrtP ((x * (x * x % P) % P + 7) % P) = y := by
          refine castP_inj _ y hy0P hyP ?_
          rw [hyz]
          push_cast
          have := hcase
          rw [hyz] at this
          push_cast at this
          linear_combination this
        rw [if_pos (Or.inr ⟨by rw [hy0y, hyz], trivial⟩), hy0y]
      · have hy0v : sqrtP ((x * (x * x % P) % P + 7) % P) = P - y := by
          refine castP_inj _ (P - y) hy0P (by omega) ?_
          rw [castP_sub y hyP]
          linear_combination hcase
        have hy0par : sqrtP ((x * (x * x % P) % P + 7) % P) % 2 = 1 := by omega
        rw [if_neg (by rintro (⟨h1, h2⟩ | ⟨h3, _⟩) <;> omega), if_neg (by omega)]
        have : P - sqrtP ((x * (x * x % P) % P + 7) % P) = y := by omega
        rw [this]

theorem bytesToNat_fold_lt (bs : List Nat) : ∀ r, (∀ b ∈ bs, b < 256) →
    bs.foldl (fun a b => a * 256 + b) r < (r + 1) * 256 ^ bs.length := by
  induction bs with
  | nil =>
    intro r _
    simpa using Nat.lt_succ_self r
  | cons b t ih =>
    intro r h
    have hb : b < 256 := h b (List.mem_cons_self b t)
    have ht : ∀ x ∈ t, x < 256 := fun x hx => h x (List.mem_cons_of_mem b hx)
    have h1 := ih (r * 256 + b) ht
    have h2 : (r * 256 + b + 1) * 256 ^ t.length ≤ (r + 1) * 256 ^ (t.length + 1) := by
      have h3 : r * 256 + b + 1 ≤ (r + 1) * 256 := by omega
      calc (r * 256 + b + 1) * 256 ^ t.length
          ≤ (r + 1) * 256 * 256 ^ t.length := Nat.mul_le_mul_right _ h3
        _ = (r + 1) * 256 ^ (t.length + 1) := by rw [pow_succ]; ring
    simp only [List.foldl_cons, List.length_cons]
    exact lt_of_lt_of_le h1 h2

theorem bytesToNat_lt (l : List Nat) (h : ∀ b ∈ l, b < 256) :
    bytesToNat l < 256 ^ l.length := by
  have := bytesToNat_fold_lt l 0 h
  simpa [bytesToNat] using this

theorem pairBytes_length : ∀ l : List Nat, (pairBytes l).length = l.length / 2
  | [] => rfl
  | [x] => by
    show (pairBytes (x :: List.nil)).length = 1 / 2
    rw [show pairBytes (x :: List.nil) = [] from rfl]
    rfl
  | _ :: _ :: t => by
    simp only [pairBytes, List.length_cons, pairBytes_length t]
    omega

/-- C6 (amended): `publicKeyFromPrivateKey` reduces the scalar modulo `n`
(`elliptic` `keyFromPrivate`); it fails only when the scalar is congruent to
`0` modulo `n`, and for every other scalar — including `0 < s` with `s ≥ n` —
it returns the compressed encoding of `(s mod n)·G` rather than failing. -/
theorem claim_C6 (privateKey : List Nat) :
    (bytesToNat privateKey % N = 0 → publicKeyFromPrivateKey privateKey = none) ∧
    (bytesToNat privateKey % N ≠ 0 →
      ∃ px py, pmulE (bytesToNat privateKey % N) G = some (px, py) ∧
        publicKeyFromPrivateKey privateKey = some (encodeCompressed (px, py))) := by
  constructor
  · intro h0
    have hz : pmulE 0 G = none := by decide
    simp only [publicKeyFromPrivateKey, h0, hz]
  · intro hne
    haveI : Fact (Nat.Prime P) := ⟨P_prime⟩
    have hlt : bytesToNat privateKey % N < 2 ^ 257 :=
      lt_trans (Nat.mod_lt _ N_pos) (lt_trans N_lt_two_pow (by norm_num))
    have hnd : ¬N ∣ bytesToNat privateKey % N := by
      intro hdvd
      exact hne (Nat.eq_zero_of_dvd_of_lt hdvd (Nat.mod_lt _ N_pos))
    obtain ⟨px, py, hsome, _, _⟩ := pmulE_G_some _ hlt hnd
    exact ⟨px, py, hsome, by simp only [publicKeyFromPrivateKey, hsome]⟩

theorem claim_C6_witness :
    ∃ px py, pmulE (bytesToNat (beBytes 32 2) % N) G = some (px, py) ∧
      publicKeyFromPrivateKey (beBytes 32 2) = some (encodeCompressed (px, py)) :=
  (claim_C6 (beBytes 32 2)).2 (by decide)

/-- C9 (amended): `computeSignature` performs no validation and, for every
32-byte one-time key whose value is not congruent to `0` modulo `n`, returns
the 32-byte big-endian encoding of the reduced scalar; the reduced scalar
satisfies `s ≤ n` (with `s = n` reachable through the `euclideanMod` defect),
not `s < n`, and at `k ≡ 0 (mod n)` the function throws instead of being
total. -/
theorem claim_C9 (privateKey oneTimeSigningKey message : List Nat)
    (hklen : oneTimeSigningKey.length = 32)
    (hkbytes : ∀ b ∈ oneTimeSigningKey, b < 256)
    (hk : bytesToNat oneTimeSigningKey % N ≠ 0) :
    computeSignature privateKey oneTimeSigningKey message =
      some (beBytes 32 (sigScalar (bytesToNat privateKey)
        (bytesToNat oneTimeSigningKey) message)) ∧
    sigScalar (bytesToNat privateKey) (bytesToNat oneTimeSigningKey) message ≤ N ∧
    (beBytes 32 (sigScalar (bytesToNat privateKey)
      (bytesToNat oneTimeSigningKey) message)).length = 32 := by
  haveI : Fact (Nat.Prime P) := ⟨P_prime⟩
  have hkb : bytesToNat oneTimeSigningKey < 2 ^ 257 := by
    have h1 := bytesToNat_lt oneTimeSigningKey hkbytes
    rw [hklen] at h1
    exact lt_trans h1 (by norm_num)
  have hnd : ¬N ∣ bytesToNat oneTimeSigningKey := fun hd => hk (Nat.mod_eq_zero_of_dvd hd)
  obtain ⟨rx, ry, hR, _, _⟩ := pmulE_G_some _ hkb hnd
  refine ⟨?_, ?_, beBytes_length _ _⟩
  · simp only [computeSignature, sigScalar, hR]
    exact congrArg some (sigPad _ (euclideanMod_toNat_lt _))
  · simp only [sigScalar, hR]
    have hN : (0 : Int) < ((N : Nat) : Int) := by exact_mod_cast N_pos
    exact Int.toNat_le.mpr (euclideanMod_le _ _ hN)

theorem claim_C9_witness :
    computeSignature (beBytes 32 7) (beBytes 32 5) (List.replicate 32 0) =
      some (beBytes 32 (sigScalar (bytesToNat (beBytes 32 7))
        (bytesToNat (beBytes 32 5)) (List.replicate 32 0))) ∧
    sigScalar (bytesToNat (beBytes 32 7)) (bytesToNat (beBytes 32 5))
      (List.replicate 32 0) ≤ N ∧
    (beBytes 32 (sigScalar (bytesToNat (beBytes 32 7)) (bytesToNat (beBytes 32 5))
      (List.replicate 32 0))).length = 32 :=
  claim_C9 (beBytes 32 7) (beBytes 32 5) (List.replicate 32 0)
    (by decide) (by decide) (by decide)

/-- C10: both signing paths hash exactly `message` followed by the bytes of
the minimal even-length hex encoding of the x-coordinate of `R`; when that
coordinate is below `2 ^ 248` fewer than 32 coordinate bytes are hashed, yet
the two hashed strings are identical. -/
theorem claim_C10 (k : Nat) (message : List Nat) (rx ry : Nat)
    (hk : k < 2 ^ 256) (hR : pmulE k G = some (rx, ry)) (hx : rx < 2 ^ 248) :
    (pairBytes (padHexString (hexJS rx))).length < 32 ∧
    sigHashBytes k message = some (message ++ pairBytes (padHexString (hexJS rx))) ∧
    pubHashBytes (encodeCompressed (rx, ry)) message =
      some (message ++ pairBytes (padHexString (hexJS rx))) := by
  haveI : Fact (Nat.Prime P) := ⟨P_prime⟩
  have hb := pmulE_bridge k G onCurveG (lt_trans hk (by norm_num))
  rw [hR] at hb
  have hcurve : onCurveN rx ry := hb.1
  refine ⟨?_, ?_, ?_⟩
  · have h248 : (16 : Nat) ^ 62 = 2 ^ 248 := by norm_num
    have hlen : (hexJS rx).length ≤ 62 :=
      hexJS_length_le 62 rx (by norm_num) (by rw [h248]; exact hx)
    have hplen : (padHexString (hexJS rx)).length ≤ 63 := by
      unfold padHexString
      split
      · simp only [List.length_cons]
        omega
      · omega
    rw [pairBytes_length]
    omega
  · simp only [sigHashBytes, hR]
  · have hdec := decode_encode rx ry hcurve
    simp only [pubHashBytes, hdec]

theorem claim_C10_witness :
    (pairBytes (padHexString (hexJS
      402275873819480217527543954245978242749948912216697339260697277277855307913))).length
      < 32 ∧
    sigHashBytes 153 (List.replicate 32 0) = some (List.replicate 32 0 ++
      pairBytes (padHexString (hexJS
      402275873819480217527543954245978242749948912216697339260697277277855307913))) ∧
    pubHashBytes (encodeCompressed
      (402275873819480217527543954245978242749948912216697339260697277277855307913,
       19411896589701336237661297174692886517905212093130893753719983191330346751652))
      (List.replicate 32 0) = some (List.replicate 32 0 ++
      pairBytes (padHexString (hexJS
      402275873819480217527543954245978242749948912216697339260697277277855307913))) :=
  claim_C10 153 (List.replicate 32 0)
    402275873819480217527543954245978242749948912216697339260697277277855307913
    19411896589701336237661297174692886517905212093130893753719983191330346751652
    (by norm_num) (by decide) (by norm_num)

end Dlc
